import Mathlib

/-!
# CI_Project frontend: search orchestration and graph transformation

A shallow embedding of `Frontend/src/app/page.js`:

* `capitalizeWords`, the query normalisation used for the address bar;
* `transformToGraphData`, the reshaping of a backend response into `{nodes, links}`;
* `handleSearch`, the search handler, as a function from the component state and the
  backend's answers to the next component state and the list of effects it performed;
* `handleTypeChange`, the `popstate` listener `handlePopState` and `handleNodeClick`, in the
  same style; `handleSearchSteps` lists the setter calls and effects of `handleSearch` in program
  order, for the claims about what happens before the requests.

Conventions of the embedding.

* A JavaScript string is a `String`; `===` on strings is equality.
* A property that may be missing, `null` or `undefined` is an `Option`; an object or an array
  is truthy, so `!x` on such a property is `x.isNone`.
* `toUpperCase` / `toLowerCase` are the locale-insensitive full case mappings of Unicode (the
  tables of the Unicode Character Database, with the Final_Sigma rule); a `String` holds
  Unicode scalar values, so a JavaScript string with an unpaired surrogate is out of scope.
* The `useState` setters called by one handler run are applied to the state record in program
  order; a `forEach` over an array is a left fold over the list.
-/

namespace CIProject

/-! ## Backend response shapes -/

/-- Actor record (`name` is the key). -/
structure Actor where
  name : String
  deriving DecidableEq, Repr

/-- Movie record (`title` is the key, `release_date` may be missing). -/
structure Movie where
  title : String
  release_date : Option String
  deriving DecidableEq, Repr

/-- Director record (`name` is the key). -/
structure Director where
  name : String
  deriving DecidableEq, Repr

/-- Response object handed to the transformer: a centre object (`actor`, `movie` or `director`)
and related lists (`movies`, `actors`, `directors`), every property possibly missing. -/
structure Response where
  actor : Option Actor
  movie : Option Movie
  director : Option Director
  movies : Option (List Movie)
  actors : Option (List Actor)
  directors : Option (List Director)
  deriving DecidableEq, Repr

/-! ## Graph shapes -/

/-- Node object pushed to `nodes` (`release_date` is only written for movie nodes). -/
structure GraphNode where
  id : String
  name : String
  type : String
  val : Nat
  release_date : Option String
  collisionRadius : Nat
  deriving DecidableEq, Repr

/-- Link object pushed to `links`. -/
structure GraphLink where
  source : String
  target : String
  distance : Nat
  deriving DecidableEq, Repr

/-- The pair `{ nodes, links }`. -/
structure GraphData where
  nodes : List GraphNode
  links : List GraphLink
  deriving DecidableEq, Repr

/-- The literal `{ nodes: [], links: [] }`. -/
def emptyGraph : GraphData := { nodes := [], links := [] }

/-! ## Unicode case mapping: the built-ins `toUpperCase` and `toLowerCase`

The tables are those of the Unicode Character Database, version 14: the one-to-one mappings of
UnicodeData.txt, the unconditional one-to-many mappings of SpecialCasing.txt, and the derived
properties Cased and Case_Ignorable used by the Final_Sigma rule. -/

/-- One-to-one uppercase mappings outside ASCII (UnicodeData.txt, Unicode 14), as runs
`(first, last, step, target)`: the code point `first + k * step`, up to `last`, maps to
`target + k * step`. -/
def upperRuns : List (Nat × Nat × Nat × Nat) :=
  [
   (181, 181, 1, 924), (224, 246, 1, 192), (248, 254, 1, 216), (255, 255, 1, 376),
   (257, 303, 2, 256), (305, 305, 1, 73), (307, 311, 2, 306), (314, 328, 2, 313),
   (331, 375, 2, 330), (378, 382, 2, 377), (383, 383, 1, 83), (384, 384, 1, 579),
   (387, 389, 2, 386), (392, 392, 1, 391), (396, 396, 1, 395), (402, 402, 1, 401),
   (405, 405, 1, 502), (409, 409, 1, 408), (410, 410, 1, 573), (414, 414, 1, 544),
   (417, 421, 2, 416), (424, 424, 1, 423), (429, 429, 1, 428), (432, 432, 1, 431),
   (436, 438, 2, 435), (441, 441, 1, 440), (445, 445, 1, 444), (447, 447, 1, 503),
   (453, 453, 1, 452), (454, 454, 1, 452), (456, 456, 1, 455), (457, 457, 1, 455),
   (459, 459, 1, 458), (460, 460, 1, 458), (462, 476, 2, 461), (477, 477, 1, 398),
   (479, 495, 2, 478), (498, 498, 1, 497), (499, 499, 1, 497), (501, 501, 1, 500),
   (505, 543, 2, 504), (547, 563, 2, 546), (572, 572, 1, 571), (575, 576, 1, 11390),
   (578, 578, 1, 577), (583, 591, 2, 582), (592, 592, 1, 11375), (593, 593, 1, 11373),
   (594, 594, 1, 11376), (595, 595, 1, 385), (596, 596, 1, 390), (598, 599, 1, 393),
   (601, 601, 1, 399), (603, 603, 1, 400), (604, 604, 1, 42923), (608, 608, 1, 403),
   (609, 609, 1, 42924), (611, 611, 1, 404), (613, 613, 1, 42893), (614, 614, 1, 42922),
   (616, 616, 1, 407), (617, 617, 1, 406), (618, 618, 1, 42926), (619, 619, 1, 11362),
   (620, 620, 1, 42925), (623, 623, 1, 412), (625, 625, 1, 11374), (626, 626, 1, 413),
   (629, 629, 1, 415), (637, 637, 1, 11364), (640, 640, 1, 422), (642, 642, 1, 42949),
   (643, 643, 1, 425), (647, 647, 1, 42929), (648, 648, 1, 430), (649, 649, 1, 580),
   (650, 651, 1, 433), (652, 652, 1, 581), (658, 658, 1, 439), (669, 669, 1, 42930),
   (670, 670, 1, 42928), (837, 837, 1, 921), (881, 883, 2, 880), (887, 887, 1, 886),
   (891, 893, 1, 1021), (940, 940, 1, 902), (941, 943, 1, 904), (945, 961, 1, 913),
   (962, 962, 1, 931), (963, 971, 1, 931), (972, 972, 1, 908), (973, 974, 1, 910),
   (976, 976, 1, 914), (977, 977, 1, 920), (981, 981, 1, 934), (982, 982, 1, 928),
   (983, 983, 1, 975), (985, 1007, 2, 984), (1008, 1008, 1, 922), (1009, 1009, 1, 929),
   (1010, 1010, 1, 1017), (1011, 1011, 1, 895), (1013, 1013, 1, 917), (1016, 1016, 1, 1015),
   (1019, 1019, 1, 1018), (1072, 1103, 1, 1040), (1104, 1119, 1, 1024), (1121, 1153, 2, 1120),
   (1163, 1215, 2, 1162), (1218, 1230, 2, 1217), (1231, 1231, 1, 1216), (1233, 1327, 2, 1232),
   (1377, 1414, 1, 1329), (4304, 4346, 1, 7312), (4349, 4351, 1, 7357), (5112, 5117, 1, 5104),
   (7296, 7296, 1, 1042), (7297, 7297, 1, 1044), (7298, 7298, 1, 1054), (7299, 7300, 1, 1057),
   (7301, 7301, 1, 1058), (7302, 7302, 1, 1066), (7303, 7303, 1, 1122), (7304, 7304, 1, 42570),
   (7545, 7545, 1, 42877), (7549, 7549, 1, 11363), (7566, 7566, 1, 42950), (7681, 7829, 2, 7680),
   (7835, 7835, 1, 7776), (7841, 7935, 2, 7840), (7936, 7943, 1, 7944), (7952, 7957, 1, 7960),
   (7968, 7975, 1, 7976), (7984, 7991, 1, 7992), (8000, 8005, 1, 8008), (8017, 8023, 2, 8025),
   (8032, 8039, 1, 8040), (8048, 8049, 1, 8122), (8050, 8053, 1, 8136), (8054, 8055, 1, 8154),
   (8056, 8057, 1, 8184), (8058, 8059, 1, 8170), (8060, 8061, 1, 8186), (8112, 8113, 1, 8120),
   (8126, 8126, 1, 921), (8144, 8145, 1, 8152), (8160, 8161, 1, 8168), (8165, 8165, 1, 8172),
   (8526, 8526, 1, 8498), (8560, 8575, 1, 8544), (8580, 8580, 1, 8579), (9424, 9449, 1, 9398),
   (11312, 11359, 1, 11264), (11361, 11361, 1, 11360), (11365, 11365, 1, 570), (11366, 11366, 1, 574),
   (11368, 11372, 2, 11367), (11379, 11379, 1, 11378), (11382, 11382, 1, 11381), (11393, 11491, 2, 11392),
   (11500, 11502, 2, 11499), (11507, 11507, 1, 11506), (11520, 11557, 1, 4256), (11559, 11559, 1, 4295),
   (11565, 11565, 1, 4301), (42561, 42605, 2, 42560), (42625, 42651, 2, 42624), (42787, 42799, 2, 42786),
   (42803, 42863, 2, 42802), (42874, 42876, 2, 42873), (42879, 42887, 2, 42878), (42892, 42892, 1, 42891),
   (42897, 42899, 2, 42896), (42900, 42900, 1, 42948), (42903, 42921, 2, 42902), (42933, 42947, 2, 42932),
   (42952, 42954, 2, 42951), (42961, 42961, 1, 42960), (42967, 42969, 2, 42966), (42998, 42998, 1, 42997),
   (43859, 43859, 1, 42931), (43888, 43967, 1, 5024), (65345, 65370, 1, 65313), (66600, 66639, 1, 66560),
   (66776, 66811, 1, 66736), (66967, 67003, 2, 66928), (66968, 66977, 1, 66929), (66980, 66993, 1, 66941),
   (66996, 67001, 1, 66957), (67004, 67004, 1, 66965), (68800, 68850, 1, 68736), (71872, 71903, 1, 71840),
   (93792, 93823, 1, 93760), (125218, 125251, 1, 125184)]

/-- Uppercase mappings to several characters (SpecialCasing.txt, unconditional entries):
code point and its image. -/
def upperSpecial : List (Nat × List Nat) :=
  [
   (223, [83, 83]), (329, [700, 78]), (496, [74, 780]), (912, [921, 776, 769]),
   (944, [933, 776, 769]), (1415, [1333, 1362]), (7830, [72, 817]), (7831, [84, 776]),
   (7832, [87, 778]), (7833, [89, 778]), (7834, [65, 702]), (8016, [933, 787]),
   (8018, [933, 787, 768]), (8020, [933, 787, 769]), (8022, [933, 787, 834]), (8064, [7944, 921]),
   (8065, [7945, 921]), (8066, [7946, 921]), (8067, [7947, 921]), (8068, [7948, 921]),
   (8069, [7949, 921]), (8070, [7950, 921]), (8071, [7951, 921]), (8072, [7944, 921]),
   (8073, [7945, 921]), (8074, [7946, 921]), (8075, [7947, 921]), (8076, [7948, 921]),
   (8077, [7949, 921]), (8078, [7950, 921]), (8079, [7951, 921]), (8080, [7976, 921]),
   (8081, [7977, 921]), (8082, [7978, 921]), (8083, [7979, 921]), (8084, [7980, 921]),
   (8085, [7981, 921]), (8086, [7982, 921]), (8087, [7983, 921]), (8088, [7976, 921]),
   (8089, [7977, 921]), (8090, [7978, 921]), (8091, [7979, 921]), (8092, [7980, 921]),
   (8093, [7981, 921]), (8094, [7982, 921]), (8095, [7983, 921]), (8096, [8040, 921]),
   (8097, [8041, 921]), (8098, [8042, 921]), (8099, [8043, 921]), (8100, [8044, 921]),
   (8101, [8045, 921]), (8102, [8046, 921]), (8103, [8047, 921]), (8104, [8040, 921]),
   (8105, [8041, 921]), (8106, [8042, 921]), (8107, [8043, 921]), (8108, [8044, 921]),
   (8109, [8045, 921]), (8110, [8046, 921]), (8111, [8047, 921]), (8114, [8122, 921]),
   (8115, [913, 921]), (8116, [902, 921]), (8118, [913, 834]), (8119, [913, 834, 921]),
   (8124, [913, 921]), (8130, [8138, 921]), (8131, [919, 921]), (8132, [905, 921]),
   (8134, [919, 834]), (8135, [919, 834, 921]), (8140, [919, 921]), (8146, [921, 776, 768]),
   (8147, [921, 776, 769]), (8150, [921, 834]), (8151, [921, 776, 834]), (8162, [933, 776, 768]),
   (8163, [933, 776, 769]), (8164, [929, 787]), (8166, [933, 834]), (8167, [933, 776, 834]),
   (8178, [8186, 921]), (8179, [937, 921]), (8180, [911, 921]), (8182, [937, 834]),
   (8183, [937, 834, 921]), (8188, [937, 921]), (64256, [70, 70]), (64257, [70, 73]),
   (64258, [70, 76]), (64259, [70, 70, 73]), (64260, [70, 70, 76]), (64261, [83, 84]),
   (64262, [83, 84]), (64275, [1348, 1350]), (64276, [1348, 1333]), (64277, [1348, 1339]),
   (64278, [1358, 1350]), (64279, [1348, 1341])]

/-- One-to-one lowercase mappings outside ASCII (UnicodeData.txt, Unicode 14), as runs
`(first, last, step, target)`. -/
def lowerRuns : List (Nat × Nat × Nat × Nat) :=
  [
   (192, 214, 1, 224), (216, 222, 1, 248), (256, 302, 2, 257), (306, 310, 2, 307),
   (313, 327, 2, 314), (330, 374, 2, 331), (376, 376, 1, 255), (377, 381, 2, 378),
   (385, 385, 1, 595), (386, 388, 2, 387), (390, 390, 1, 596), (391, 391, 1, 392),
   (393, 394, 1, 598), (395, 395, 1, 396), (398, 398, 1, 477), (399, 399, 1, 601),
   (400, 400, 1, 603), (401, 401, 1, 402), (403, 403, 1, 608), (404, 404, 1, 611),
   (406, 406, 1, 617), (407, 407, 1, 616), (408, 408, 1, 409), (412, 412, 1, 623),
   (413, 413, 1, 626), (415, 415, 1, 629), (416, 420, 2, 417), (422, 422, 1, 640),
   (423, 423, 1, 424), (425, 425, 1, 643), (428, 428, 1, 429), (430, 430, 1, 648),
   (431, 431, 1, 432), (433, 434, 1, 650), (435, 437, 2, 436), (439, 439, 1, 658),
   (440, 440, 1, 441), (444, 444, 1, 445), (452, 452, 1, 454), (453, 453, 1, 454),
   (455, 455, 1, 457), (456, 456, 1, 457), (458, 458, 1, 460), (459, 475, 2, 460),
   (478, 494, 2, 479), (497, 497, 1, 499), (498, 500, 2, 499), (502, 502, 1, 405),
   (503, 503, 1, 447), (504, 542, 2, 505), (544, 544, 1, 414), (546, 562, 2, 547),
   (570, 570, 1, 11365), (571, 571, 1, 572), (573, 573, 1, 410), (574, 574, 1, 11366),
   (577, 577, 1, 578), (579, 579, 1, 384), (580, 580, 1, 649), (581, 581, 1, 652),
   (582, 590, 2, 583), (880, 882, 2, 881), (886, 886, 1, 887), (895, 895, 1, 1011),
   (902, 902, 1, 940), (904, 906, 1, 941), (908, 908, 1, 972), (910, 911, 1, 973),
   (913, 929, 1, 945), (931, 939, 1, 963), (975, 975, 1, 983), (984, 1006, 2, 985),
   (1012, 1012, 1, 952), (1015, 1015, 1, 1016), (1017, 1017, 1, 1010), (1018, 1018, 1, 1019),
   (1021, 1023, 1, 891), (1024, 1039, 1, 1104), (1040, 1071, 1, 1072), (1120, 1152, 2, 1121),
   (1162, 1214, 2, 1163), (1216, 1216, 1, 1231), (1217, 1229, 2, 1218), (1232, 1326, 2, 1233),
   (1329, 1366, 1, 1377), (4256, 4293, 1, 11520), (4295, 4295, 1, 11559), (4301, 4301, 1, 11565),
   (5024, 5103, 1, 43888), (5104, 5109, 1, 5112), (7312, 7354, 1, 4304), (7357, 7359, 1, 4349),
   (7680, 7828, 2, 7681), (7838, 7838, 1, 223), (7840, 7934, 2, 7841), (7944, 7951, 1, 7936),
   (7960, 7965, 1, 7952), (7976, 7983, 1, 7968), (7992, 7999, 1, 7984), (8008, 8013, 1, 8000),
   (8025, 8031, 2, 8017), (8040, 8047, 1, 8032), (8072, 8079, 1, 8064), (8088, 8095, 1, 8080),
   (8104, 8111, 1, 8096), (8120, 8121, 1, 8112), (8122, 8123, 1, 8048), (8124, 8124, 1, 8115),
   (8136, 8139, 1, 8050), (8140, 8140, 1, 8131), (8152, 8153, 1, 8144), (8154, 8155, 1, 8054),
   (8168, 8169, 1, 8160), (8170, 8171, 1, 8058), (8172, 8172, 1, 8165), (8184, 8185, 1, 8056),
   (8186, 8187, 1, 8060), (8188, 8188, 1, 8179), (8486, 8486, 1, 969), (8490, 8490, 1, 107),
   (8491, 8491, 1, 229), (8498, 8498, 1, 8526), (8544, 8559, 1, 8560), (8579, 8579, 1, 8580),
   (9398, 9423, 1, 9424), (11264, 11311, 1, 11312), (11360, 11360, 1, 11361), (11362, 11362, 1, 619),
   (11363, 11363, 1, 7549), (11364, 11364, 1, 637), (11367, 11371, 2, 11368), (11373, 11373, 1, 593),
   (11374, 11374, 1, 625), (11375, 11375, 1, 592), (11376, 11376, 1, 594), (11378, 11378, 1, 11379),
   (11381, 11381, 1, 11382), (11390, 11391, 1, 575), (11392, 11490, 2, 11393), (11499, 11501, 2, 11500),
   (11506, 11506, 1, 11507), (42560, 42604, 2, 42561), (42624, 42650, 2, 42625), (42786, 42798, 2, 42787),
   (42802, 42862, 2, 42803), (42873, 42875, 2, 42874), (42877, 42877, 1, 7545), (42878, 42886, 2, 42879),
   (42891, 42891, 1, 42892), (42893, 42893, 1, 613), (42896, 42898, 2, 42897), (42902, 42920, 2, 42903),
   (42922, 42922, 1, 614), (42923, 42923, 1, 604), (42924, 42924, 1, 609), (42925, 42925, 1, 620),
   (42926, 42926, 1, 618), (42928, 42928, 1, 670), (42929, 42929, 1, 647), (42930, 42930, 1, 669),
   (42931, 42931, 1, 43859), (42932, 42946, 2, 42933), (42948, 42948, 1, 42900), (42949, 42949, 1, 642),
   (42950, 42950, 1, 7566), (42951, 42953, 2, 42952), (42960, 42960, 1, 42961), (42966, 42968, 2, 42967),
   (42997, 42997, 1, 42998), (65313, 65338, 1, 65345), (66560, 66599, 1, 66600), (66736, 66771, 1, 66776),
   (66928, 66964, 2, 66967), (66929, 66938, 1, 66968), (66941, 66954, 1, 66980), (66957, 66962, 1, 66996),
   (66965, 66965, 1, 67004), (68736, 68786, 1, 68800), (71840, 71871, 1, 71872), (93760, 93791, 1, 93792),
   (125184, 125217, 1, 125218)]

/-- Lowercase mappings to several characters (SpecialCasing.txt, unconditional entries). -/
def lowerSpecial : List (Nat × List Nat) :=
  [
   (304, [105, 775])]

/-- Code points with the derived property Cased, as inclusive ranges. -/
def casedRanges : List (Nat × Nat) :=
  [
   (65, 90), (97, 122), (170, 170), (181, 181), (186, 186), (192, 214),
   (216, 246), (248, 442), (444, 447), (452, 659), (661, 696), (704, 705),
   (736, 740), (837, 837), (880, 883), (886, 887), (890, 893), (895, 895),
   (902, 902), (904, 906), (908, 908), (910, 929), (931, 1013), (1015, 1153),
   (1162, 1327), (1329, 1366), (1376, 1416), (4256, 4293), (4295, 4295), (4301, 4301),
   (4304, 4346), (4349, 4351), (5024, 5109), (5112, 5117), (7296, 7304), (7312, 7354),
   (7357, 7359), (7424, 7615), (7680, 7957), (7960, 7965), (7968, 8005), (8008, 8013),
   (8016, 8023), (8025, 8025), (8027, 8027), (8029, 8029), (8031, 8061), (8064, 8116),
   (8118, 8124), (8126, 8126), (8130, 8132), (8134, 8140), (8144, 8147), (8150, 8155),
   (8160, 8172), (8178, 8180), (8182, 8188), (8305, 8305), (8319, 8319), (8336, 8348),
   (8450, 8450), (8455, 8455), (8458, 8467), (8469, 8469), (8473, 8477), (8484, 8484),
   (8486, 8486), (8488, 8488), (8490, 8493), (8495, 8500), (8505, 8505), (8508, 8511),
   (8517, 8521), (8526, 8526), (8544, 8575), (8579, 8580), (9398, 9449), (11264, 11492),
   (11499, 11502), (11506, 11507), (11520, 11557), (11559, 11559), (11565, 11565), (42560, 42605),
   (42624, 42653), (42786, 42887), (42891, 42894), (42896, 42954), (42960, 42961), (42963, 42963),
   (42965, 42969), (42997, 42998), (43000, 43002), (43824, 43866), (43868, 43880), (43888, 43967),
   (64256, 64262), (64275, 64279), (65313, 65338), (65345, 65370), (66560, 66639), (66736, 66771),
   (66776, 66811), (66928, 66938), (66940, 66954), (66956, 66962), (66964, 66965), (66967, 66977),
   (66979, 66993), (66995, 67001), (67003, 67004), (67456, 67456), (67459, 67461), (67463, 67504),
   (67506, 67514), (68736, 68786), (68800, 68850), (71840, 71903), (93760, 93823), (119808, 119892),
   (119894, 119964), (119966, 119967), (119970, 119970), (119973, 119974), (119977, 119980), (119982, 119993),
   (119995, 119995), (119997, 120003), (120005, 120069), (120071, 120074), (120077, 120084), (120086, 120092),
   (120094, 120121), (120123, 120126), (120128, 120132), (120134, 120134), (120138, 120144), (120146, 120485),
   (120488, 120512), (120514, 120538), (120540, 120570), (120572, 120596), (120598, 120628), (120630, 120654),
   (120656, 120686), (120688, 120712), (120714, 120744), (120746, 120770), (120772, 120779), (122624, 122633),
   (122635, 122654), (125184, 125251), (127280, 127305), (127312, 127337), (127344, 127369)]

/-- Code points with the derived property Case_Ignorable, as inclusive ranges. -/
def caseIgnorableRanges : List (Nat × Nat) :=
  [
   (39, 39), (46, 46), (58, 58), (94, 94), (96, 96), (168, 168),
   (173, 173), (175, 175), (180, 180), (183, 184), (688, 879), (884, 885),
   (890, 890), (900, 901), (903, 903), (1155, 1161), (1369, 1369), (1375, 1375),
   (1425, 1469), (1471, 1471), (1473, 1474), (1476, 1477), (1479, 1479), (1524, 1524),
   (1536, 1541), (1552, 1562), (1564, 1564), (1600, 1600), (1611, 1631), (1648, 1648),
   (1750, 1757), (1759, 1768), (1770, 1773), (1807, 1807), (1809, 1809), (1840, 1866),
   (1958, 1968), (2027, 2037), (2042, 2042), (2045, 2045), (2070, 2093), (2137, 2139),
   (2184, 2184), (2192, 2193), (2200, 2207), (2249, 2306), (2362, 2362), (2364, 2364),
   (2369, 2376), (2381, 2381), (2385, 2391), (2402, 2403), (2417, 2417), (2433, 2433),
   (2492, 2492), (2497, 2500), (2509, 2509), (2530, 2531), (2558, 2558), (2561, 2562),
   (2620, 2620), (2625, 2626), (2631, 2632), (2635, 2637), (2641, 2641), (2672, 2673),
   (2677, 2677), (2689, 2690), (2748, 2748), (2753, 2757), (2759, 2760), (2765, 2765),
   (2786, 2787), (2810, 2815), (2817, 2817), (2876, 2876), (2879, 2879), (2881, 2884),
   (2893, 2893), (2901, 2902), (2914, 2915), (2946, 2946), (3008, 3008), (3021, 3021),
   (3072, 3072), (3076, 3076), (3132, 3132), (3134, 3136), (3142, 3144), (3146, 3149),
   (3157, 3158), (3170, 3171), (3201, 3201), (3260, 3260), (3263, 3263), (3270, 3270),
   (3276, 3277), (3298, 3299), (3328, 3329), (3387, 3388), (3393, 3396), (3405, 3405),
   (3426, 3427), (3457, 3457), (3530, 3530), (3538, 3540), (3542, 3542), (3633, 3633),
   (3636, 3642), (3654, 3662), (3761, 3761), (3764, 3772), (3782, 3782), (3784, 3789),
   (3864, 3865), (3893, 3893), (3895, 3895), (3897, 3897), (3953, 3966), (3968, 3972),
   (3974, 3975), (3981, 3991), (3993, 4028), (4038, 4038), (4141, 4144), (4146, 4151),
   (4153, 4154), (4157, 4158), (4184, 4185), (4190, 4192), (4209, 4212), (4226, 4226),
   (4229, 4230), (4237, 4237), (4253, 4253), (4348, 4348), (4957, 4959), (5906, 5908),
   (5938, 5939), (5970, 5971), (6002, 6003), (6068, 6069), (6071, 6077), (6086, 6086),
   (6089, 6099), (6103, 6103), (6109, 6109), (6155, 6159), (6211, 6211), (6277, 6278),
   (6313, 6313), (6432, 6434), (6439, 6440), (6450, 6450), (6457, 6459), (6679, 6680),
   (6683, 6683), (6742, 6742), (6744, 6750), (6752, 6752), (6754, 6754), (6757, 6764),
   (6771, 6780), (6783, 6783), (6823, 6823), (6832, 6862), (6912, 6915), (6964, 6964),
   (6966, 6970), (6972, 6972), (6978, 6978), (7019, 7027), (7040, 7041), (7074, 7077),
   (7080, 7081), (7083, 7085), (7142, 7142), (7144, 7145), (7149, 7149), (7151, 7153),
   (7212, 7219), (7222, 7223), (7288, 7293), (7376, 7378), (7380, 7392), (7394, 7400),
   (7405, 7405), (7412, 7412), (7416, 7417), (7468, 7530), (7544, 7544), (7579, 7679),
   (8125, 8125), (8127, 8129), (8141, 8143), (8157, 8159), (8173, 8175), (8189, 8190),
   (8203, 8207), (8216, 8217), (8228, 8228), (8231, 8231), (8234, 8238), (8288, 8292),
   (8294, 8303), (8305, 8305), (8319, 8319), (8336, 8348), (8400, 8432), (11388, 11389),
   (11503, 11505), (11631, 11631), (11647, 11647), (11744, 11775), (11823, 11823), (12293, 12293),
   (12330, 12333), (12337, 12341), (12347, 12347), (12441, 12446), (12540, 12542), (40981, 40981),
   (42232, 42237), (42508, 42508), (42607, 42610), (42612, 42621), (42623, 42623), (42652, 42655),
   (42736, 42737), (42752, 42785), (42864, 42864), (42888, 42890), (42994, 42996), (43000, 43001),
   (43010, 43010), (43014, 43014), (43019, 43019), (43045, 43046), (43052, 43052), (43204, 43205),
   (43232, 43249), (43263, 43263), (43302, 43309), (43335, 43345), (43392, 43394), (43443, 43443),
   (43446, 43449), (43452, 43453), (43471, 43471), (43493, 43494), (43561, 43566), (43569, 43570),
   (43573, 43574), (43587, 43587), (43596, 43596), (43632, 43632), (43644, 43644), (43696, 43696),
   (43698, 43700), (43703, 43704), (43710, 43711), (43713, 43713), (43741, 43741), (43756, 43757),
   (43763, 43764), (43766, 43766), (43867, 43871), (43881, 43883), (44005, 44005), (44008, 44008),
   (44013, 44013), (64286, 64286), (64434, 64450), (65024, 65039), (65043, 65043), (65056, 65071),
   (65106, 65106), (65109, 65109), (65279, 65279), (65287, 65287), (65294, 65294), (65306, 65306),
   (65342, 65342), (65344, 65344), (65392, 65392), (65438, 65439), (65507, 65507), (65529, 65531),
   (66045, 66045), (66272, 66272), (66422, 66426), (67456, 67461), (67463, 67504), (67506, 67514),
   (68097, 68099), (68101, 68102), (68108, 68111), (68152, 68154), (68159, 68159), (68325, 68326),
   (68900, 68903), (69291, 69292), (69446, 69456), (69506, 69509), (69633, 69633), (69688, 69702),
   (69744, 69744), (69747, 69748), (69759, 69761), (69811, 69814), (69817, 69818), (69821, 69821),
   (69826, 69826), (69837, 69837), (69888, 69890), (69927, 69931), (69933, 69940), (70003, 70003),
   (70016, 70017), (70070, 70078), (70089, 70092), (70095, 70095), (70191, 70193), (70196, 70196),
   (70198, 70199), (70206, 70206), (70367, 70367), (70371, 70378), (70400, 70401), (70459, 70460),
   (70464, 70464), (70502, 70508), (70512, 70516), (70712, 70719), (70722, 70724), (70726, 70726),
   (70750, 70750), (70835, 70840), (70842, 70842), (70847, 70848), (70850, 70851), (71090, 71093),
   (71100, 71101), (71103, 71104), (71132, 71133), (71219, 71226), (71229, 71229), (71231, 71232),
   (71339, 71339), (71341, 71341), (71344, 71349), (71351, 71351), (71453, 71455), (71458, 71461),
   (71463, 71467), (71727, 71735), (71737, 71738), (71995, 71996), (71998, 71998), (72003, 72003),
   (72148, 72151), (72154, 72155), (72160, 72160), (72193, 72202), (72243, 72248), (72251, 72254),
   (72263, 72263), (72273, 72278), (72281, 72283), (72330, 72342), (72344, 72345), (72752, 72758),
   (72760, 72765), (72767, 72767), (72850, 72871), (72874, 72880), (72882, 72883), (72885, 72886),
   (73009, 73014), (73018, 73018), (73020, 73021), (73023, 73029), (73031, 73031), (73104, 73105),
   (73109, 73109), (73111, 73111), (73459, 73460), (78896, 78904), (92912, 92916), (92976, 92982),
   (92992, 92995), (94031, 94031), (94095, 94111), (94176, 94177), (94179, 94180), (110576, 110579),
   (110581, 110587), (110589, 110590), (113821, 113822), (113824, 113827), (118528, 118573), (118576, 118598),
   (119143, 119145), (119155, 119170), (119173, 119179), (119210, 119213), (119362, 119364), (121344, 121398),
   (121403, 121452), (121461, 121461), (121476, 121476), (121499, 121503), (121505, 121519), (122880, 122886),
   (122888, 122904), (122907, 122913), (122915, 122916), (122918, 122922), (123184, 123197), (123566, 123566),
   (123628, 123631), (125136, 125142), (125252, 125259), (127995, 127999), (917505, 917505), (917536, 917631),
   (917760, 917999)]

/-- The image of `n` under the first run that contains it. -/
def lookupRun (runs : List (Nat × Nat × Nat × Nat)) (n : Nat) : Option Nat :=
  match runs with
  | [] => none
  | (first, last, step, target) :: rest =>
    if first ≤ n ∧ n ≤ last ∧ (n - first) % step = 0 then some (target + (n - first))
    else lookupRun rest n

/-- Membership of `n` in one of the inclusive ranges. -/
def inRanges (ranges : List (Nat × Nat)) (n : Nat) : Bool :=
  ranges.any (fun r => r.1 ≤ n && n ≤ r.2)

/-- Full case mapping of one character from its two tables; a character without an entry maps
to itself. -/
def mapChar (special : List (Nat × List Nat)) (runs : List (Nat × Nat × Nat × Nat))
    (c : Char) : List Char :=
  match special.lookup c.toNat with
  | some image => image.map Char.ofNat
  | none =>
    match lookupRun runs c.toNat with
    | some image => [Char.ofNat image]
    | none => [c]

/-- Uppercase image of one character: `a`-`z` within ASCII, the Unicode tables outside. -/
def upperChars (c : Char) : List Char :=
  if c.toNat < 128 then [c.toUpper] else mapChar upperSpecial upperRuns c

/-- Lowercase image of one character out of context: `A`-`Z` within ASCII, the Unicode tables
outside. -/
def lowerChars (c : Char) : List Char :=
  if c.toNat < 128 then [c.toLower] else mapChar lowerSpecial lowerRuns c

/-- The derived property Cased. -/
def isCased (c : Char) : Bool := inRanges casedRanges c.toNat

/-- The derived property Case_Ignorable. -/
def isCaseIgnorable (c : Char) : Bool := inRanges caseIgnorableRanges c.toNat

/-- The first character that is not case-ignorable is cased. -/
def startsCased (cs : List Char) : Bool :=
  match cs.dropWhile isCaseIgnorable with
  | [] => false
  | c :: _ => isCased c

/-- The condition Final_Sigma of SpecialCasing.txt for a capital sigma: `before` holds the
preceding characters, nearest first, and `after` the following ones. -/
def isFinalSigma (before after : List Char) : Bool :=
  startsCased before && !startsCased after

/-- Lowercase image of a character sequence; `before` holds the characters already passed,
nearest first. A capital sigma (U+03A3) becomes the final sigma (U+03C2) in the Final_Sigma
context and the small sigma (U+03C3) otherwise. -/
def lowerList (before : List Char) : List Char → List Char
  | [] => []
  | c :: cs =>
    (if c.toNat = 931 then [if isFinalSigma before cs then Char.ofNat 962 else Char.ofNat 963]
      else lowerChars c) ++ lowerList (c :: before) cs

/-- Uppercase image of a character sequence. -/
def upperList : List Char → List Char
  | [] => []
  | c :: cs => upperChars c ++ upperList cs

/-- The built-in `str.toUpperCase()`: the locale-insensitive full case mapping of Unicode. -/
def toUpperCase (s : String) : String := ⟨upperList s.data⟩

/-- The built-in `str.toLowerCase()`: the locale-insensitive full case mapping of Unicode,
with the Final_Sigma rule. -/
def toLowerCase (s : String) : String := ⟨lowerList [] s.data⟩

/-! ## `capitalizeWords` (page.js, lines 58-73) -/

/-- Character-level `split(" ")`: cut at every space, keeping empty pieces. -/
def splitSpaceChars : List Char → List (List Char)
  | [] => [[]]
  | c :: cs =>
    if c = ' ' then [] :: splitSpaceChars cs
    else
      match splitSpaceChars cs with
      | [] => [[c]]
      | w :: ws => (c :: w) :: ws

/-- The call `str.split(" ")`. -/
def splitSpace (s : String) : List String := (splitSpaceChars s.data).map String.mk

/-- The call `words.join(" ")`. -/
def joinSpace (ws : List String) : String := ⟨[' '].intercalate (ws.map String.data)⟩

/-- The callback `word => word.charAt(0).toUpperCase() + word.slice(1)`. `charAt(0)` and
`slice(1)` cut the word after its first UTF-16 code unit. For a first character of the Basic
Multilingual Plane that unit is the character, which is uppercased. For a first character
outside it the unit is a high surrogate, which `toUpperCase` returns unchanged, and `slice(1)`
starts with the matching low surrogate, so the concatenation is the word itself. -/
def capitalizeFirst (word : String) : String :=
  match word.data with
  | [] => ""
  | c :: cs => if c.toNat < 65536 then toUpperCase ⟨[c]⟩ ++ ⟨cs⟩ else word

/-- The function `capitalizeWords(str)`. -/
def capitalizeWords (str : String) : String :=
  let hasMixedCase := str != toUpperCase str && str != toLowerCase str
  if hasMixedCase then str
  else joinSpace ((splitSpace (toLowerCase str)).map capitalizeFirst)

/-! ## `transformToGraphData` (page.js, lines 137-298) -/

/-- Centre node literal of the actor branch: `id: data.actor.name + "-self"`. -/
def actorCenter (actor : Actor) : GraphNode :=
  { id := actor.name ++ "-self", name := actor.name, type := "actor", val := 45,
    release_date := none, collisionRadius := 80 }

/-- Centre node literal of the movie branch: `id: data.movie.title`. -/
def movieCenter (movie : Movie) : GraphNode :=
  { id := movie.title, name := movie.title, type := "movie", val := 45,
    release_date := movie.release_date, collisionRadius := 80 }

/-- Centre node literal of the director branch: `id: data.director.name + "-self"`. -/
def directorCenter (director : Director) : GraphNode :=
  { id := director.name ++ "-self", name := director.name, type := "director", val := 45,
    release_date := none, collisionRadius := 80 }

/-- Leaf node literal for a movie (actor and director branches). -/
def movieLeaf (movie : Movie) : GraphNode :=
  { id := movie.title, name := movie.title, type := "movie", val := 40,
    release_date := movie.release_date, collisionRadius := 75 }

/-- Leaf node literal for an actor (movie and director branches). -/
def actorLeaf (actor : Actor) : GraphNode :=
  { id := actor.name, name := actor.name, type := "actor", val := 40,
    release_date := none, collisionRadius := 75 }

/-- Leaf node literal for a director in the actor branch: the id is the bare name. -/
def directorLeaf (director : Director) : GraphNode :=
  { id := director.name, name := director.name, type := "director", val := 40,
    release_date := none, collisionRadius := 75 }

/-- Leaf node literal for a director in the movie branch: `directorId = name + "-director"`. -/
def directorLeafOfMovie (director : Director) : GraphNode :=
  { id := director.name ++ "-director", name := director.name, type := "director", val := 40,
    release_date := none, collisionRadius := 75 }

/-- One `forEach` iteration:
`if (!nodes.find(n => n.id === leaf.id)) nodes.push(leaf); links.push({source, target: leaf.id, distance: 500})`. -/
def pushLeaf (centerId : String) (g : GraphData) (leaf : GraphNode) : GraphData :=
  { nodes :=
      if (g.nodes.find? (fun n => n.id == leaf.id)).isNone then g.nodes ++ [leaf] else g.nodes
    links := g.links ++ [{ source := centerId, target := leaf.id, distance := 500 }] }

/-- The guard `if (list && list.length > 0) { ... }` around a loop over `list`: `body` runs
on the graph under construction only when the list is present and non-empty. -/
def whenNonEmpty {α : Type} (list : Option (List α)) (body : List α → GraphData → GraphData)
    (g : GraphData) : GraphData :=
  match list with
  | some xs => if xs.length > 0 then body xs g else g
  | none => g

/-- Body of the branch `type === "actor" && data?.actor && data?.movies`. -/
def actorGraph (actor : Actor) (movies : List Movie) (directors : Option (List Director)) :
    GraphData :=
  let actorId := actor.name ++ "-self"
  let g0 : GraphData := { nodes := [actorCenter actor], links := [] }
  let g1 := (movies.take 29).foldl (fun g movie => pushLeaf actorId g (movieLeaf movie)) g0
  whenNonEmpty directors
    (fun ds g => ds.foldl (fun g director => pushLeaf actorId g (directorLeaf director)) g) g1

/-- Body of the branch `type === "movie" && data?.movie && data?.actors`. -/
def movieGraph (movie : Movie) (actors : List Actor) (directors : Option (List Director)) :
    GraphData :=
  let g0 : GraphData := { nodes := [movieCenter movie], links := [] }
  let g1 := (actors.take 29).foldl (fun g actor => pushLeaf movie.title g (actorLeaf actor)) g0
  whenNonEmpty directors
    (fun ds g =>
      ds.foldl (fun g director => pushLeaf movie.title g (directorLeafOfMovie director)) g) g1

/-- Body of the branch `type === "director" && data?.director`. -/
def directorGraph (director : Director) (movies : Option (List Movie))
    (actors : Option (List Actor)) : GraphData :=
  let directorId := director.name ++ "-self"
  let g0 : GraphData := { nodes := [directorCenter director], links := [] }
  let g1 :=
    whenNonEmpty movies
      (fun ms g =>
        (ms.take 29).foldl (fun g movie => pushLeaf directorId g (movieLeaf movie)) g) g0
  whenNonEmpty actors
    (fun as g =>
      (as.take 29).foldl (fun g actor => pushLeaf directorId g (actorLeaf actor)) g) g1

/-- The function `transformToGraphData(data, type)`; `data?.x` is `data.bind x`. -/
def transformToGraphData (data : Option Response) (type : String) : GraphData :=
  match decide (type = "actor"), data.bind (·.actor), data.bind (·.movies) with
  | true, some actor, some movies => actorGraph actor movies (data.bind (·.directors))
  | _, _, _ =>
    match decide (type = "movie"), data.bind (·.movie), data.bind (·.actors) with
    | true, some movie, some actors => movieGraph movie actors (data.bind (·.directors))
    | _, _, _ =>
      match decide (type = "director"), data.bind (·.director) with
      | true, some director =>
        directorGraph director (data.bind (·.movies)) (data.bind (·.actors))
      | _, _ => emptyGraph

/-! ## Component state and effects -/

/-- Toast object of `setToast`. -/
structure Toast where
  title : String
  description : Option String
  loading : Bool
  deriving DecidableEq, Repr

/-- The `useState` cells of `Home` (page.js, lines 99-112). -/
structure State where
  searchQuery : String
  searchType : String
  searchResults : Option Response
  graphData : GraphData
  loading : Bool
  error : Option String
  selectedNode : Option GraphNode
  currentQuery : String
  showCypherQuery : Bool
  notFound : Bool
  lastSearchedQuery : String
  hasActors : Bool
  isSeeding : Bool
  toast : Option Toast
  deriving DecidableEq, Repr

/-- Argument of `apiService.fetchData`: the path
`/<collection>/<encodeURIComponent(key)>/<relation>`, kept as its three pieces. -/
structure Request where
  collection : String
  key : String
  relation : String
  deriving DecidableEq, Repr

/-- What `apiService.fetchData` resolves to: `status`, `ok`, and the body read by `json()`
(`none` when `json()` rejects). -/
structure HttpResponse where
  status : Nat
  ok : Bool
  json : Option Response
  deriving DecidableEq, Repr

/-- The backend as seen by one run of a handler: the answer to each request, `none` when the
promise rejects (a thrown network exception). -/
abbrev Backend := Request → Option HttpResponse

/-- Effects a handler performs besides calling state setters. A URL `/?q=<q>&type=<type>` built
from `URLSearchParams` is kept as the pair of its two parameters; `routerPushPath path` is
`router.push(path, ...)` for a literal path. -/
inductive Effect where
  | historyPushState (q type : String)
  | routerPush (q type : String)
  | routerPushPath (path : String)
  | fetchData (request : Request)
  | consoleError (message : String)
  deriving DecidableEq, Repr

/-! ## `updateURL` (page.js, lines 129-135) -/

/-- The function `updateURL(query, type)`: the query is title-cased for the `actor` type only. -/
def updateURL (query type : String) : List Effect :=
  let formattedQuery := if type = "actor" then capitalizeWords query else query
  [Effect.routerPush formattedQuery type]

/-! ## `handleSearch` (page.js, lines 448-598) -/

/-- Characters removed by `String.prototype.trim`: WhiteSpace and LineTerminator code points. -/
def isTrimChar (c : Char) : Bool :=
  let n := c.toNat
  n = 0x09 || n = 0x0A || n = 0x0B || n = 0x0C || n = 0x0D || n = 0x20 || n = 0xA0 ||
  n = 0x1680 || (0x2000 ≤ n && n ≤ 0x200A) || n = 0x2028 || n = 0x2029 || n = 0x202F ||
  n = 0x205F || n = 0x3000 || n = 0xFEFF

/-- The method `str.trim()`. -/
def trim (s : String) : String :=
  ⟨((s.data.dropWhile isTrimChar).reverse.dropWhile isTrimChar).reverse⟩

/-- Template literal assigned to `cypherQuery` in the actor branch. -/
def actorCypherQuery (formattedQuery : String) : String :=
  "\n          MATCH (a:Actor \x7bname: \"" ++ formattedQuery ++
  "\"\x7d)-[:ACTED_IN]->(m:Movie)\n          WITH a as actor, m\n" ++
  "          ORDER BY m.year DESC, m.title\n          WITH actor, collect(m) as movies\n" ++
  "          RETURN actor, movies\n        "

/-- Template literal assigned to `cypherQuery` in the movie branch. -/
def movieCypherQuery (formattedQuery : String) : String :=
  "\n          MATCH (m:Movie \x7btitle: \"" ++ formattedQuery ++
  "\"\x7d)\n          OPTIONAL MATCH (a:Actor)-[:ACTED_IN]->(m)\n" ++
  "          WITH m as movie, collect(a) as actors\n          ORDER BY a.name\n" ++
  "          WITH movie, collect(a) as actors\n          RETURN movie, actors\n        "

/-- Template literal assigned to `cypherQuery` in the director branch. -/
def directorCypherQuery (formattedQuery : String) : String :=
  "\n          MATCH (d:Director \x7bname: \"" ++ formattedQuery ++
  "\"\x7d)-[:DIRECTED]->(m:Movie)\n          OPTIONAL MATCH (m)<-[:ACTED_IN]-(a:Actor)\n" ++
  "          WITH d as director, collect(DISTINCT m) as movies, " ++
  "collect(DISTINCT a) as actors\n          RETURN director, movies, actors\n        "

/-- How one type branch of the `try` block ends. -/
inductive BranchResult where
  /-- a 404: the four setters and `return` -/
  | earlyReturn
  /-- an exception reaches `catch`: a rejected promise, `throw new Error("Search failed")`,
  or a rejected `json()` -/
  | throws
  /-- the branch ran to its end with these values of `combinedData` and `cypherQuery` -/
  | data (combinedData : Option Response) (cypherQuery : String)
  deriving DecidableEq, Repr

/-- The code shared by the three type branches after `await Promise.all([...])`: the 404 check,
the `ok` check, the two `json()` reads and the merge into `combinedData`. -/
def afterFetch (first second : Option HttpResponse) (merge : Response → Response → Response)
    (cypherQuery : String) : BranchResult :=
  match first, second with
  | some r1, some r2 =>
    if r1.status = 404 ∨ r2.status = 404 then BranchResult.earlyReturn
    else if !r1.ok ∨ !r2.ok then BranchResult.throws
    else
      match r1.json, r2.json with
      | some d1, some d2 => BranchResult.data (some (merge d1 d2)) cypherQuery
      | _, _ => BranchResult.throws
  | _, _ => BranchResult.throws

/-- The two requests of a search: `[first, second]` of `Promise.all`, by type; none for any
other type string. -/
def searchRequests (formattedQuery type : String) : List Request :=
  if type = "actor" then
    [⟨"actors", formattedQuery, "filmography"⟩, ⟨"actors", formattedQuery, "directors"⟩]
  else if type = "movie" then
    [⟨"movies", formattedQuery, "cast"⟩, ⟨"movies", formattedQuery, "directors"⟩]
  else if type = "director" then
    [⟨"directors", formattedQuery, "filmography"⟩, ⟨"directors", formattedQuery, "actors"⟩]
  else []

/-- The `if / else if / else if` over `type` inside `try` (lines 470-569). -/
def searchBranch (api : Backend) (formattedQuery type : String) : BranchResult :=
  if type = "actor" then
    afterFetch (api ⟨"actors", formattedQuery, "filmography"⟩)
      (api ⟨"actors", formattedQuery, "directors"⟩)
      (fun filmographyData directorsData =>
        { filmographyData with directors := directorsData.directors })
      (actorCypherQuery formattedQuery)
  else if type = "movie" then
    afterFetch (api ⟨"movies", formattedQuery, "cast"⟩)
      (api ⟨"movies", formattedQuery, "directors"⟩)
      (fun castData directorsData => { castData with directors := directorsData.directors })
      (movieCypherQuery formattedQuery)
  else if type = "director" then
    afterFetch (api ⟨"directors", formattedQuery, "filmography"⟩)
      (api ⟨"directors", formattedQuery, "actors"⟩)
      (fun filmographyData actorsData => { filmographyData with actors := actorsData.actors })
      (directorCypherQuery formattedQuery)
  else BranchResult.data none ""

/-- The test `!list?.length`: the list is missing or empty. -/
def lengthFalsy {α : Type} (list : Option (List α)) : Bool :=
  match list with
  | none => true
  | some xs => xs.length == 0

/-- The not-found re-check on the merged object (lines 575-584). -/
def recheckNotFound (combinedData : Option Response) (type : String) : Bool :=
  match combinedData with
  | none => true
  | some d =>
    (type == "actor" && (d.actor.isNone || lengthFalsy d.movies)) ||
    (type == "movie" && (d.movie.isNone || lengthFalsy d.actors)) ||
    (type == "director" &&
      (d.director.isNone || (lengthFalsy d.movies && lengthFalsy d.actors)))

/-- The setters called before the requests are issued (lines 459-463). -/
def searchStart (s : State) (formattedQuery : String) : State :=
  { s with loading := true, error := none, notFound := false, selectedNode := none,
           lastSearchedQuery := formattedQuery }

/-- The handler `handleSearch(query, type)` run to completion from state `s` against `api`: the state after
the last setter and the effects in program order. -/
def handleSearch (api : Backend) (s : State) (query type : String) : State × List Effect :=
  if trim query = "" then (s, [])
  else
    let formattedQuery := query
    let s1 := searchStart s formattedQuery
    let before := Effect.historyPushState formattedQuery type :: updateURL formattedQuery type
    let requests := (searchRequests formattedQuery type).map Effect.fetchData
    match searchBranch api formattedQuery type with
    | BranchResult.earlyReturn =>
      ({ s1 with notFound := true, searchResults := none, graphData := emptyGraph,
                 loading := false },
       before ++ requests)
    | BranchResult.throws =>
      ({ s1 with error := some "Failed to fetch data. Please try again.", loading := false },
       before ++ requests ++ [Effect.consoleError "Search error:"])
    | BranchResult.data combinedData cypherQuery =>
      let s2 := { s1 with currentQuery := cypherQuery }
      let s3 :=
        if recheckNotFound combinedData type then
          { s2 with notFound := true, searchResults := none, graphData := emptyGraph }
        else
          { s2 with searchResults := combinedData,
                    graphData := transformToGraphData combinedData type }
      ({ s3 with loading := false }, before ++ requests)

/-- The object literal assigned to `combinedData` from the two bodies (lines 494, 527, 561):
`{ ...first, directors: second.directors }` for the types actor and movie,
`{ ...first, actors: second.actors }` for the type director. -/
def combineData (type : String) (first second : Response) : Response :=
  if type = "director" then { first with actors := second.actors }
  else { first with directors := second.directors }

/-! ## `handleTypeChange` (page.js, lines 300-311) -/

/-- The handler `handleTypeChange(newType)`: eight setters, then `router.push("/", ...)`. -/
def handleTypeChange (s : State) (newType : String) : State × List Effect :=
  ({ s with searchType := newType, searchQuery := "", selectedNode := none,
            searchResults := none, graphData := emptyGraph, currentQuery := "",
            notFound := false, lastSearchedQuery := "" },
   [Effect.routerPushPath "/"])

/-! ## `handlePopState` (page.js, lines 313-337) -/

/-- Truthiness of a value returned by `URLSearchParams.get`: `null` and `""` are falsy. -/
def isTruthy (x : Option String) : Bool :=
  match x with
  | some v => v != ""
  | none => false

/-- The `popstate` listener; `query` and `type` are `params.get("q")` and `params.get("type")`
of the URL navigated to. With a `q` it replays the search, otherwise it calls seven setters. -/
def handlePopState (api : Backend) (s : State) (query type : Option String) :
    State × List Effect :=
  if isTruthy query then
    let q := query.getD ""
    let t := if isTruthy type then type.getD "" else "actor"
    handleSearch api { s with searchQuery := q, searchType := t } q t
  else
    ({ s with searchQuery := "", searchType := "actor", selectedNode := none,
              searchResults := none, graphData := emptyGraph, currentQuery := "",
              notFound := false },
     [])

/-! ## `handleNodeClick` (page.js, lines 600-616) -/

/-- The handler `handleNodeClick(node)`: `setSelectedNode(node)`, then for a node of type movie,
actor or director the two setters and `handleSearch(node.name, node.type)`. -/
def handleNodeClick (api : Backend) (s : State) (node : GraphNode) : State × List Effect :=
  let s1 := { s with selectedNode := some node }
  if node.type = "movie" then
    handleSearch api { s1 with searchQuery := node.name, searchType := "movie" } node.name "movie"
  else if node.type = "actor" then
    handleSearch api { s1 with searchQuery := node.name, searchType := "actor" } node.name "actor"
  else if node.type = "director" then
    handleSearch api { s1 with searchQuery := node.name, searchType := "director" }
      node.name "director"
  else (s1, [])

/-! ## `handleSearch` as a sequence of steps -/

/-- A call of one of the `useState` setters called by `handleSearch`. -/
inductive Setter where
  | setSearchResults (value : Option Response)
  | setGraphData (value : GraphData)
  | setLoading (value : Bool)
  | setError (value : Option String)
  | setSelectedNode (value : Option GraphNode)
  | setCurrentQuery (value : String)
  | setNotFound (value : Bool)
  | setLastSearchedQuery (value : String)
  deriving DecidableEq, Repr

/-- The state after a setter call. -/
def Setter.run (s : State) : Setter → State
  | Setter.setSearchResults v => { s with searchResults := v }
  | Setter.setGraphData v => { s with graphData := v }
  | Setter.setLoading v => { s with loading := v }
  | Setter.setError v => { s with error := v }
  | Setter.setSelectedNode v => { s with selectedNode := v }
  | Setter.setCurrentQuery v => { s with currentQuery := v }
  | Setter.setNotFound v => { s with notFound := v }
  | Setter.setLastSearchedQuery v => { s with lastSearchedQuery := v }

/-- One step of a handler run: a setter call or an effect. -/
inductive Step where
  | call (setter : Setter)
  | perform (effect : Effect)
  deriving DecidableEq, Repr

/-- The state reached from `s` by the setter calls of a step list, in order. -/
def replay (s : State) (steps : List Step) : State :=
  steps.foldl
    (fun st step =>
      match step with
      | Step.call setter => Setter.run st setter
      | Step.perform _ => st)
    s

/-- The effects of a step list, in order. -/
def effectsOf (steps : List Step) : List Effect :=
  steps.filterMap
    (fun step =>
      match step with
      | Step.call _ => none
      | Step.perform e => some e)

/-- The statements of `handleSearch` before `try` (lines 453-464), in program order. -/
def searchPrelude (formattedQuery type : String) : List Step :=
  [Step.perform (Effect.historyPushState formattedQuery type),
   Step.call (Setter.setLoading true),
   Step.call (Setter.setError none),
   Step.call (Setter.setNotFound false),
   Step.call (Setter.setSelectedNode none),
   Step.call (Setter.setLastSearchedQuery formattedQuery)] ++
  (updateURL formattedQuery type).map Step.perform

/-- The steps of `handleSearch(query, type)` after the awaited `Promise.all`: the rest of the
`try` block, then `catch` and `finally` (lines 481-597). -/
def searchEpilogue (api : Backend) (formattedQuery type : String) : List Step :=
  match searchBranch api formattedQuery type with
  | BranchResult.earlyReturn =>
    [Step.call (Setter.setNotFound true), Step.call (Setter.setSearchResults none),
     Step.call (Setter.setGraphData emptyGraph), Step.call (Setter.setLoading false),
     Step.call (Setter.setLoading false)]
  | BranchResult.throws =>
    [Step.perform (Effect.consoleError "Search error:"),
     Step.call (Setter.setError (some "Failed to fetch data. Please try again.")),
     Step.call (Setter.setLoading false)]
  | BranchResult.data combinedData cypherQuery =>
    Step.call (Setter.setCurrentQuery cypherQuery) ::
    (if recheckNotFound combinedData type then
      [Step.call (Setter.setNotFound true), Step.call (Setter.setSearchResults none),
       Step.call (Setter.setGraphData emptyGraph)]
    else
      [Step.call (Setter.setSearchResults combinedData),
       Step.call (Setter.setGraphData (transformToGraphData combinedData type))]) ++
    [Step.call (Setter.setLoading false)]

/-- The run of `handleSearch(query, type)` as its steps in program order: nothing for a blank
query, otherwise the prelude, the requests of `Promise.all`, and the epilogue. -/
def handleSearchSteps (api : Backend) (query type : String) : List Step :=
  if trim query = "" then []
  else
    searchPrelude query type ++
    (searchRequests query type).map (fun r => Step.perform (Effect.fetchData r)) ++
    searchEpilogue api query type

/-- Initial values of the `useState` cells of `Home`. -/
def initialState : State :=
  { searchQuery := "", searchType := "actor", searchResults := none, graphData := emptyGraph,
    loading := false, error := none, selectedNode := none, currentQuery := "",
    showCypherQuery := true, notFound := false, lastSearchedQuery := "", hasActors := true,
    isSeeding := false, toast := none }

/-! ## Specification-side definitions -/

/-- Shape invariant of a graph built around the centre id `c`: the first node carries `c`, node
ids are pairwise distinct, and every link goes from `c` to the id of a node of the graph. -/
def CenteredAt (c : String) (g : GraphData) : Prop :=
  (∃ n rest, g.nodes = n :: rest ∧ n.id = c) ∧ (g.nodes.map (·.id)).Nodup ∧
    ∀ l ∈ g.links, l.source = c ∧ l.target ∈ g.nodes.map (·.id)

/-- Reference title-casing of one word, after the specification's words: the first letter
uppercased, the rest lowercased. -/
def titleCaseWord (w : String) : String :=
  match w.data with
  | [] => ""
  | c :: cs => toUpperCase ⟨[c]⟩ ++ toLowerCase ⟨cs⟩

/-- Reference title-casing of a string: every space-separated word is title-cased. -/
def titleCase (s : String) : String := joinSpace ((splitSpace s).map titleCaseWord)

/-- Reference normalisation, after the specification's words: a string that is entirely
uppercase or entirely lowercase is title-cased, a mixed-case string is returned unchanged. -/
def referenceNormalization (s : String) : String :=
  if s = toUpperCase s ∨ s = toLowerCase s then titleCase s else s

/-- A search ends in a request failure: one of the two promises rejects (a thrown network
exception), or both resolve, neither status is 404 and one response is not OK. -/
def RequestFailure (api : Backend) (query type : String) : Prop :=
  ∃ q1 q2, searchRequests query type = [q1, q2] ∧
    (api q1 = none ∨ api q2 = none ∨
      ∃ r1 r2, api q1 = some r1 ∧ api q2 = some r2 ∧ r1.status ≠ 404 ∧ r2.status ≠ 404 ∧
        (r1.ok = false ∨ r2.ok = false))

/-- A related list is missing or empty. -/
def MissingOrEmpty {α : Type} (list : Option (List α)) : Prop :=
  list = none ∨ list = some []

/-- The not-found condition on a merged object, after the specification's words: the center
object of the type is absent; or the type is actor and the movies list is missing or empty; or
the type is movie and the actors list is missing or empty; or the type is director and both the
movies list and the actors list are missing or empty. -/
def LacksData (merged : Response) (type : String) : Prop :=
  ((type = "actor" ∧ merged.actor = none) ∨ (type = "movie" ∧ merged.movie = none) ∨
    (type = "director" ∧ merged.director = none)) ∨
  (type = "actor" ∧ MissingOrEmpty merged.movies) ∨
  (type = "movie" ∧ MissingOrEmpty merged.actors) ∨
  (type = "director" ∧ MissingOrEmpty merged.movies ∧ MissingOrEmpty merged.actors)

/-- The guard of `transformToGraphData` fails, after the specification's words: the type is
not one of actor, movie, director; or the center object is missing; or the type is actor and
the movies field is missing; or the type is movie and the actors field is missing. -/
def GuardFails (data : Option Response) (type : String) : Prop :=
  (type ≠ "actor" ∧ type ≠ "movie" ∧ type ≠ "director") ∨
  ((type = "actor" ∧ data.bind (·.actor) = none) ∨
    (type = "movie" ∧ data.bind (·.movie) = none) ∨
    (type = "director" ∧ data.bind (·.director) = none)) ∨
  (type = "actor" ∧ data.bind (·.movies) = none) ∨
  (type = "movie" ∧ data.bind (·.actors) = none)

/-- A string of ASCII characters. -/
def IsAscii (s : String) : Prop := ∀ c ∈ s.data, c.toNat < 128

/-! ## The case mapping on ASCII text

On a string of ASCII characters the built-ins act character by character on the letters
`A`-`Z`, `a`-`z`. The definitions of this section are that restriction; the lemmas
`toUpperCase_of_ascii`, `toLowerCase_of_ascii`, `capitalizeWords_of_ascii` and
`referenceNormalization_of_ascii` show that they agree with the definitions above on ASCII
strings. -/

/-- The uppercase mapping of ASCII: `a`-`z` to `A`-`Z`, character by character. -/
def toUpperCaseAscii (s : String) : String := ⟨s.data.map Char.toUpper⟩

/-- The lowercase mapping of ASCII: `A`-`Z` to `a`-`z`, character by character. -/
def toLowerCaseAscii (s : String) : String := ⟨s.data.map Char.toLower⟩

/-- The first character as a string, `""` for the empty string. -/
def charAt0 (w : String) : String := ⟨w.data.take 1⟩

/-- The string without its first character. -/
def slice1 (w : String) : String := ⟨w.data.drop 1⟩

/-- The function `capitalizeWords` with the ASCII case mapping. -/
def capitalizeWordsAscii (str : String) : String :=
  let hasMixedCase := str != toUpperCaseAscii str && str != toLowerCaseAscii str
  if hasMixedCase then str
  else
    joinSpace ((splitSpace (toLowerCaseAscii str)).map
      (fun word => toUpperCaseAscii (charAt0 word) ++ slice1 word))

/-- Reference title-casing of one word with the ASCII case mapping. -/
def titleCaseWordAscii (w : String) : String :=
  match w.data with
  | [] => ""
  | c :: cs => ⟨c.toUpper :: cs.map Char.toLower⟩

/-- Reference title-casing of a string with the ASCII case mapping. -/
def titleCaseAscii (s : String) : String := joinSpace ((splitSpace s).map titleCaseWordAscii)

/-- Reference normalisation with the ASCII case mapping. -/
def referenceNormalizationAscii (s : String) : String :=
  if s = toUpperCaseAscii s ∨ s = toLowerCaseAscii s then titleCaseAscii s else s

/-! ## Sample inputs -/

/-- The names `"d"`, `"dd"`, ..., one per index below `n`. -/
def sampleDirectors (n : Nat) : List Director :=
  (List.range n).map (fun i => ⟨⟨List.replicate (i + 1) 'd'⟩⟩)

/-- The titles `"m"`, `"mm"`, ..., one per index below `n`. -/
def sampleMovies (n : Nat) : List Movie :=
  (List.range n).map (fun i => ⟨⟨List.replicate (i + 1) 'm'⟩, none⟩)

/-- Actor-centric response `{actor: {name: "A"}, movies: [{title: "M"}], directors: [...]}`
with thirty co-directors of pairwise distinct names. -/
def actorWithThirtyDirectors : Response :=
  { actor := some ⟨"A"⟩, movie := none, director := none, movies := some [⟨"M", none⟩],
    actors := none, directors := some (sampleDirectors 30) }

/-- Actor-centric response with thirty movies and two co-directors. -/
def actorWithThirtyMovies : Response :=
  { actor := some ⟨"A"⟩, movie := none, director := none, movies := some (sampleMovies 30),
    actors := none, directors := some (sampleDirectors 2) }

/-- Movie-centric response `{movie: {title: "Hero"}, actors: [{name: "Jet Li"}], directors: []}`. -/
def heroCast : Response :=
  { actor := none, movie := some ⟨"Hero", some "2002"⟩, director := none, movies := none,
    actors := some [⟨"Jet Li"⟩], directors := some [] }

/-- Actor-centric response
`{actor: {name: "Zhang Yimou"}, movies: [{title: "Hero", release_date: "2002"}], directors: []}`. -/
def zhangYimou : Response :=
  { actor := some ⟨"Zhang Yimou"⟩, movie := none, director := none,
    movies := some [⟨"Hero", some "2002"⟩], actors := none, directors := some [] }

/-- State left by a successful search for `zhangYimou`. -/
def stateWithResults : State :=
  { initialState with
      searchResults := some zhangYimou
      graphData := transformToGraphData (some zhangYimou) "actor" }

/-- Backend whose every promise rejects. -/
def offlineBackend : Backend := fun _ => none

/-- Backend answering 500 to a filmography lookup and 404 to every other lookup. -/
def brokenFilmographyBackend : Backend := fun r =>
  if r.relation = "filmography" then some ⟨500, false, none⟩ else some ⟨404, false, none⟩

/-- Backend answering 404 to every lookup. -/
def notFoundBackend : Backend := fun _ => some ⟨404, false, none⟩

/-- Backend answering 500 to every lookup. -/
def serverErrorBackend : Backend := fun _ => some ⟨500, false, none⟩

/-- Actor-centric response with twenty-six movies and no co-director. -/
def actorWithTwentySixMovies : Response :=
  { actor := some ⟨"A"⟩, movie := none, director := none, movies := some (sampleMovies 26),
    actors := none, directors := some [] }

/-- Director-centric response
`{director: {name: "Feng Xiaogang"}, movies: [{title: "M1"}], actors: [{name: "A1"}]}`. -/
def fengXiaogang : Response :=
  { actor := none, movie := none, director := some ⟨"Feng Xiaogang"⟩,
    movies := some [⟨"M1", none⟩], actors := some [⟨"A1"⟩], directors := none }

/-- Movie-centric response with one cast member and two directors. -/
def heroWithDirectors : Response :=
  { actor := none, movie := some ⟨"Hero", some "2002"⟩, director := none, movies := none,
    actors := some [⟨"Jet Li"⟩], directors := some [⟨"Zhang Yimou"⟩, ⟨"Ang Lee"⟩] }

/-- State left by a failed search that followed a successful one: results and an error. -/
def stateWithError : State :=
  { stateWithResults with error := some "Failed to fetch data. Please try again." }

/-- Backend answering 200 with the two halves of `zhangYimou` to every lookup. -/
def zhangYimouBackend : Backend := fun _ => some ⟨200, true, some zhangYimou⟩

/-- Actor-centric object with the `movies` field missing and one co-director. -/
def actorWithoutMovies : Response :=
  { actor := some ⟨"A"⟩, movie := none, director := none, movies := none,
    actors := none, directors := some [⟨"D"⟩] }

/-- Actor-centric object with an empty `movies` list and one co-director. -/
def actorWithEmptyMovies : Response :=
  { actor := some ⟨"A"⟩, movie := none, director := none, movies := some [],
    actors := none, directors := some [⟨"D"⟩] }

/-- Movie-centric response whose second cast member is named like the movie. -/
def heroWithNamesake : Response :=
  { actor := none, movie := some ⟨"Hero", some "2002"⟩, director := none, movies := none,
    actors := some [⟨"Jet Li"⟩, ⟨"Hero"⟩], directors := none }

/-- The node `"Hero"` of the graph of `zhangYimou`, as handed to `handleNodeClick`. -/
def heroNode : GraphNode := movieLeaf ⟨"Hero", some "2002"⟩

/-- State left by a failed import: the error of `handleImportData`, nothing else. -/
def stateAfterFailedImport : State :=
  { initialState with error := some "Failed to initialize DB. Please try again." }

/-! ## Lemmas on the graph under construction -/

theorem pushLeaf_links (c : String) (g : GraphData) (leaf : GraphNode) :
    (pushLeaf c g leaf).links = g.links ++ [⟨c, leaf.id, 500⟩] := rfl

theorem pushLeaf_nodes_of_none (c : String) (g : GraphData) (leaf : GraphNode)
    (h : g.nodes.find? (fun n => n.id == leaf.id) = none) :
    (pushLeaf c g leaf).nodes = g.nodes ++ [leaf] := by
  simp [pushLeaf, h]

theorem pushLeaf_nodes_of_some (c : String) (g : GraphData) (leaf n : GraphNode)
    (h : g.nodes.find? (fun n => n.id == leaf.id) = some n) :
    (pushLeaf c g leaf).nodes = g.nodes := by
  simp [pushLeaf, h]

theorem pushLeaf_centered (c : String) (g : GraphData) (leaf : GraphNode)
    (hg : CenteredAt c g) : CenteredAt c (pushLeaf c g leaf) := by
  obtain ⟨⟨n, rest, hn, hc⟩, hnd, hl⟩ := hg
  cases hfind : g.nodes.find? (fun n => n.id == leaf.id) with
  | none =>
    have hnodes := pushLeaf_nodes_of_none c g leaf hfind
    have hfresh : leaf.id ∉ g.nodes.map (·.id) := by
      intro hmem
      obtain ⟨m, hm, hmid⟩ := List.mem_map.mp hmem
      have := List.find?_eq_none.mp hfind m hm
      simp at this
      exact this hmid
    refine ⟨⟨n, rest ++ [leaf], by rw [hnodes, hn]; rfl, hc⟩, ?_, ?_⟩
    · rw [hnodes, List.map_append, List.nodup_append]
      refine ⟨hnd, List.nodup_singleton _, ?_⟩
      intro x hx hx'
      rw [List.map_cons, List.map_nil, List.mem_singleton] at hx'
      exact hfresh (hx' ▸ hx)
    · intro l hmem
      rw [pushLeaf_links, List.mem_append, List.mem_singleton] at hmem
      rw [hnodes, List.map_append, List.mem_append]
      rcases hmem with hmem | rfl
      · exact ⟨(hl l hmem).1, Or.inl (hl l hmem).2⟩
      · exact ⟨rfl, Or.inr (by simp)⟩
  | some m =>
    have hnodes := pushLeaf_nodes_of_some c g leaf m hfind
    have hmid : m.id = leaf.id := by simpa using List.find?_some hfind
    have hmem : m ∈ g.nodes := List.mem_of_find?_eq_some hfind
    refine ⟨⟨n, rest, by rw [hnodes, hn], hc⟩, by rw [hnodes]; exact hnd, ?_⟩
    intro l hl'
    rw [pushLeaf_links, List.mem_append, List.mem_singleton] at hl'
    rw [hnodes]
    rcases hl' with hl' | rfl
    · exact hl l hl'
    · exact ⟨rfl, List.mem_map.mpr ⟨m, hmem, hmid⟩⟩

theorem foldl_pushLeaf_centered {α : Type} (c : String) (f : α → GraphNode) (xs : List α) :
    ∀ g : GraphData, CenteredAt c g →
      CenteredAt c (xs.foldl (fun g x => pushLeaf c g (f x)) g) := by
  induction xs with
  | nil => intro g hg; exact hg
  | cons x xs ih => intro g hg; exact ih _ (pushLeaf_centered c g (f x) hg)

theorem foldl_pushLeaf_links {α : Type} (c : String) (f : α → GraphNode) (xs : List α) :
    ∀ g : GraphData, (xs.foldl (fun g x => pushLeaf c g (f x)) g).links =
      g.links ++ xs.map (fun x => (⟨c, (f x).id, 500⟩ : GraphLink)) := by
  induction xs with
  | nil => intro g; simp
  | cons x xs ih => intro g; simp [ih, pushLeaf_links]

theorem centered_singleton (n : GraphNode) : CenteredAt n.id { nodes := [n], links := [] } :=
  ⟨⟨n, [], rfl, rfl⟩, by simp, by simp⟩

theorem whenNonEmpty_eq {α : Type} (list : Option (List α))
    (body : List α → GraphData → GraphData) (g : GraphData) (hnil : body [] g = g) :
    whenNonEmpty list body g = body (list.getD []) g := by
  cases list with
  | none => exact hnil.symm
  | some xs =>
    cases xs with
    | nil => exact hnil.symm
    | cons x xs => simp [whenNonEmpty]

theorem actorGraph_eq (actor : Actor) (movies : List Movie)
    (directors : Option (List Director)) :
    actorGraph actor movies directors =
      (directors.getD []).foldl
        (fun g director => pushLeaf (actor.name ++ "-self") g (directorLeaf director))
        ((movies.take 29).foldl
          (fun g movie => pushLeaf (actor.name ++ "-self") g (movieLeaf movie))
          { nodes := [actorCenter actor], links := [] }) := by
  unfold actorGraph
  exact whenNonEmpty_eq _ _ _ rfl

theorem movieGraph_eq (movie : Movie) (actors : List Actor)
    (directors : Option (List Director)) :
    movieGraph movie actors directors =
      (directors.getD []).foldl
        (fun g director => pushLeaf movie.title g (directorLeafOfMovie director))
        ((actors.take 29).foldl (fun g actor => pushLeaf movie.title g (actorLeaf actor))
          { nodes := [movieCenter movie], links := [] }) := by
  unfold movieGraph
  exact whenNonEmpty_eq _ _ _ rfl

theorem directorGraph_eq (director : Director) (movies : Option (List Movie))
    (actors : Option (List Actor)) :
    directorGraph director movies actors =
      ((actors.getD []).take 29).foldl
        (fun g actor => pushLeaf (director.name ++ "-self") g (actorLeaf actor))
        (((movies.getD []).take 29).foldl
          (fun g movie => pushLeaf (director.name ++ "-self") g (movieLeaf movie))
          { nodes := [directorCenter director], links := [] }) := by
  unfold directorGraph
  simp only
  rw [whenNonEmpty_eq actors _ _ rfl, whenNonEmpty_eq movies _ _ rfl]

theorem actorGraph_centered (actor : Actor) (movies : List Movie)
    (directors : Option (List Director)) :
    CenteredAt (actor.name ++ "-self") (actorGraph actor movies directors) := by
  rw [actorGraph_eq]
  exact foldl_pushLeaf_centered _ _ _ _
    (foldl_pushLeaf_centered _ _ _ _ (centered_singleton (actorCenter actor)))

theorem movieGraph_centered (movie : Movie) (actors : List Actor)
    (directors : Option (List Director)) :
    CenteredAt movie.title (movieGraph movie actors directors) := by
  rw [movieGraph_eq]
  exact foldl_pushLeaf_centered _ _ _ _
    (foldl_pushLeaf_centered _ _ _ _ (centered_singleton (movieCenter movie)))

theorem directorGraph_centered (director : Director) (movies : Option (List Movie))
    (actors : Option (List Actor)) :
    CenteredAt (director.name ++ "-self") (directorGraph director movies actors) := by
  rw [directorGraph_eq]
  exact foldl_pushLeaf_centered _ _ _ _
    (foldl_pushLeaf_centered _ _ _ _ (centered_singleton (directorCenter director)))

theorem pushLeaf_nodes_extends (c : String) (g : GraphData) (leaf : GraphNode) :
    ∃ extra, (pushLeaf c g leaf).nodes = g.nodes ++ extra := by
  cases hfind : g.nodes.find? (fun n => n.id == leaf.id) with
  | none => exact ⟨[leaf], pushLeaf_nodes_of_none c g leaf hfind⟩
  | some m => exact ⟨[], by rw [pushLeaf_nodes_of_some c g leaf m hfind, List.append_nil]⟩

theorem foldl_pushLeaf_nodes_extends {α : Type} (c : String) (f : α → GraphNode)
    (xs : List α) :
    ∀ g : GraphData, ∃ extra,
      (xs.foldl (fun g x => pushLeaf c g (f x)) g).nodes = g.nodes ++ extra := by
  induction xs with
  | nil => intro g; exact ⟨[], by simp⟩
  | cons x xs ih =>
    intro g
    obtain ⟨e1, h1⟩ := pushLeaf_nodes_extends c g (f x)
    obtain ⟨e2, h2⟩ := ih (pushLeaf c g (f x))
    exact ⟨e1 ++ e2, by rw [List.foldl_cons, h2, h1, List.append_assoc]⟩

theorem foldl_foldl_pushLeaf_nodes {α β : Type} (c : String) (f : α → GraphNode)
    (f' : β → GraphNode) (xs : List α) (ys : List β) (n : GraphNode) :
    ∃ rest,
      (ys.foldl (fun g y => pushLeaf c g (f' y))
        (xs.foldl (fun g x => pushLeaf c g (f x)) { nodes := [n], links := [] })).nodes =
        n :: rest := by
  obtain ⟨e1, h1⟩ := foldl_pushLeaf_nodes_extends c f xs { nodes := [n], links := [] }
  obtain ⟨e2, h2⟩ := foldl_pushLeaf_nodes_extends c f' ys
    (xs.foldl (fun g x => pushLeaf c g (f x)) { nodes := [n], links := [] })
  exact ⟨e1 ++ e2, by rw [h2, h1]; rfl⟩

theorem actorGraph_nodes (actor : Actor) (movies : List Movie)
    (directors : Option (List Director)) :
    ∃ rest, (actorGraph actor movies directors).nodes = actorCenter actor :: rest := by
  rw [actorGraph_eq]
  exact foldl_foldl_pushLeaf_nodes _ _ _ _ _ _

theorem movieGraph_nodes (movie : Movie) (actors : List Actor)
    (directors : Option (List Director)) :
    ∃ rest, (movieGraph movie actors directors).nodes = movieCenter movie :: rest := by
  rw [movieGraph_eq]
  exact foldl_foldl_pushLeaf_nodes _ _ _ _ _ _

theorem directorGraph_nodes (director : Director) (movies : Option (List Movie))
    (actors : Option (List Actor)) :
    ∃ rest, (directorGraph director movies actors).nodes = directorCenter director :: rest := by
  rw [directorGraph_eq]
  exact foldl_foldl_pushLeaf_nodes _ _ _ _ _ _

theorem actorGraph_links (actor : Actor) (movies : List Movie)
    (directors : Option (List Director)) :
    (actorGraph actor movies directors).links =
      (movies.take 29).map (fun m => (⟨actor.name ++ "-self", m.title, 500⟩ : GraphLink)) ++
      (directors.getD []).map (fun d => (⟨actor.name ++ "-self", d.name, 500⟩ : GraphLink)) := by
  rw [actorGraph_eq, foldl_pushLeaf_links, foldl_pushLeaf_links]
  rfl

theorem movieGraph_links (movie : Movie) (actors : List Actor)
    (directors : Option (List Director)) :
    (movieGraph movie actors directors).links =
      (actors.take 29).map (fun a => (⟨movie.title, a.name, 500⟩ : GraphLink)) ++
      (directors.getD []).map
        (fun d => (⟨movie.title, d.name ++ "-director", 500⟩ : GraphLink)) := by
  rw [movieGraph_eq, foldl_pushLeaf_links, foldl_pushLeaf_links]
  rfl

theorem directorGraph_links (director : Director) (movies : Option (List Movie))
    (actors : Option (List Actor)) :
    (directorGraph director movies actors).links =
      ((movies.getD []).take 29).map
        (fun m => (⟨director.name ++ "-self", m.title, 500⟩ : GraphLink)) ++
      ((actors.getD []).take 29).map
        (fun a => (⟨director.name ++ "-self", a.name, 500⟩ : GraphLink)) := by
  rw [directorGraph_eq, foldl_pushLeaf_links, foldl_pushLeaf_links]
  rfl

theorem transformToGraphData_cases (data : Option Response) (type : String) :
    transformToGraphData data type = emptyGraph ∨
      ∃ c, CenteredAt c (transformToGraphData data type) := by
  unfold transformToGraphData
  split
  · exact Or.inr ⟨_, actorGraph_centered _ _ _⟩
  · split
    · exact Or.inr ⟨_, movieGraph_centered _ _ _⟩
    · split
      · exact Or.inr ⟨_, directorGraph_centered _ _ _⟩
      · exact Or.inl rfl

/-! ## Claims on `transformToGraphData` -/

/-- C1: for every response object and every entity type, the nodes returned by
`transformToGraphData` carry pairwise distinct ids. -/
theorem transformToGraphData_node_ids_nodup (data : Option Response) (type : String) :
    ((transformToGraphData data type).nodes.map (·.id)).Nodup := by
  rcases transformToGraphData_cases data type with h | ⟨c, h⟩
  · rw [h]; exact List.nodup_nil
  · exact h.2.1

/-- C2: every link returned by `transformToGraphData` has as source the id of the first
(centre) node and as target the id of some node of the returned node list. -/
theorem transformToGraphData_links_from_center (data : Option Response) (type : String)
    (l : GraphLink) (hl : l ∈ (transformToGraphData data type).links) :
    (∃ center rest, (transformToGraphData data type).nodes = center :: rest ∧
        l.source = center.id) ∧
      ∃ n ∈ (transformToGraphData data type).nodes, l.target = n.id := by
  rcases transformToGraphData_cases data type with h | ⟨c, ⟨n, rest, hn, hc⟩, _, hlinks⟩
  · rw [h] at hl; cases hl
  · obtain ⟨hs, ht⟩ := hlinks l hl
    refine ⟨⟨n, rest, hn, hs.trans hc.symm⟩, ?_⟩
    obtain ⟨m, hm, hmid⟩ := List.mem_map.mp ht
    exact ⟨m, hm, hmid.symm⟩

/-- Witness of C2 on the response `zhangYimou`: its single link goes from the centre
`"Zhang Yimou-self"` to the node `"Hero"`. -/
theorem transformToGraphData_links_from_center_witness :
    (∃ center rest, (transformToGraphData (some zhangYimou) "actor").nodes = center :: rest ∧
        (⟨"Zhang Yimou-self", "Hero", 500⟩ : GraphLink).source = center.id) ∧
      ∃ n ∈ (transformToGraphData (some zhangYimou) "actor").nodes,
        (⟨"Zhang Yimou-self", "Hero", 500⟩ : GraphLink).target = n.id :=
  transformToGraphData_links_from_center (some zhangYimou) "actor"
    ⟨"Zhang Yimou-self", "Hero", 500⟩ (by decide)

/-- C3, evaluated on the code: an actor-centric response with one movie and thirty
co-directors passes the not-found re-check, and its graph has the movie link followed by thirty
director links, the last one targeting the thirtieth director, and thirty director nodes after
the centre and the movie: the loop over `directors` has no `slice(0, 29)`. -/
theorem directors_list_is_not_truncated :
    recheckNotFound (some actorWithThirtyDirectors) "actor" = false ∧
      29 < (sampleDirectors 30).length ∧
      (transformToGraphData (some actorWithThirtyDirectors) "actor").links =
        ⟨"A-self", "M", 500⟩ ::
          (sampleDirectors 30).map (fun d => ⟨"A-self", d.name, 500⟩) ∧
      (transformToGraphData (some actorWithThirtyDirectors) "actor").links.length = 31 ∧
      (transformToGraphData (some actorWithThirtyDirectors) "actor").nodes =
        actorCenter ⟨"A"⟩ :: movieLeaf ⟨"M", none⟩ :: (sampleDirectors 30).map directorLeaf := by
  decide

/-- The `slice(0, 29)` of the loops over `movies` and `actors`: a `movies` list (types actor
and director) or an `actors` list (types movie and director) with more than 29 elements
contributes exactly 29 links, targeting its first 29 elements in input order. For the types actor and movie these 29
links open the link list and every link after them targets a director; for the type director
the link list is the (at most 29) movie links followed by the (at most 29) actor links. -/
theorem transformToGraphData_truncates_movies_and_actors (data : Response) :
    (∀ actor movies, data.actor = some actor → data.movies = some movies →
      29 < movies.length →
      ∃ rest, (transformToGraphData (some data) "actor").links =
          (movies.take 29).map
            (fun m => (⟨actor.name ++ "-self", m.title, 500⟩ : GraphLink)) ++ rest ∧
        (movies.take 29).length = 29 ∧
        ∀ l ∈ rest, ∃ d ∈ data.directors.getD [], l.target = d.name) ∧
    (∀ movie actors, data.movie = some movie → data.actors = some actors →
      29 < actors.length →
      ∃ rest, (transformToGraphData (some data) "movie").links =
          (actors.take 29).map (fun a => (⟨movie.title, a.name, 500⟩ : GraphLink)) ++ rest ∧
        (actors.take 29).length = 29 ∧
        ∀ l ∈ rest, ∃ d ∈ data.directors.getD [], l.target = d.name ++ "-director") ∧
    (∀ director, data.director = some director →
      (transformToGraphData (some data) "director").links =
        ((data.movies.getD []).take 29).map
          (fun m => (⟨director.name ++ "-self", m.title, 500⟩ : GraphLink)) ++
        ((data.actors.getD []).take 29).map
          (fun a => (⟨director.name ++ "-self", a.name, 500⟩ : GraphLink)) ∧
      (29 < (data.movies.getD []).length → ((data.movies.getD []).take 29).length = 29) ∧
      (29 < (data.actors.getD []).length → ((data.actors.getD []).take 29).length = 29)) := by
  refine ⟨?_, ?_, ?_⟩
  · intro actor movies ha hm hlen
    refine ⟨(data.directors.getD []).map
      (fun d => (⟨actor.name ++ "-self", d.name, 500⟩ : GraphLink)), ?_,
      by rw [List.length_take]; omega, ?_⟩
    · have h : transformToGraphData (some data) "actor" =
          actorGraph actor movies data.directors := by
        simp [transformToGraphData, ha, hm]
      rw [h, actorGraph_links]
    · intro l hl
      obtain ⟨d, hd, rfl⟩ := List.mem_map.mp hl
      exact ⟨d, hd, rfl⟩
  · intro movie actors hmv hact hlen
    refine ⟨(data.directors.getD []).map
      (fun d => (⟨movie.title, d.name ++ "-director", 500⟩ : GraphLink)), ?_,
      by rw [List.length_take]; omega, ?_⟩
    · have h : transformToGraphData (some data) "movie" =
          movieGraph movie actors data.directors := by
        simp [transformToGraphData, hmv, hact]
      rw [h, movieGraph_links]
    · intro l hl
      obtain ⟨d, hd, rfl⟩ := List.mem_map.mp hl
      exact ⟨d, hd, rfl⟩
  · intro director hd
    refine ⟨?_, ?_, ?_⟩
    · have h : transformToGraphData (some data) "director" =
          directorGraph director data.movies data.actors := by
        simp [transformToGraphData, hd]
      rw [h, directorGraph_links]
    · intro hlen
      rw [List.length_take]; omega
    · intro hlen
      rw [List.length_take]; omega

/-- On an actor-centric response with thirty movies and two co-directors the link list opens
with the links to the first 29 movies. -/
theorem transformToGraphData_truncates_movies_and_actors_witness :
    29 < (sampleMovies 30).length ∧
      ∃ rest, (transformToGraphData (some actorWithThirtyMovies) "actor").links =
          ((sampleMovies 30).take 29).map
            (fun m => (⟨"A" ++ "-self", m.title, 500⟩ : GraphLink)) ++ rest ∧
        ((sampleMovies 30).take 29).length = 29 ∧
        ∀ l ∈ rest, ∃ d ∈ actorWithThirtyMovies.directors.getD [], l.target = d.name :=
  ⟨by decide,
    (transformToGraphData_truncates_movies_and_actors actorWithThirtyMovies).1
      ⟨"A"⟩ (sampleMovies 30) rfl rfl (by decide)⟩

/-- C4, as stated, fails for the movie type: the response `heroCast` passes the not-found
re-check, its centre node has the bare id `"Hero"`, and no node has the id `"Hero-self"`. -/
theorem movie_center_has_no_self_suffix :
    recheckNotFound (some heroCast) "movie" = false ∧
      (transformToGraphData (some heroCast) "movie").nodes.map (·.id) = ["Hero", "Jet Li"] ∧
      "Hero-self" ∉ (transformToGraphData (some heroCast) "movie").nodes.map (·.id) := by
  decide

/-- C4, amended: for a merged response that passes the not-found re-check, the graph starts
with the centre node of the searched entity; its id is `name + "-self"` for the types actor
and director and the bare title for the type movie. -/
theorem transformToGraphData_center_node (data : Response) (type : String)
    (ht : type = "actor" ∨ type = "movie" ∨ type = "director")
    (hpass : recheckNotFound (some data) type = false) :
    ∃ center rest, (transformToGraphData (some data) type).nodes = center :: rest ∧
      ((type = "actor" ∧ ∃ a, data.actor = some a ∧ center = actorCenter a ∧
          center.id = a.name ++ "-self") ∨
       (type = "movie" ∧ ∃ m, data.movie = some m ∧ center = movieCenter m ∧
          center.id = m.title) ∨
       (type = "director" ∧ ∃ d, data.director = some d ∧ center = directorCenter d ∧
          center.id = d.name ++ "-self")) := by
  rcases ht with rfl | rfl | rfl
  · cases ha : data.actor with
    | none => simp [recheckNotFound, ha] at hpass
    | some a =>
      cases hm : data.movies with
      | none => simp [recheckNotFound, ha, hm, lengthFalsy] at hpass
      | some ms =>
        obtain ⟨rest, hrest⟩ := actorGraph_nodes a ms data.directors
        refine ⟨actorCenter a, rest, ?_, Or.inl ⟨rfl, a, rfl, rfl, rfl⟩⟩
        simpa [transformToGraphData, ha, hm] using hrest
  · cases hmv : data.movie with
    | none => simp [recheckNotFound, hmv] at hpass
    | some m =>
      cases hact : data.actors with
      | none => simp [recheckNotFound, hmv, hact, lengthFalsy] at hpass
      | some as =>
        obtain ⟨rest, hrest⟩ := movieGraph_nodes m as data.directors
        refine ⟨movieCenter m, rest, ?_, Or.inr (Or.inl ⟨rfl, m, rfl, rfl, rfl⟩)⟩
        simpa [transformToGraphData, hmv, hact] using hrest
  · cases hd : data.director with
    | none => simp [recheckNotFound, hd] at hpass
    | some d =>
      obtain ⟨rest, hrest⟩ := directorGraph_nodes d data.movies data.actors
      refine ⟨directorCenter d, rest, ?_, Or.inr (Or.inr ⟨rfl, d, rfl, rfl, rfl⟩)⟩
      simpa [transformToGraphData, hd] using hrest

/-- Witness of the amended C4 on the movie-centric response `heroCast`. -/
theorem transformToGraphData_center_node_witness :
    ∃ center rest, (transformToGraphData (some heroCast) "movie").nodes = center :: rest ∧
      (("movie" = "actor" ∧ ∃ a, heroCast.actor = some a ∧ center = actorCenter a ∧
          center.id = a.name ++ "-self") ∨
       ("movie" = "movie" ∧ ∃ m, heroCast.movie = some m ∧ center = movieCenter m ∧
          center.id = m.title) ∨
       ("movie" = "director" ∧ ∃ d, heroCast.director = some d ∧ center = directorCenter d ∧
          center.id = d.name ++ "-self")) :=
  transformToGraphData_center_node heroCast "movie" (by decide) (by decide)

/-- C5: when the response lacks the centre object matching the type (`actor`, `movie` or
`director`), `transformToGraphData` returns the empty graph; being a total function, it does so
without raising an error. -/
theorem transformToGraphData_missing_center (data : Option Response) (type : String)
    (h : (type = "actor" ∧ data.bind (·.actor) = none) ∨
      (type = "movie" ∧ data.bind (·.movie) = none) ∨
      (type = "director" ∧ data.bind (·.director) = none)) :
    transformToGraphData data type = emptyGraph := by
  rcases h with ⟨rfl, h⟩ | ⟨rfl, h⟩ | ⟨rfl, h⟩ <;> simp [transformToGraphData, h]

/-- Witness of C5: a movie-centric response handed over under the type `actor`. -/
theorem transformToGraphData_missing_center_witness :
    transformToGraphData (some heroCast) "actor" = emptyGraph :=
  transformToGraphData_missing_center (some heroCast) "actor" (Or.inl ⟨rfl, rfl⟩)

/-! ## Lemmas on case mapping and splitting -/

theorem toNat_ofNat_of_lt (n : Nat) (h : n < 55296) : (Char.ofNat n).toNat = n := by
  have hv : n.isValidChar := Or.inl h
  unfold Char.ofNat
  rw [dif_pos hv]
  rfl

theorem toLower_eq_space (c : Char) : c.toLower = ' ' ↔ c = ' ' := by
  constructor
  · intro h
    unfold Char.toLower at h
    simp only at h
    split at h
    · rename_i hr
      have h2 := congrArg Char.toNat h
      rw [toNat_ofNat_of_lt _ (by omega)] at h2
      have : (' ' : Char).toNat = 32 := rfl
      omega
    · exact h
  · rintro rfl
    rfl

theorem toUpper_toLower (c : Char) : c.toLower.toUpper = c.toUpper := by
  by_cases hr : c.toNat ≥ 65 ∧ c.toNat ≤ 90
  · have h1 : c.toLower = Char.ofNat (c.toNat + 32) := by
      unfold Char.toLower; simp only; rw [if_pos hr]
    have h2 : (Char.ofNat (c.toNat + 32)).toNat = c.toNat + 32 :=
      toNat_ofNat_of_lt _ (by omega)
    have h3 : c.toUpper = c := by
      unfold Char.toUpper; simp only; rw [if_neg (by omega)]
    rw [h1, h3]
    unfold Char.toUpper
    simp only
    rw [h2, if_pos (by omega), Nat.add_sub_cancel, Char.ofNat_toNat]
  · have h1 : c.toLower = c := by
      unfold Char.toLower; simp only; rw [if_neg hr]
    rw [h1]

theorem splitSpaceChars_ne_nil (cs : List Char) : splitSpaceChars cs ≠ [] := by
  cases cs with
  | nil => simp [splitSpaceChars]
  | cons c cs =>
    unfold splitSpaceChars
    split
    · simp
    · split <;> simp

theorem splitSpaceChars_map_toLower (cs : List Char) :
    splitSpaceChars (cs.map Char.toLower) = (splitSpaceChars cs).map (List.map Char.toLower) := by
  induction cs with
  | nil => rfl
  | cons c cs ih =>
    rw [List.map_cons]
    unfold splitSpaceChars
    by_cases hc : c = ' '
    · have hl : c.toLower = ' ' := (toLower_eq_space c).mpr hc
      rw [if_pos hl, if_pos hc, ih]; rfl
    · have hl : ¬ c.toLower = ' ' := fun h => hc ((toLower_eq_space c).mp h)
      rw [if_neg hl, if_neg hc, ih]
      cases hs : splitSpaceChars cs with
      | nil => exact absurd hs (splitSpaceChars_ne_nil cs)
      | cons w ws => rfl

theorem capitalize_lowered_word (w : List Char) :
    toUpperCaseAscii (charAt0 ⟨w.map Char.toLower⟩) ++ slice1 ⟨w.map Char.toLower⟩ =
      titleCaseWordAscii ⟨w⟩ := by
  cases w with
  | nil => rfl
  | cons c cs =>
    apply String.ext
    simp [toUpperCaseAscii, charAt0, slice1, titleCaseWordAscii, toUpper_toLower]

theorem capitalizeWordsAscii_lowered_eq_titleCase (s : String) :
    joinSpace ((splitSpace (toLowerCaseAscii s)).map
      (fun word => toUpperCaseAscii (charAt0 word) ++ slice1 word)) = titleCaseAscii s := by
  unfold titleCaseAscii splitSpace toLowerCaseAscii
  simp only [splitSpaceChars_map_toLower, List.map_map]
  congr 1
  apply List.map_congr_left
  intro w _
  exact capitalize_lowered_word w


/-! ## Lemmas on `handleSearch` -/

theorem searchRequests_pair_iff (query type : String) :
    (∃ q1 q2, searchRequests query type = [q1, q2]) ↔
      (type = "actor" ∨ type = "movie" ∨ type = "director") := by
  unfold searchRequests
  constructor
  · rintro ⟨q1, q2, h⟩
    by_cases ha : type = "actor"
    · exact Or.inl ha
    · by_cases hm : type = "movie"
      · exact Or.inr (Or.inl hm)
      · by_cases hd : type = "director"
        · exact Or.inr (Or.inr hd)
        · simp [ha, hm, hd] at h
  · rintro (rfl | rfl | rfl)
    · exact ⟨_, _, rfl⟩
    · exact ⟨_, _, rfl⟩
    · exact ⟨_, _, rfl⟩

theorem searchBranch_of_requests (api : Backend) (query type : String) (q1 q2 : Request)
    (h : searchRequests query type = [q1, q2]) :
    ∃ merge cypherQuery,
      searchBranch api query type = afterFetch (api q1) (api q2) merge cypherQuery := by
  unfold searchRequests at h
  unfold searchBranch
  by_cases ha : type = "actor"
  · rw [if_pos ha] at h
    rw [if_pos ha]
    injection h with h1 h
    injection h with h2 _
    subst h1 h2
    exact ⟨_, _, rfl⟩
  · rw [if_neg ha] at h
    rw [if_neg ha]
    by_cases hm : type = "movie"
    · rw [if_pos hm] at h
      rw [if_pos hm]
      injection h with h1 h
      injection h with h2 _
      subst h1 h2
      exact ⟨_, _, rfl⟩
    · rw [if_neg hm] at h
      rw [if_neg hm]
      by_cases hd : type = "director"
      · rw [if_pos hd] at h
        rw [if_pos hd]
        injection h with h1 h
        injection h with h2 _
        subst h1 h2
        exact ⟨_, _, rfl⟩
      · rw [if_neg hd] at h
        cases h

theorem afterFetch_of_404 (r1 r2 : HttpResponse) (merge : Response → Response → Response)
    (cypherQuery : String) (h : r1.status = 404 ∨ r2.status = 404) :
    afterFetch (some r1) (some r2) merge cypherQuery = BranchResult.earlyReturn := by
  simp [afterFetch, h]

theorem afterFetch_of_not_ok (r1 r2 : HttpResponse) (merge : Response → Response → Response)
    (cypherQuery : String) (h1 : r1.status ≠ 404) (h2 : r2.status ≠ 404)
    (hok : r1.ok = false ∨ r2.ok = false) :
    afterFetch (some r1) (some r2) merge cypherQuery = BranchResult.throws := by
  simp [afterFetch, h1, h2, hok]

theorem afterFetch_of_rejected (first second : Option HttpResponse)
    (merge : Response → Response → Response) (cypherQuery : String)
    (h : first = none ∨ second = none) :
    afterFetch first second merge cypherQuery = BranchResult.throws := by
  rcases h with rfl | rfl
  · rfl
  · cases first <;> rfl

theorem handleSearch_of_earlyReturn (api : Backend) (s : State) (query type : String)
    (hq : trim query ≠ "") (hb : searchBranch api query type = BranchResult.earlyReturn) :
    (handleSearch api s query type).1 =
      { searchStart s query with
          notFound := true, searchResults := none, graphData := emptyGraph, loading := false } := by
  simp [handleSearch, hq, hb]

theorem handleSearch_of_throws (api : Backend) (s : State) (query type : String)
    (hq : trim query ≠ "") (hb : searchBranch api query type = BranchResult.throws) :
    handleSearch api s query type =
      ({ searchStart s query with
          error := some "Failed to fetch data. Please try again.", loading := false },
        Effect.historyPushState query type :: updateURL query type ++
          (searchRequests query type).map Effect.fetchData ++
          [Effect.consoleError "Search error:"]) := by
  simp [handleSearch, hq, hb]

theorem searchBranch_of_requestFailure (api : Backend) (query type : String)
    (h : RequestFailure api query type) :
    searchBranch api query type = BranchResult.throws := by
  obtain ⟨q1, q2, hreq, h⟩ := h
  obtain ⟨merge, cy, hb⟩ := searchBranch_of_requests api query type q1 q2 hreq
  rw [hb]
  rcases h with h | h | ⟨r1, r2, h1, h2, hs1, hs2, hok⟩
  · exact afterFetch_of_rejected _ _ _ _ (Or.inl h)
  · exact afterFetch_of_rejected _ _ _ _ (Or.inr h)
  · rw [h1, h2]
    exact afterFetch_of_not_ok r1 r2 _ _ hs1 hs2 hok

/-! ## The normalisation with the ASCII case mapping -/

/-- With the ASCII case mapping the function equals the reference normalisation on every
string. -/
theorem capitalizeWordsAscii_eq_referenceNormalizationAscii (s : String) :
    capitalizeWordsAscii s = referenceNormalizationAscii s := by
  unfold capitalizeWordsAscii referenceNormalizationAscii
  simp only [capitalizeWordsAscii_lowered_eq_titleCase]
  by_cases hu : s = toUpperCaseAscii s
  · simp [← hu]
  · by_cases hl : s = toLowerCaseAscii s
    · simp [← hl]
    · simp [hu, hl]

/-! ## Claims on `handleSearch` -/

/-- C7, as stated, fails: for the all-lowercase actor query `"tom hanks"` the two lookups are
issued for the raw text, although its title-cased form is `"Tom Hanks"`; only the URL handed to
`router.push` carries the title-cased form. -/
theorem handleSearch_looks_up_raw_query :
    "tom hanks" = toLowerCase "tom hanks" ∧ capitalizeWords "tom hanks" = "Tom Hanks" ∧
      (handleSearch offlineBackend initialState "tom hanks" "actor").2 =
        [Effect.historyPushState "tom hanks" "actor", Effect.routerPush "Tom Hanks" "actor",
         Effect.fetchData ⟨"actors", "tom hanks", "filmography"⟩,
         Effect.fetchData ⟨"actors", "tom hanks", "directors"⟩,
         Effect.consoleError "Search error:"] := by
  decide

/-- C7, amended: for every actor-type search with a non-blank query, `handleSearch` issues the
two lookups (filmography-by-name, co-directors-by-name) for the query exactly as given;
the title-cased form `capitalizeWords query` is used only in the URL handed to `router.push`
by `updateURL`, after `history.pushState` has received the raw query. -/
theorem handleSearch_actor_lookups_use_raw_query (api : Backend) (s : State) (query : String)
    (hq : trim query ≠ "") :
    ∃ rest, (handleSearch api s query "actor").2 =
      [Effect.historyPushState query "actor",
       Effect.routerPush (capitalizeWords query) "actor",
       Effect.fetchData ⟨"actors", query, "filmography"⟩,
       Effect.fetchData ⟨"actors", query, "directors"⟩] ++ rest ∧
      ∀ e ∈ rest, e = Effect.consoleError "Search error:" := by
  unfold handleSearch
  rw [if_neg hq]
  simp only
  split
  · exact ⟨[], by simp [updateURL, searchRequests], by simp⟩
  · exact ⟨[Effect.consoleError "Search error:"], by simp [updateURL, searchRequests],
      by simp⟩
  · exact ⟨[], by simp [updateURL, searchRequests], by simp⟩

/-- Witness of the amended C7 at the query `"tom hanks"` against a backend answering 404. -/
theorem handleSearch_actor_lookups_use_raw_query_witness :
    ∃ rest, (handleSearch notFoundBackend initialState "tom hanks" "actor").2 =
      [Effect.historyPushState "tom hanks" "actor",
       Effect.routerPush (capitalizeWords "tom hanks") "actor",
       Effect.fetchData ⟨"actors", "tom hanks", "filmography"⟩,
       Effect.fetchData ⟨"actors", "tom hanks", "directors"⟩] ++ rest ∧
      ∀ e ∈ rest, e = Effect.consoleError "Search error:" :=
  handleSearch_actor_lookups_use_raw_query notFoundBackend initialState "tom hanks" (by decide)

/-- C8: for a search of one of the three types (the types for which `searchRequests` yields the
pair of lookups `q1`, `q2`) whose two lookups both resolve, if at least one status is 404 the
search ends with `notFound = true`, `searchResults = null`, the empty graph and no error,
whatever the other status is. -/
theorem handleSearch_404_is_notFound (api : Backend) (s : State) (query type : String)
    (q1 q2 : Request) (r1 r2 : HttpResponse) (hq : trim query ≠ "")
    (hreq : searchRequests query type = [q1, q2]) (h1 : api q1 = some r1)
    (h2 : api q2 = some r2) (h404 : r1.status = 404 ∨ r2.status = 404) :
    (handleSearch api s query type).1.notFound = true ∧
      (handleSearch api s query type).1.searchResults = none ∧
      (handleSearch api s query type).1.graphData = emptyGraph ∧
      (handleSearch api s query type).1.error = none := by
  obtain ⟨merge, cy, hb⟩ := searchBranch_of_requests api query type q1 q2 hreq
  rw [h1, h2, afterFetch_of_404 r1 r2 merge cy h404] at hb
  rw [handleSearch_of_earlyReturn api s query type hq hb]
  exact ⟨rfl, rfl, rfl, rfl⟩

/-- Witness of C8: a movie search from a state holding earlier results, against a backend
answering 404 to both lookups. -/
theorem handleSearch_404_is_notFound_witness :
    (handleSearch notFoundBackend stateWithResults "hero" "movie").1.notFound = true ∧
      (handleSearch notFoundBackend stateWithResults "hero" "movie").1.searchResults = none ∧
      (handleSearch notFoundBackend stateWithResults "hero" "movie").1.graphData = emptyGraph ∧
      (handleSearch notFoundBackend stateWithResults "hero" "movie").1.error = none :=
  handleSearch_404_is_notFound notFoundBackend stateWithResults "hero" "movie"
    ⟨"movies", "hero", "cast"⟩ ⟨"movies", "hero", "directors"⟩ ⟨404, false, none⟩
    ⟨404, false, none⟩ (by decide) rfl rfl rfl (Or.inl rfl)

/-- C9, as stated, fails: in an actor search whose filmography lookup answers 500 (non-OK, not
404) while the co-directors lookup answers 404, the search ends not-found with no error. -/
theorem handleSearch_500_beside_404_is_notFound :
    brokenFilmographyBackend ⟨"actors", "tom hanks", "filmography"⟩ = some ⟨500, false, none⟩ ∧
      brokenFilmographyBackend ⟨"actors", "tom hanks", "directors"⟩ = some ⟨404, false, none⟩ ∧
      (handleSearch brokenFilmographyBackend initialState "tom hanks" "actor").1.error = none ∧
      (handleSearch brokenFilmographyBackend initialState "tom hanks" "actor").1.notFound
        = true := by
  decide

/-- C9, amended: for a search of one of the three types whose two lookups both resolve with
neither status equal to 404, if either response is not OK the search ends in the generic
failure: the error is `"Failed to fetch data. Please try again."`, the not-found flag is false,
and the exception is caught and logged by `handleSearch` (its last effect is the
`console.error`). -/
theorem handleSearch_not_ok_sets_error (api : Backend) (s : State) (query type : String)
    (q1 q2 : Request) (r1 r2 : HttpResponse) (hq : trim query ≠ "")
    (hreq : searchRequests query type = [q1, q2]) (h1 : api q1 = some r1)
    (h2 : api q2 = some r2) (hs1 : r1.status ≠ 404) (hs2 : r2.status ≠ 404)
    (hok : r1.ok = false ∨ r2.ok = false) :
    (handleSearch api s query type).1.error = some "Failed to fetch data. Please try again." ∧
      (handleSearch api s query type).1.notFound = false ∧
      (handleSearch api s query type).1.loading = false ∧
      (handleSearch api s query type).2.getLast? = some (Effect.consoleError "Search error:") := by
  obtain ⟨merge, cy, hb⟩ := searchBranch_of_requests api query type q1 q2 hreq
  rw [h1, h2, afterFetch_of_not_ok r1 r2 merge cy hs1 hs2 hok] at hb
  rw [handleSearch_of_throws api s query type hq hb]
  exact ⟨rfl, rfl, rfl, List.getLast?_concat _⟩

/-- Witness of the amended C9: a director search against a backend answering 500 to both
lookups. -/
theorem handleSearch_not_ok_sets_error_witness :
    (handleSearch serverErrorBackend initialState "Feng Xiaogang" "director").1.error =
        some "Failed to fetch data. Please try again." ∧
      (handleSearch serverErrorBackend initialState "Feng Xiaogang" "director").1.notFound
        = false ∧
      (handleSearch serverErrorBackend initialState "Feng Xiaogang" "director").1.loading
        = false ∧
      (handleSearch serverErrorBackend initialState "Feng Xiaogang" "director").2.getLast? =
        some (Effect.consoleError "Search error:") :=
  handleSearch_not_ok_sets_error serverErrorBackend initialState "Feng Xiaogang" "director"
    ⟨"directors", "Feng Xiaogang", "filmography"⟩ ⟨"directors", "Feng Xiaogang", "actors"⟩
    ⟨500, false, none⟩ ⟨500, false, none⟩ (by decide) rfl rfl rfl (by decide) (by decide)
    (Or.inl rfl)

/-- C10, as stated, fails: a search that ends in a request failure (a rejected promise, or a
500 on both lookups) from a state holding the results of an earlier search leaves those results
and their graph in place. -/
theorem handleSearch_failure_keeps_results :
    stateWithResults.searchResults ≠ none ∧ stateWithResults.graphData ≠ emptyGraph ∧
      (handleSearch offlineBackend stateWithResults "tom hanks" "actor").1.searchResults =
        stateWithResults.searchResults ∧
      (handleSearch offlineBackend stateWithResults "tom hanks" "actor").1.graphData =
        stateWithResults.graphData ∧
      (handleSearch serverErrorBackend stateWithResults "tom hanks" "actor").1.searchResults =
        stateWithResults.searchResults ∧
      (handleSearch serverErrorBackend stateWithResults "tom hanks" "actor").1.graphData =
        stateWithResults.graphData := by
  decide

/-- C10, amended: a search that ends in a request failure (a non-OK, non-404 status or a thrown
network exception) leaves `searchResults` and `graphData` as they were before the search; it
sets the error message and ends with `loading = false`. -/
theorem handleSearch_failure_preserves_results (api : Backend) (s : State)
    (query type : String) (hq : trim query ≠ "") (hfail : RequestFailure api query type) :
    (handleSearch api s query type).1.searchResults = s.searchResults ∧
      (handleSearch api s query type).1.graphData = s.graphData ∧
      (handleSearch api s query type).1.error = some "Failed to fetch data. Please try again." ∧
      (handleSearch api s query type).1.loading = false := by
  rw [handleSearch_of_throws api s query type hq
    (searchBranch_of_requestFailure api query type hfail)]
  exact ⟨rfl, rfl, rfl, rfl⟩

/-- Witness of the amended C10: an actor search against a backend whose promises reject, from
a state holding earlier results. -/
theorem handleSearch_failure_preserves_results_witness :
    (handleSearch offlineBackend stateWithResults "tom hanks" "actor").1.searchResults =
        stateWithResults.searchResults ∧
      (handleSearch offlineBackend stateWithResults "tom hanks" "actor").1.graphData =
        stateWithResults.graphData ∧
      (handleSearch offlineBackend stateWithResults "tom hanks" "actor").1.error =
        some "Failed to fetch data. Please try again." ∧
      (handleSearch offlineBackend stateWithResults "tom hanks" "actor").1.loading = false :=
  handleSearch_failure_preserves_results offlineBackend stateWithResults "tom hanks" "actor"
    (by decide)
    ⟨⟨"actors", "tom hanks", "filmography"⟩, ⟨"actors", "tom hanks", "directors"⟩, rfl,
      Or.inl rfl⟩

/-! ## Lemmas on the nodes added by a loop -/

theorem foldl_pushLeaf_nodes_of_fresh {α : Type} (c : String) (f : α → GraphNode)
    (xs : List α) :
    ∀ g : GraphData, (g.nodes.map (·.id) ++ xs.map (fun x => (f x).id)).Nodup →
      (xs.foldl (fun g x => pushLeaf c g (f x)) g).nodes = g.nodes ++ xs.map f := by
  induction xs with
  | nil => intro g _; simp
  | cons x xs ih =>
    intro g hnd
    have hfresh : (f x).id ∉ g.nodes.map (·.id) := by
      intro hmem
      have hdisj := (List.nodup_append.mp hnd).2.2
      exact hdisj hmem (List.mem_cons_self _ _)
    have hfind : g.nodes.find? (fun n => n.id == (f x).id) = none := by
      rw [List.find?_eq_none]
      intro n hn hid
      exact hfresh (List.mem_map.mpr ⟨n, hn, by simpa using hid⟩)
    have hnodes := pushLeaf_nodes_of_none c g (f x) hfind
    have hnd' : ((pushLeaf c g (f x)).nodes.map (·.id) ++
        xs.map (fun x => (f x).id)).Nodup := by
      rw [hnodes, List.map_append, List.append_assoc]
      exact hnd
    rw [List.foldl_cons, ih _ hnd', hnodes, List.append_assoc]
    rfl

theorem foldl_pushLeaf_nodes_leaves {α : Type} (c : String) (f : α → GraphNode)
    (xs : List α) :
    ∀ g : GraphData, ∃ extra,
      (xs.foldl (fun g x => pushLeaf c g (f x)) g).nodes = g.nodes ++ extra ∧
        ∀ n ∈ extra, ∃ x ∈ xs, n = f x := by
  induction xs with
  | nil => intro g; exact ⟨[], by simp, by simp⟩
  | cons x xs ih =>
    intro g
    obtain ⟨e2, h2, hl2⟩ := ih (pushLeaf c g (f x))
    cases hfind : g.nodes.find? (fun n => n.id == (f x).id) with
    | none =>
      refine ⟨f x :: e2, ?_, ?_⟩
      · rw [List.foldl_cons, h2, pushLeaf_nodes_of_none c g (f x) hfind, List.append_assoc]
        rfl
      · intro n hn
        rcases List.mem_cons.mp hn with rfl | hn
        · exact ⟨x, List.mem_cons_self _ _, rfl⟩
        · obtain ⟨y, hy, rfl⟩ := hl2 n hn
          exact ⟨y, List.mem_cons_of_mem _ hy, rfl⟩
    | some m =>
      refine ⟨e2, ?_, ?_⟩
      · rw [List.foldl_cons, h2, pushLeaf_nodes_of_some c g (f x) m hfind]
      · intro n hn
        obtain ⟨y, hy, rfl⟩ := hl2 n hn
        exact ⟨y, List.mem_cons_of_mem _ hy, rfl⟩

theorem mem_foldl_pushLeaf_of_mem {α : Type} (c : String) (f : α → GraphNode)
    (xs : List α) (g : GraphData) (n : GraphNode) (hn : n ∈ g.nodes) :
    n ∈ (xs.foldl (fun g x => pushLeaf c g (f x)) g).nodes := by
  obtain ⟨extra, h⟩ := foldl_pushLeaf_nodes_extends c f xs g
  rw [h]
  exact List.mem_append_left _ hn

theorem mem_foldl_pushLeaf_of_fresh {α : Type} (c : String) (f : α → GraphNode)
    (hinj : ∀ x y, (f x).id = (f y).id → f x = f y) (xs : List α) :
    ∀ (g : GraphData) (x : α), x ∈ xs → (∀ n ∈ g.nodes, n.id ≠ (f x).id) →
      f x ∈ (xs.foldl (fun g x => pushLeaf c g (f x)) g).nodes := by
  induction xs with
  | nil => intro g x hx; cases hx
  | cons y ys ih =>
    intro g x hx hfresh
    rw [List.foldl_cons]
    by_cases hid : (f y).id = (f x).id
    · have hfind : g.nodes.find? (fun n => n.id == (f y).id) = none := by
        rw [List.find?_eq_none]
        intro n hn h
        exact hfresh n hn ((by simpa using h : n.id = (f y).id).trans hid)
      apply mem_foldl_pushLeaf_of_mem
      rw [pushLeaf_nodes_of_none c g (f y) hfind, ← hinj y x hid]
      exact List.mem_append_right _ (List.mem_singleton_self _)
    · have hx' : x ∈ ys := by
        rcases List.mem_cons.mp hx with rfl | h
        · exact absurd rfl hid
        · exact h
      apply ih _ x hx'
      intro n hn
      obtain ⟨extra, hext, hleaves⟩ := foldl_pushLeaf_nodes_leaves c f [y] g
      rw [List.foldl_cons, List.foldl_nil] at hext
      rw [hext] at hn
      rcases List.mem_append.mp hn with hn | hn
      · exact hfresh n hn
      · obtain ⟨z, hz, rfl⟩ := hleaves n hn
        rw [List.mem_singleton] at hz
        subst hz
        exact hid

theorem foldl_foldl_pushLeaf_nodes_leaves {α β : Type} (c : String) (f : α → GraphNode)
    (f' : β → GraphNode) (xs : List α) (ys : List β) (n : GraphNode) :
    ∃ rest,
      (ys.foldl (fun g y => pushLeaf c g (f' y))
        (xs.foldl (fun g x => pushLeaf c g (f x)) { nodes := [n], links := [] })).nodes =
        n :: rest ∧
      ∀ k ∈ rest, (∃ x ∈ xs, k = f x) ∨ ∃ y ∈ ys, k = f' y := by
  obtain ⟨e1, h1, hl1⟩ := foldl_pushLeaf_nodes_leaves c f xs { nodes := [n], links := [] }
  obtain ⟨e2, h2, hl2⟩ := foldl_pushLeaf_nodes_leaves c f' ys
    (xs.foldl (fun g x => pushLeaf c g (f x)) { nodes := [n], links := [] })
  refine ⟨e1 ++ e2, by rw [h2, h1]; rfl, ?_⟩
  intro k hk
  rcases List.mem_append.mp hk with hk | hk
  · exact Or.inl (hl1 k hk)
  · exact Or.inr (hl2 k hk)

theorem append_right_cancel_string (a b s : String) (h : a ++ s = b ++ s) : a = b := by
  have h1 := congrArg String.data h
  rw [String.data_append, String.data_append] at h1
  exact String.ext (List.append_cancel_right h1)

theorem transformToGraphData_eq_cases (data : Option Response) (type : String) :
    (type = "actor" ∧ ∃ actor movies, data.bind (·.actor) = some actor ∧
        data.bind (·.movies) = some movies ∧
        transformToGraphData data type = actorGraph actor movies (data.bind (·.directors))) ∨
    (type = "movie" ∧ ∃ movie actors, data.bind (·.movie) = some movie ∧
        data.bind (·.actors) = some actors ∧
        transformToGraphData data type = movieGraph movie actors (data.bind (·.directors))) ∨
    (type = "director" ∧ ∃ director, data.bind (·.director) = some director ∧
        transformToGraphData data type =
          directorGraph director (data.bind (·.movies)) (data.bind (·.actors))) ∨
    transformToGraphData data type = emptyGraph := by
  by_cases ha : type = "actor"
  · subst ha
    cases hc : data.bind (·.actor) with
    | none => exact Or.inr (Or.inr (Or.inr (by simp [transformToGraphData, hc])))
    | some a =>
      cases hm : data.bind (·.movies) with
      | none => exact Or.inr (Or.inr (Or.inr (by simp [transformToGraphData, hc, hm])))
      | some ms => exact Or.inl ⟨rfl, a, ms, rfl, rfl, by simp [transformToGraphData, hc, hm]⟩
  · by_cases hmv : type = "movie"
    · subst hmv
      cases hc : data.bind (·.movie) with
      | none => exact Or.inr (Or.inr (Or.inr (by simp [transformToGraphData, hc])))
      | some m =>
        cases hm : data.bind (·.actors) with
        | none => exact Or.inr (Or.inr (Or.inr (by simp [transformToGraphData, hc, hm])))
        | some as =>
          exact Or.inr (Or.inl ⟨rfl, m, as, rfl, rfl, by simp [transformToGraphData, hc, hm]⟩)
    · by_cases hd : type = "director"
      · subst hd
        cases hc : data.bind (·.director) with
        | none => exact Or.inr (Or.inr (Or.inr (by simp [transformToGraphData, hc])))
        | some d =>
          exact Or.inr (Or.inr (Or.inl ⟨rfl, d, rfl, by simp [transformToGraphData, hc]⟩))
      · exact Or.inr (Or.inr (Or.inr (by simp [transformToGraphData, ha, hmv, hd])))

/-! ## Claims on the shape of the returned graph -/

/-- C15: for an actor-centric response with an actor, an empty `directors` list and at most 29
movies whose titles are pairwise distinct and differ from the center id,
`transformToGraphData(data, "actor")` returns the center `name + "-self"` followed by one node
per movie (id equal to its title), hence `n + 1` nodes, and one link from the center id to each
movie title, hence `n` links; the empty `directors` list adds nothing. -/
theorem transformToGraphData_actor_distinct_movies (data : Response) (actor : Actor)
    (movies : List Movie) (ha : data.actor = some actor) (hm : data.movies = some movies)
    (hd : data.directors = some []) (hlen : movies.length ≤ 29)
    (hnodup : (movies.map (·.title)).Nodup)
    (hcenter : actor.name ++ "-self" ∉ movies.map (·.title)) :
    transformToGraphData (some data) "actor" =
        { nodes := actorCenter actor :: movies.map movieLeaf
          links := movies.map
            (fun m => (⟨actor.name ++ "-self", m.title, 500⟩ : GraphLink)) } ∧
      (actorCenter actor).id = actor.name ++ "-self" ∧
      (transformToGraphData (some data) "actor").nodes.length = movies.length + 1 ∧
      (transformToGraphData (some data) "actor").links.length = movies.length := by
  have htake : movies.take 29 = movies := List.take_of_length_le hlen
  have h : transformToGraphData (some data) "actor" =
      { nodes := actorCenter actor :: movies.map movieLeaf
        links := movies.map
          (fun m => (⟨actor.name ++ "-self", m.title, 500⟩ : GraphLink)) } := by
    have h0 : transformToGraphData (some data) "actor" =
        actorGraph actor movies (some []) := by
      simp [transformToGraphData, ha, hm, hd]
    have hnodes : (actorGraph actor movies (some [])).nodes =
        actorCenter actor :: movies.map movieLeaf := by
      rw [actorGraph_eq, htake]
      have hfresh := foldl_pushLeaf_nodes_of_fresh (actor.name ++ "-self") movieLeaf movies
        { nodes := [actorCenter actor], links := [] }
        (by
          show ((actor.name ++ "-self") :: movies.map (fun m => (movieLeaf m).id)).Nodup
          exact List.nodup_cons.mpr ⟨hcenter, hnodup⟩)
      simpa using hfresh
    have hlinks := actorGraph_links actor movies (some [])
    rw [htake] at hlinks
    rw [h0]
    calc actorGraph actor movies (some [])
        = { nodes := (actorGraph actor movies (some [])).nodes
            links := (actorGraph actor movies (some [])).links } := rfl
      _ = _ := by rw [hnodes, hlinks]; simp
  refine ⟨h, rfl, ?_, ?_⟩
  · rw [h]; simp
  · rw [h]; simp

/-- Witness of C15: the response `zhangYimou` gives the nodes `"Zhang Yimou-self"` and `"Hero"`
and one link between them. -/
theorem transformToGraphData_actor_distinct_movies_witness :
    transformToGraphData (some zhangYimou) "actor" =
        { nodes := actorCenter ⟨"Zhang Yimou"⟩ :: [movieLeaf ⟨"Hero", some "2002"⟩]
          links := [⟨"Zhang Yimou-self", "Hero", 500⟩] } ∧
      (actorCenter ⟨"Zhang Yimou"⟩).id = "Zhang Yimou" ++ "-self" ∧
      (transformToGraphData (some zhangYimou) "actor").nodes.length = 1 + 1 ∧
      (transformToGraphData (some zhangYimou) "actor").links.length = 1 :=
  transformToGraphData_actor_distinct_movies zhangYimou ⟨"Zhang Yimou"⟩
    [⟨"Hero", some "2002"⟩] rfl rfl rfl (by decide) (by decide) (by decide)

/-- C16: for a director-centric response with a director, at most 29 movies and at most 29
actors whose ids (titles and names) are pairwise distinct and differ from the center id,
`transformToGraphData(data, "director")` returns the center `name + "-self"`, then the movies,
then the actors, hence `1 + m + a` nodes, and `m + a` links, all from the center id. -/
theorem transformToGraphData_director_distinct_leaves (data : Response) (director : Director)
    (hdir : data.director = some director)
    (hm : (data.movies.getD []).length ≤ 29) (ha : (data.actors.getD []).length ≤ 29)
    (hnodup : ((data.movies.getD []).map (·.title) ++
      (data.actors.getD []).map (·.name)).Nodup)
    (hcenter : director.name ++ "-self" ∉
      (data.movies.getD []).map (·.title) ++ (data.actors.getD []).map (·.name)) :
    transformToGraphData (some data) "director" =
        { nodes := directorCenter director ::
            ((data.movies.getD []).map movieLeaf ++ (data.actors.getD []).map actorLeaf)
          links :=
            (data.movies.getD []).map
              (fun m => (⟨director.name ++ "-self", m.title, 500⟩ : GraphLink)) ++
            (data.actors.getD []).map
              (fun a => (⟨director.name ++ "-self", a.name, 500⟩ : GraphLink)) } ∧
      (directorCenter director).id = director.name ++ "-self" ∧
      (transformToGraphData (some data) "director").nodes.length =
        1 + (data.movies.getD []).length + (data.actors.getD []).length ∧
      (transformToGraphData (some data) "director").links.length =
        (data.movies.getD []).length + (data.actors.getD []).length ∧
      ∀ l ∈ (transformToGraphData (some data) "director").links,
        l.source = director.name ++ "-self" := by
  have htm : (data.movies.getD []).take 29 = data.movies.getD [] := List.take_of_length_le hm
  have hta : (data.actors.getD []).take 29 = data.actors.getD [] := List.take_of_length_le ha
  have h0 : transformToGraphData (some data) "director" =
      directorGraph director data.movies data.actors := by
    simp [transformToGraphData, hdir]
  have hall : ((director.name ++ "-self") :: ((data.movies.getD []).map (·.title) ++
      (data.actors.getD []).map (·.name))).Nodup := List.nodup_cons.mpr ⟨hcenter, hnodup⟩
  have h1 := foldl_pushLeaf_nodes_of_fresh (director.name ++ "-self") movieLeaf
    (data.movies.getD []) { nodes := [directorCenter director], links := [] }
    (by
      show ((director.name ++ "-self") ::
        (data.movies.getD []).map (fun m => (movieLeaf m).id)).Nodup
      have := List.nodup_append.mp hnodup
      exact List.nodup_cons.mpr
        ⟨fun hmem => hcenter (List.mem_append_left _ hmem), this.1⟩)
  have h2 := foldl_pushLeaf_nodes_of_fresh (director.name ++ "-self") actorLeaf
    (data.actors.getD [])
    ((data.movies.getD []).foldl
      (fun g movie => pushLeaf (director.name ++ "-self") g (movieLeaf movie))
      { nodes := [directorCenter director], links := [] })
    (by
      rw [h1]
      simpa [movieLeaf, actorLeaf, directorCenter, Function.comp_def] using hall)
  have hnodes : (directorGraph director data.movies data.actors).nodes =
      directorCenter director ::
        ((data.movies.getD []).map movieLeaf ++ (data.actors.getD []).map actorLeaf) := by
    rw [directorGraph_eq, htm, hta, h2, h1]
    rfl
  have hlinks := directorGraph_links director data.movies data.actors
  rw [htm, hta] at hlinks
  have h : transformToGraphData (some data) "director" =
      { nodes := directorCenter director ::
          ((data.movies.getD []).map movieLeaf ++ (data.actors.getD []).map actorLeaf)
        links :=
          (data.movies.getD []).map
            (fun m => (⟨director.name ++ "-self", m.title, 500⟩ : GraphLink)) ++
          (data.actors.getD []).map
            (fun a => (⟨director.name ++ "-self", a.name, 500⟩ : GraphLink)) } := by
    rw [h0]
    calc directorGraph director data.movies data.actors
        = { nodes := (directorGraph director data.movies data.actors).nodes
            links := (directorGraph director data.movies data.actors).links } := rfl
      _ = _ := by rw [hnodes, hlinks]
  refine ⟨h, rfl, ?_, ?_, ?_⟩
  · rw [h]; simp; omega
  · rw [h]; simp
  · intro l hl
    rw [h] at hl
    rcases List.mem_append.mp hl with hl | hl
    · obtain ⟨m, _, rfl⟩ := List.mem_map.mp hl; rfl
    · obtain ⟨a, _, rfl⟩ := List.mem_map.mp hl; rfl

/-- Witness of C16: the response `fengXiaogang` gives the three nodes `"Feng Xiaogang-self"`,
`"M1"`, `"A1"` and two links from the center. -/
theorem transformToGraphData_director_distinct_leaves_witness :
    transformToGraphData (some fengXiaogang) "director" =
        { nodes := directorCenter ⟨"Feng Xiaogang"⟩ ::
            ([movieLeaf ⟨"M1", none⟩] ++ [actorLeaf ⟨"A1"⟩])
          links :=
            [⟨"Feng Xiaogang-self", "M1", 500⟩] ++ [⟨"Feng Xiaogang-self", "A1", 500⟩] } ∧
      (directorCenter ⟨"Feng Xiaogang"⟩).id = "Feng Xiaogang" ++ "-self" ∧
      (transformToGraphData (some fengXiaogang) "director").nodes.length = 1 + 1 + 1 ∧
      (transformToGraphData (some fengXiaogang) "director").links.length = 1 + 1 ∧
      ∀ l ∈ (transformToGraphData (some fengXiaogang) "director").links,
        l.source = "Feng Xiaogang" ++ "-self" :=
  transformToGraphData_director_distinct_leaves fengXiaogang ⟨"Feng Xiaogang"⟩ rfl
    (by decide) (by decide) (by decide) (by decide)

/-- C17, evaluated on the code: an actor-centric response with twenty-six movies yields
twenty-six links, one more than the twenty-five connections announced by the page. -/
theorem transformToGraphData_shows_twenty_six_links :
    (transformToGraphData (some actorWithTwentySixMovies) "actor").links.length = 26 ∧
      (transformToGraphData (some actorWithTwentySixMovies) "actor").links =
        (sampleMovies 26).map (fun m => ⟨"A-self", m.title, 500⟩) ∧
      (transformToGraphData (some actorWithTwentySixMovies) "actor").nodes.length = 27 := by
  decide

theorem foldl_pushLeaf_nodes_sublist {α : Type} (c : String) (f : α → GraphNode)
    (xs : List α) :
    ∀ g : GraphData, ∃ extra,
      (xs.foldl (fun g x => pushLeaf c g (f x)) g).nodes = g.nodes ++ extra ∧
        extra.Sublist (xs.map f) := by
  induction xs with
  | nil => intro g; exact ⟨[], by simp, by simp⟩
  | cons x xs ih =>
    intro g
    obtain ⟨e2, h2, hs2⟩ := ih (pushLeaf c g (f x))
    cases hfind : g.nodes.find? (fun n => n.id == (f x).id) with
    | none =>
      refine ⟨f x :: e2, ?_, ?_⟩
      · rw [List.foldl_cons, h2, pushLeaf_nodes_of_none c g (f x) hfind, List.append_assoc]
        rfl
      · rw [List.map_cons]
        exact List.Sublist.cons₂ _ hs2
    | some m =>
      refine ⟨e2, ?_, ?_⟩
      · rw [List.foldl_cons, h2, pushLeaf_nodes_of_some c g (f x) m hfind]
      · rw [List.map_cons]
        exact List.Sublist.cons _ hs2

theorem foldl_foldl_pushLeaf_nodes_sublist {α β : Type} (c : String) (f : α → GraphNode)
    (f' : β → GraphNode) (xs : List α) (ys : List β) (n : GraphNode) :
    ∃ rest,
      (ys.foldl (fun g y => pushLeaf c g (f' y))
        (xs.foldl (fun g x => pushLeaf c g (f x)) { nodes := [n], links := [] })).nodes =
        n :: rest ∧
      rest.Sublist (xs.map f ++ ys.map f') := by
  obtain ⟨e1, h1, hs1⟩ := foldl_pushLeaf_nodes_sublist c f xs { nodes := [n], links := [] }
  obtain ⟨e2, h2, hs2⟩ := foldl_pushLeaf_nodes_sublist c f' ys
    (xs.foldl (fun g x => pushLeaf c g (f x)) { nodes := [n], links := [] })
  exact ⟨e1 ++ e2, by rw [h2, h1]; rfl, List.Sublist.append hs1 hs2⟩

theorem actorGraph_nodes_sublist (actor : Actor) (movies : List Movie)
    (directors : Option (List Director)) :
    ∃ rest, (actorGraph actor movies directors).nodes = actorCenter actor :: rest ∧
      rest.Sublist ((movies.take 29).map movieLeaf ++ (directors.getD []).map directorLeaf) := by
  rw [actorGraph_eq]
  exact foldl_foldl_pushLeaf_nodes_sublist _ _ _ _ _ _

theorem movieGraph_nodes_sublist (movie : Movie) (actors : List Actor)
    (directors : Option (List Director)) :
    ∃ rest, (movieGraph movie actors directors).nodes = movieCenter movie :: rest ∧
      rest.Sublist
        ((actors.take 29).map actorLeaf ++ (directors.getD []).map directorLeafOfMovie) := by
  rw [movieGraph_eq]
  exact foldl_foldl_pushLeaf_nodes_sublist _ _ _ _ _ _

theorem directorGraph_nodes_sublist (director : Director) (movies : Option (List Movie))
    (actors : Option (List Actor)) :
    ∃ rest, (directorGraph director movies actors).nodes = directorCenter director :: rest ∧
      rest.Sublist
        (((movies.getD []).take 29).map movieLeaf ++
          ((actors.getD []).take 29).map actorLeaf) := by
  rw [directorGraph_eq]
  exact foldl_foldl_pushLeaf_nodes_sublist _ _ _ _ _ _

theorem leaf_constants (n : GraphNode)
    (h : (∃ m, n = movieLeaf m) ∨ (∃ a, n = actorLeaf a) ∨ (∃ d, n = directorLeaf d) ∨
      ∃ d, n = directorLeafOfMovie d) :
    n.val = 40 ∧ n.collisionRadius = 75 := by
  rcases h with ⟨m, rfl⟩ | ⟨a, rfl⟩ | ⟨d, rfl⟩ | ⟨d, rfl⟩ <;> exact ⟨rfl, rfl⟩

theorem target_mem_node_ids (c : String) (g : GraphData) (hg : CenteredAt c g) (l : GraphLink)
    (hl : l ∈ g.links) : ∃ n ∈ g.nodes, n.id = l.target := by
  obtain ⟨n, hn, hid⟩ := List.mem_map.mp (hg.2.2 l hl).2
  exact ⟨n, hn, hid⟩

/-- C18: director leaf ids depend on the query type. For a movie-centric response each
director `d` of the `directors` list yields a link whose target is `d.name + "-director"`, a
node with that id exists, and unless that id was already present (as the center or an actor
leaf) the node has name `d.name` and type director. For an actor-centric response each
director yields a link whose target is the bare `d.name`, a node with id `d.name` exists, and
unless that id was already present (as the center or a movie leaf) it is the director node
with name `d.name`. -/
theorem director_leaf_ids (data : Response) (directors : List Director)
    (hd : data.directors = some directors) :
    (∀ movie actors, data.movie = some movie → data.actors = some actors →
      (transformToGraphData (some data) "movie").links =
        (actors.take 29).map (fun a => (⟨movie.title, a.name, 500⟩ : GraphLink)) ++
        directors.map (fun d => (⟨movie.title, d.name ++ "-director", 500⟩ : GraphLink)) ∧
      ∀ d ∈ directors,
        (∃ n ∈ (transformToGraphData (some data) "movie").nodes,
          n.id = d.name ++ "-director") ∧
        ((d.name ++ "-director" ≠ movie.title ∧
            ∀ a ∈ actors.take 29, a.name ≠ d.name ++ "-director") →
          ∃ n ∈ (transformToGraphData (some data) "movie").nodes,
            n.id = d.name ++ "-director" ∧ n.name = d.name ∧ n.type = "director")) ∧
    (∀ actor movies, data.actor = some actor → data.movies = some movies →
      (transformToGraphData (some data) "actor").links =
        (movies.take 29).map
          (fun m => (⟨actor.name ++ "-self", m.title, 500⟩ : GraphLink)) ++
        directors.map (fun d => (⟨actor.name ++ "-self", d.name, 500⟩ : GraphLink)) ∧
      ∀ d ∈ directors,
        (∃ n ∈ (transformToGraphData (some data) "actor").nodes, n.id = d.name) ∧
        ((d.name ≠ actor.name ++ "-self" ∧ ∀ m ∈ movies.take 29, m.title ≠ d.name) →
          ∃ n ∈ (transformToGraphData (some data) "actor").nodes,
            n.id = d.name ∧ n.name = d.name ∧ n.type = "director")) := by
  constructor
  · intro movie actors hmv hact
    have h0 : transformToGraphData (some data) "movie" =
        movieGraph movie actors (some directors) := by
      simp [transformToGraphData, hmv, hact, hd]
    have hlinks := movieGraph_links movie actors (some directors)
    rw [h0]
    refine ⟨hlinks, ?_⟩
    intro d hdmem
    constructor
    · have hl : (⟨movie.title, d.name ++ "-director", 500⟩ : GraphLink) ∈
          (movieGraph movie actors (some directors)).links := by
        rw [hlinks]
        exact List.mem_append_right _ (List.mem_map.mpr ⟨d, hdmem, rfl⟩)
      exact target_mem_node_ids _ _ (movieGraph_centered movie actors (some directors)) _ hl
    · rintro ⟨hc, hfresh⟩
      refine ⟨directorLeafOfMovie d, ?_, rfl, rfl, rfl⟩
      rw [movieGraph_eq]
      apply mem_foldl_pushLeaf_of_fresh movie.title directorLeafOfMovie
      · intro x y hxy
        have : x.name = y.name := append_right_cancel_string _ _ _ hxy
        simp [directorLeafOfMovie, this]
      · exact hdmem
      · intro n hn
        obtain ⟨extra, hext, hleaves⟩ := foldl_pushLeaf_nodes_leaves movie.title actorLeaf
          (actors.take 29) { nodes := [movieCenter movie], links := [] }
        rw [hext] at hn
        rcases List.mem_append.mp hn with hn | hn
        · rw [List.mem_singleton] at hn
          subst hn
          exact fun h => hc h.symm
        · obtain ⟨a, ha, rfl⟩ := hleaves n hn
          exact hfresh a ha
  · intro actor movies ha hm
    have h0 : transformToGraphData (some data) "actor" =
        actorGraph actor movies (some directors) := by
      simp [transformToGraphData, ha, hm, hd]
    have hlinks := actorGraph_links actor movies (some directors)
    rw [h0]
    refine ⟨hlinks, ?_⟩
    intro d hdmem
    constructor
    · have hl : (⟨actor.name ++ "-self", d.name, 500⟩ : GraphLink) ∈
          (actorGraph actor movies (some directors)).links := by
        rw [hlinks]
        exact List.mem_append_right _ (List.mem_map.mpr ⟨d, hdmem, rfl⟩)
      exact target_mem_node_ids _ _ (actorGraph_centered actor movies (some directors)) _ hl
    · rintro ⟨hc, hfresh⟩
      refine ⟨directorLeaf d, ?_, rfl, rfl, rfl⟩
      rw [actorGraph_eq]
      apply mem_foldl_pushLeaf_of_fresh (actor.name ++ "-self") directorLeaf
      · intro x y hxy
        have : x.name = y.name := hxy
        simp [directorLeaf, this]
      · exact hdmem
      · intro n hn
        obtain ⟨extra, hext, hleaves⟩ := foldl_pushLeaf_nodes_leaves (actor.name ++ "-self")
          movieLeaf (movies.take 29) { nodes := [actorCenter actor], links := [] }
        rw [hext] at hn
        rcases List.mem_append.mp hn with hn | hn
        · rw [List.mem_singleton] at hn
          subst hn
          exact fun h => hc h.symm
        · obtain ⟨m, hm', rfl⟩ := hleaves n hn
          exact hfresh m hm'

/-- Witness of C18 on the movie-centric response `heroWithDirectors`: its two directors are
linked under the ids `"Zhang Yimou-director"` and `"Ang Lee-director"`. -/
theorem director_leaf_ids_witness :
    (transformToGraphData (some heroWithDirectors) "movie").links =
        ([(⟨"Jet Li"⟩ : Actor)].take 29).map
          (fun a => (⟨"Hero", a.name, 500⟩ : GraphLink)) ++
        [(⟨"Zhang Yimou"⟩ : Director), ⟨"Ang Lee"⟩].map
          (fun d => (⟨"Hero", d.name ++ "-director", 500⟩ : GraphLink)) ∧
      ∀ d ∈ [(⟨"Zhang Yimou"⟩ : Director), ⟨"Ang Lee"⟩],
        (∃ n ∈ (transformToGraphData (some heroWithDirectors) "movie").nodes,
          n.id = d.name ++ "-director") ∧
        ((d.name ++ "-director" ≠ "Hero" ∧
            ∀ a ∈ [(⟨"Jet Li"⟩ : Actor)].take 29, a.name ≠ d.name ++ "-director") →
          ∃ n ∈ (transformToGraphData (some heroWithDirectors) "movie").nodes,
            n.id = d.name ++ "-director" ∧ n.name = d.name ∧ n.type = "director") :=
  (director_leaf_ids heroWithDirectors [⟨"Zhang Yimou"⟩, ⟨"Ang Lee"⟩] rfl).1
    ⟨"Hero", some "2002"⟩ [⟨"Jet Li"⟩] rfl rfl

/-- C19: whenever `transformToGraphData` returns a non-empty graph, its first (center) node has
`val = 45` and `collisionRadius = 80`, with id `name + "-self"` for the types actor and
director and the bare title for the type movie; every other node has `val = 40` and
`collisionRadius = 75`; every link has `distance = 500`. -/
theorem transformToGraphData_constants (data : Option Response) (type : String)
    (hne : transformToGraphData data type ≠ emptyGraph) :
    ∃ center rest, (transformToGraphData data type).nodes = center :: rest ∧
      center.val = 45 ∧ center.collisionRadius = 80 ∧
      ((type = "actor" ∧ ∃ a, data.bind (·.actor) = some a ∧ center.id = a.name ++ "-self") ∨
       (type = "movie" ∧ ∃ m, data.bind (·.movie) = some m ∧ center.id = m.title) ∨
       (type = "director" ∧
          ∃ d, data.bind (·.director) = some d ∧ center.id = d.name ++ "-self")) ∧
      (∀ n ∈ rest, n.val = 40 ∧ n.collisionRadius = 75) ∧
      ∀ l ∈ (transformToGraphData data type).links, l.distance = 500 := by
  rcases transformToGraphData_eq_cases data type with
    ⟨ht, a, ms, ha, _, h⟩ | ⟨ht, m, as, hm, _, h⟩ | ⟨ht, d, hd, h⟩ | h
  · obtain ⟨rest, hn, hsub⟩ := actorGraph_nodes_sublist a ms (data.bind (·.directors))
    rw [h]
    refine ⟨actorCenter a, rest, hn, rfl, rfl, Or.inl ⟨ht, a, ha, rfl⟩, ?_, ?_⟩
    · intro n hmem
      rcases List.mem_append.mp (hsub.subset hmem) with hx | hx
      · obtain ⟨x, _, rfl⟩ := List.mem_map.mp hx
        exact leaf_constants _ (Or.inl ⟨x, rfl⟩)
      · obtain ⟨x, _, rfl⟩ := List.mem_map.mp hx
        exact leaf_constants _ (Or.inr (Or.inr (Or.inl ⟨x, rfl⟩)))
    · intro l hl
      rw [actorGraph_links] at hl
      rcases List.mem_append.mp hl with hx | hx
      · obtain ⟨x, _, rfl⟩ := List.mem_map.mp hx; rfl
      · obtain ⟨x, _, rfl⟩ := List.mem_map.mp hx; rfl
  · obtain ⟨rest, hn, hsub⟩ := movieGraph_nodes_sublist m as (data.bind (·.directors))
    rw [h]
    refine ⟨movieCenter m, rest, hn, rfl, rfl, Or.inr (Or.inl ⟨ht, m, hm, rfl⟩), ?_, ?_⟩
    · intro n hmem
      rcases List.mem_append.mp (hsub.subset hmem) with hx | hx
      · obtain ⟨x, _, rfl⟩ := List.mem_map.mp hx
        exact leaf_constants _ (Or.inr (Or.inl ⟨x, rfl⟩))
      · obtain ⟨x, _, rfl⟩ := List.mem_map.mp hx
        exact leaf_constants _ (Or.inr (Or.inr (Or.inr ⟨x, rfl⟩)))
    · intro l hl
      rw [movieGraph_links] at hl
      rcases List.mem_append.mp hl with hx | hx
      · obtain ⟨x, _, rfl⟩ := List.mem_map.mp hx; rfl
      · obtain ⟨x, _, rfl⟩ := List.mem_map.mp hx; rfl
  · obtain ⟨rest, hn, hsub⟩ :=
      directorGraph_nodes_sublist d (data.bind (·.movies)) (data.bind (·.actors))
    rw [h]
    refine ⟨directorCenter d, rest, hn, rfl, rfl, Or.inr (Or.inr ⟨ht, d, hd, rfl⟩), ?_, ?_⟩
    · intro n hmem
      rcases List.mem_append.mp (hsub.subset hmem) with hx | hx
      · obtain ⟨x, _, rfl⟩ := List.mem_map.mp hx
        exact leaf_constants _ (Or.inl ⟨x, rfl⟩)
      · obtain ⟨x, _, rfl⟩ := List.mem_map.mp hx
        exact leaf_constants _ (Or.inr (Or.inl ⟨x, rfl⟩))
    · intro l hl
      rw [directorGraph_links] at hl
      rcases List.mem_append.mp hl with hx | hx
      · obtain ⟨x, _, rfl⟩ := List.mem_map.mp hx; rfl
      · obtain ⟨x, _, rfl⟩ := List.mem_map.mp hx; rfl
  · exact absurd h hne

/-- Witness of C19 on the movie-centric response `heroWithDirectors`. -/
theorem transformToGraphData_constants_witness :
    ∃ center rest, (transformToGraphData (some heroWithDirectors) "movie").nodes =
        center :: rest ∧
      center.val = 45 ∧ center.collisionRadius = 80 ∧
      (("movie" = "actor" ∧ ∃ a, (some heroWithDirectors).bind (·.actor) = some a ∧
          center.id = a.name ++ "-self") ∨
       ("movie" = "movie" ∧ ∃ m, (some heroWithDirectors).bind (·.movie) = some m ∧
          center.id = m.title) ∨
       ("movie" = "director" ∧
          ∃ d, (some heroWithDirectors).bind (·.director) = some d ∧
            center.id = d.name ++ "-self")) ∧
      (∀ n ∈ rest, n.val = 40 ∧ n.collisionRadius = 75) ∧
      ∀ l ∈ (transformToGraphData (some heroWithDirectors) "movie").links,
        l.distance = 500 :=
  transformToGraphData_constants (some heroWithDirectors) "movie" (by decide)

/-- C20: output order is insertion order with the categories in a fixed sequence. When the
guard of a type passes (the centre entity is present and, for the types actor and movie, so is
the first leaf list), the center node is first in `nodes`, the other nodes follow in the order
of the leaves they were created for, and `links` is the links of the first category in input
order followed by those of the second: movies then directors for the type actor, actors then
directors for the type movie, movies then actors for the type director. When no guard passes
the graph is empty. -/
theorem transformToGraphData_order (data : Option Response) :
    (∀ actor movies, data.bind (·.actor) = some actor → data.bind (·.movies) = some movies →
      ∃ rest, (transformToGraphData data "actor").nodes = actorCenter actor :: rest ∧
        rest.Sublist ((movies.take 29).map movieLeaf ++
          ((data.bind (·.directors)).getD []).map directorLeaf) ∧
        (transformToGraphData data "actor").links =
          (movies.take 29).map
            (fun m => (⟨actor.name ++ "-self", m.title, 500⟩ : GraphLink)) ++
          ((data.bind (·.directors)).getD []).map
            (fun d => (⟨actor.name ++ "-self", d.name, 500⟩ : GraphLink))) ∧
    (∀ movie actors, data.bind (·.movie) = some movie → data.bind (·.actors) = some actors →
      ∃ rest, (transformToGraphData data "movie").nodes = movieCenter movie :: rest ∧
        rest.Sublist ((actors.take 29).map actorLeaf ++
          ((data.bind (·.directors)).getD []).map directorLeafOfMovie) ∧
        (transformToGraphData data "movie").links =
          (actors.take 29).map (fun a => (⟨movie.title, a.name, 500⟩ : GraphLink)) ++
          ((data.bind (·.directors)).getD []).map
            (fun d => (⟨movie.title, d.name ++ "-director", 500⟩ : GraphLink))) ∧
    (∀ director, data.bind (·.director) = some director →
      ∃ rest, (transformToGraphData data "director").nodes = directorCenter director :: rest ∧
        rest.Sublist ((((data.bind (·.movies)).getD []).take 29).map movieLeaf ++
          (((data.bind (·.actors)).getD []).take 29).map actorLeaf) ∧
        (transformToGraphData data "director").links =
          (((data.bind (·.movies)).getD []).take 29).map
            (fun m => (⟨director.name ++ "-self", m.title, 500⟩ : GraphLink)) ++
          (((data.bind (·.actors)).getD []).take 29).map
            (fun a => (⟨director.name ++ "-self", a.name, 500⟩ : GraphLink))) ∧
    (∀ type : String,
      (type = "actor" → data.bind (·.actor) = none ∨ data.bind (·.movies) = none) →
      (type = "movie" → data.bind (·.movie) = none ∨ data.bind (·.actors) = none) →
      (type = "director" → data.bind (·.director) = none) →
      transformToGraphData data type = emptyGraph) := by
  refine ⟨?_, ?_, ?_, ?_⟩
  · intro actor movies ha hm
    have h : transformToGraphData data "actor" =
        actorGraph actor movies (data.bind (·.directors)) := by
      simp [transformToGraphData, ha, hm]
    obtain ⟨rest, hn, hsub⟩ := actorGraph_nodes_sublist actor movies (data.bind (·.directors))
    exact ⟨rest, by rw [h]; exact hn, hsub, by rw [h]; exact actorGraph_links _ _ _⟩
  · intro movie actors hm ha
    have h : transformToGraphData data "movie" =
        movieGraph movie actors (data.bind (·.directors)) := by
      simp [transformToGraphData, hm, ha]
    obtain ⟨rest, hn, hsub⟩ := movieGraph_nodes_sublist movie actors (data.bind (·.directors))
    exact ⟨rest, by rw [h]; exact hn, hsub, by rw [h]; exact movieGraph_links _ _ _⟩
  · intro director hd
    have h : transformToGraphData data "director" =
        directorGraph director (data.bind (·.movies)) (data.bind (·.actors)) := by
      simp [transformToGraphData, hd]
    obtain ⟨rest, hn, hsub⟩ :=
      directorGraph_nodes_sublist director (data.bind (·.movies)) (data.bind (·.actors))
    exact ⟨rest, by rw [h]; exact hn, hsub, by rw [h]; exact directorGraph_links _ _ _⟩
  · intro type hA hM hD
    rcases transformToGraphData_eq_cases data type with
      ⟨ht, a, ms, ha, hm, _⟩ | ⟨ht, m, as, hm, ha, _⟩ | ⟨ht, d, hd, _⟩ | h
    · rcases hA ht with h | h
      · rw [h] at ha; cases ha
      · rw [h] at hm; cases hm
    · rcases hM ht with h | h
      · rw [h] at hm; cases hm
      · rw [h] at ha; cases ha
    · rw [hD ht] at hd; cases hd
    · exact h

/-- Witness of C20 on the movie-centric response `heroWithDirectors`: the centre `"Hero"` is
the first node and the link to the cast member precedes the links to the two directors. -/
theorem transformToGraphData_order_witness :
    ∃ rest, (transformToGraphData (some heroWithDirectors) "movie").nodes =
        movieCenter ⟨"Hero", some "2002"⟩ :: rest ∧
      rest.Sublist ((([⟨"Jet Li"⟩] : List Actor).take 29).map actorLeaf ++
        (((some heroWithDirectors).bind (·.directors)).getD []).map directorLeafOfMovie) ∧
      (transformToGraphData (some heroWithDirectors) "movie").links =
        (([⟨"Jet Li"⟩] : List Actor).take 29).map
          (fun a => (⟨(⟨"Hero", some "2002"⟩ : Movie).title, a.name, 500⟩ : GraphLink)) ++
        (((some heroWithDirectors).bind (·.directors)).getD []).map
          (fun d => (⟨(⟨"Hero", some "2002"⟩ : Movie).title, d.name ++ "-director", 500⟩ :
            GraphLink)) :=
  (transformToGraphData_order (some heroWithDirectors)).2.1
    ⟨"Hero", some "2002"⟩ [⟨"Jet Li"⟩] rfl rfl

/-! ## Lemmas on the not-found re-check -/

theorem searchBranch_of_requests_combine (api : Backend) (query type : String)
    (q1 q2 : Request) (h : searchRequests query type = [q1, q2]) :
    ∃ cypherQuery,
      searchBranch api query type =
        afterFetch (api q1) (api q2) (combineData type) cypherQuery := by
  unfold searchRequests at h
  unfold searchBranch
  by_cases ha : type = "actor"
  · rw [if_pos ha] at h
    rw [if_pos ha]
    injection h with h1 h
    injection h with h2 _
    subst h1 h2 ha
    exact ⟨_, rfl⟩
  · rw [if_neg ha] at h
    rw [if_neg ha]
    by_cases hm : type = "movie"
    · rw [if_pos hm] at h
      rw [if_pos hm]
      injection h with h1 h
      injection h with h2 _
      subst h1 h2 hm
      exact ⟨_, rfl⟩
    · rw [if_neg hm] at h
      rw [if_neg hm]
      by_cases hd : type = "director"
      · rw [if_pos hd] at h
        rw [if_pos hd]
        injection h with h1 h
        injection h with h2 _
        subst h1 h2 hd
        exact ⟨_, rfl⟩
      · rw [if_neg hd] at h
        cases h

theorem afterFetch_of_ok (r1 r2 : HttpResponse) (merge : Response → Response → Response)
    (cypherQuery : String) (d1 d2 : Response) (hs1 : r1.status ≠ 404) (hs2 : r2.status ≠ 404)
    (hok1 : r1.ok = true) (hok2 : r2.ok = true) (hj1 : r1.json = some d1)
    (hj2 : r2.json = some d2) :
    afterFetch (some r1) (some r2) merge cypherQuery =
      BranchResult.data (some (merge d1 d2)) cypherQuery := by
  simp [afterFetch, hs1, hs2, hok1, hok2, hj1, hj2]

theorem handleSearch_of_data (api : Backend) (s : State) (query type : String)
    (combinedData : Option Response) (cypherQuery : String) (hq : trim query ≠ "")
    (hb : searchBranch api query type = BranchResult.data combinedData cypherQuery) :
    (handleSearch api s query type).1 =
      if recheckNotFound combinedData type then
        { searchStart s query with
            currentQuery := cypherQuery, notFound := true, searchResults := none,
            graphData := emptyGraph, loading := false }
      else
        { searchStart s query with
            currentQuery := cypherQuery, searchResults := combinedData,
            graphData := transformToGraphData combinedData type, loading := false } := by
  simp only [handleSearch, if_neg hq, hb]
  split <;> rfl

theorem lengthFalsy_iff {α : Type} (list : Option (List α)) :
    lengthFalsy list = true ↔ MissingOrEmpty list := by
  cases list with
  | none => simp [lengthFalsy, MissingOrEmpty]
  | some xs => cases xs <;> simp [lengthFalsy, MissingOrEmpty]

theorem recheckNotFound_iff (merged : Response) (type : String)
    (ht : type = "actor" ∨ type = "movie" ∨ type = "director") :
    recheckNotFound (some merged) type = true ↔ LacksData merged type := by
  rcases ht with rfl | rfl | rfl <;>
    simp [recheckNotFound, LacksData, ← lengthFalsy_iff, Option.isNone_iff_eq_none]

theorem trim_eq_empty (s : String) (h : ∀ c ∈ s.data, isTrimChar c = true) : trim s = "" := by
  have h1 : s.data.dropWhile isTrimChar = [] := List.dropWhile_eq_nil_iff.mpr h
  unfold trim
  rw [h1]
  rfl

/-! ## Claims on the search handlers -/

/-- C11: when both lookups answer OK and their bodies are read, the re-check of `handleSearch`
on the merged object marks the search not-found, with null results and the empty graph, exactly
when the merged object lacks data (center absent; or actor without movies; or movie without
actors; or director with neither movies nor actors); otherwise the merged object is stored as
`searchResults` and the graph is `transformToGraphData(merged, type)`. -/
theorem handleSearch_recheck (api : Backend) (s : State) (query type : String)
    (q1 q2 : Request) (r1 r2 : HttpResponse) (d1 d2 : Response) (hq : trim query ≠ "")
    (hreq : searchRequests query type = [q1, q2]) (h1 : api q1 = some r1)
    (h2 : api q2 = some r2) (hs1 : r1.status ≠ 404) (hs2 : r2.status ≠ 404)
    (hok1 : r1.ok = true) (hok2 : r2.ok = true) (hj1 : r1.json = some d1)
    (hj2 : r2.json = some d2) :
    (LacksData (combineData type d1 d2) type →
      (handleSearch api s query type).1.notFound = true ∧
      (handleSearch api s query type).1.searchResults = none ∧
      (handleSearch api s query type).1.graphData = emptyGraph) ∧
    (¬ LacksData (combineData type d1 d2) type →
      (handleSearch api s query type).1.notFound = false ∧
      (handleSearch api s query type).1.searchResults = some (combineData type d1 d2) ∧
      (handleSearch api s query type).1.graphData =
        transformToGraphData (some (combineData type d1 d2)) type) := by
  obtain ⟨cy, hb⟩ := searchBranch_of_requests_combine api query type q1 q2 hreq
  rw [h1, h2, afterFetch_of_ok r1 r2 _ cy d1 d2 hs1 hs2 hok1 hok2 hj1 hj2] at hb
  have ht := (searchRequests_pair_iff query type).mp ⟨q1, q2, hreq⟩
  rw [handleSearch_of_data api s query type _ cy hq hb]
  constructor
  · intro hl
    rw [if_pos ((recheckNotFound_iff _ type ht).mpr hl)]
    exact ⟨rfl, rfl, rfl⟩
  · intro hl
    rw [if_neg (fun h => hl ((recheckNotFound_iff _ type ht).mp h))]
    exact ⟨rfl, rfl, rfl⟩

/-- Witness of C11: an actor search answered 200 by both lookups with a complete body is
stored and transformed. -/
theorem handleSearch_recheck_witness :
    (handleSearch zhangYimouBackend initialState "Zhang Yimou" "actor").1.notFound = false ∧
      (handleSearch zhangYimouBackend initialState "Zhang Yimou" "actor").1.searchResults =
        some (combineData "actor" zhangYimou zhangYimou) ∧
      (handleSearch zhangYimouBackend initialState "Zhang Yimou" "actor").1.graphData =
        transformToGraphData (some (combineData "actor" zhangYimou zhangYimou)) "actor" :=
  (handleSearch_recheck zhangYimouBackend initialState "Zhang Yimou" "actor"
    ⟨"actors", "Zhang Yimou", "filmography"⟩ ⟨"actors", "Zhang Yimou", "directors"⟩
    ⟨200, true, some zhangYimou⟩ ⟨200, true, some zhangYimou⟩ zhangYimou zhangYimou
    (by decide) rfl rfl rfl (by decide) (by decide) rfl rfl rfl rfl).2
    (by unfold LacksData MissingOrEmpty; decide)

/-- C12: for a query that is empty or consists only of whitespace, `handleSearch` is a no-op:
the state is returned unchanged (every field keeps its value) and no effect is performed (no
URL is pushed, no backend request is issued). -/
theorem handleSearch_blank_query_noop (api : Backend) (s : State) (query type : String)
    (hblank : ∀ c ∈ query.data, isTrimChar c = true) :
    handleSearch api s query type = (s, []) := by
  unfold handleSearch
  rw [if_pos (trim_eq_empty query hblank)]

/-- Witness of C12: a query of two spaces, a tab and a line feed, from a state that holds
results. -/
theorem handleSearch_blank_query_noop_witness :
    handleSearch zhangYimouBackend stateWithResults "  \t\n" "actor" = (stateWithResults, []) :=
  handleSearch_blank_query_noop zhangYimouBackend stateWithResults "  \t\n" "actor"
    (by decide)

/-- C13, as stated, fails: navigating back to a URL with no `q` from a state that holds an
error leaves the error in place. -/
theorem handlePopState_keeps_error :
    stateWithError.error = some "Failed to fetch data. Please try again." ∧
      (handlePopState offlineBackend stateWithError none none).1.error =
        some "Failed to fetch data. Please try again." ∧
      (handlePopState offlineBackend stateWithError none none).1.error ≠
        initialState.error := by
  decide

/-- C13, amended: on navigation to a URL with no `q` parameter the popstate handler resets
`searchResults` to null, `graphData` to the empty graph, `selectedNode` to null and `notFound`
to false (and the query text to `""`, the type to `"actor"`, the displayed query to `""`) from
every prior state; it does not touch `error`, which keeps its prior value, and performs no
effect. -/
theorem handlePopState_without_q (api : Backend) (s : State) (type : Option String) :
    (handlePopState api s none type).1.searchResults = none ∧
      (handlePopState api s none type).1.graphData = emptyGraph ∧
      (handlePopState api s none type).1.selectedNode = none ∧
      (handlePopState api s none type).1.notFound = false ∧
      (handlePopState api s none type).1.searchQuery = "" ∧
      (handlePopState api s none type).1.searchType = "actor" ∧
      (handlePopState api s none type).1.currentQuery = "" ∧
      (handlePopState api s none type).1.error = s.error ∧
      (handlePopState api s none type).2 = [] :=
  ⟨rfl, rfl, rfl, rfl, rfl, rfl, rfl, rfl, rfl⟩

/-- C14: from every prior state and for every new type, `handleTypeChange` sets `searchType`
to the new type, resets the query text to `""`, the results to null, the graph to the empty
graph, the selected node to null and the not-found flag to false, and navigates to the bare
path `"/"`. -/
theorem handleTypeChange_resets (s : State) (newType : String) :
    (handleTypeChange s newType).1.searchType = newType ∧
      (handleTypeChange s newType).1.searchQuery = "" ∧
      (handleTypeChange s newType).1.searchResults = none ∧
      (handleTypeChange s newType).1.graphData = emptyGraph ∧
      (handleTypeChange s newType).1.selectedNode = none ∧
      (handleTypeChange s newType).1.notFound = false ∧
      (handleTypeChange s newType).2 = [Effect.routerPushPath "/"] :=
  ⟨rfl, rfl, rfl, rfl, rfl, rfl, rfl⟩

/-! ## Lemmas on the steps of `handleSearch` -/

theorem replay_append (s : State) (a b : List Step) :
    replay s (a ++ b) = replay (replay s a) b := by
  simp [replay, List.foldl_append]

theorem replay_map_perform (s : State) (es : List Effect) :
    replay s (es.map Step.perform) = s := by
  induction es with
  | nil => rfl
  | cons e es ih => simpa [replay] using ih

theorem effectsOf_append (a b : List Step) :
    effectsOf (a ++ b) = effectsOf a ++ effectsOf b := by
  simp [effectsOf, List.filterMap_append]

theorem effectsOf_map_perform (es : List Effect) : effectsOf (es.map Step.perform) = es := by
  induction es with
  | nil => rfl
  | cons e es ih => simpa [effectsOf] using ih

theorem replay_searchPrelude (s : State) (query type : String) :
    replay s (searchPrelude query type) = searchStart s query := by
  unfold searchPrelude
  rw [replay_append, replay_map_perform]
  rfl

theorem effectsOf_searchPrelude (query type : String) :
    effectsOf (searchPrelude query type) =
      Effect.historyPushState query type :: updateURL query type := by
  unfold searchPrelude
  rw [effectsOf_append, effectsOf_map_perform]
  rfl

theorem map_perform_fetchData (rs : List Request) :
    rs.map (fun r => Step.perform (Effect.fetchData r)) =
      (rs.map Effect.fetchData).map Step.perform := by
  rw [List.map_map]
  rfl

theorem handleSearch_eq_steps (api : Backend) (s : State) (query type : String) :
    handleSearch api s query type =
      (replay s (handleSearchSteps api query type),
        effectsOf (handleSearchSteps api query type)) := by
  by_cases hq : trim query = ""
  · simp only [handleSearch, handleSearchSteps, if_pos hq]
    rfl
  · cases hb : searchBranch api query type with
    | earlyReturn =>
      simp only [handleSearch, handleSearchSteps, if_neg hq, hb, searchEpilogue, replay_append,
        replay_searchPrelude, map_perform_fetchData, replay_map_perform, effectsOf_append,
        effectsOf_searchPrelude, effectsOf_map_perform]
      simp only [replay, effectsOf, List.foldl, List.filterMap, Setter.run, List.append_nil]
    | throws =>
      simp only [handleSearch, handleSearchSteps, if_neg hq, hb, searchEpilogue, replay_append,
        replay_searchPrelude, map_perform_fetchData, replay_map_perform, effectsOf_append,
        effectsOf_searchPrelude, effectsOf_map_perform]
      simp only [replay, effectsOf, List.foldl, List.filterMap, Setter.run]
    | data combinedData cypherQuery =>
      by_cases hr : recheckNotFound combinedData type = true
      · simp only [handleSearch, handleSearchSteps, if_neg hq, hb, searchEpilogue, if_pos hr,
          replay_append, replay_searchPrelude, map_perform_fetchData, replay_map_perform,
          effectsOf_append, effectsOf_searchPrelude, effectsOf_map_perform]
        simp only [replay, effectsOf, List.foldl, List.filterMap, Setter.run, List.append_nil,
          List.cons_append, List.nil_append]
      · simp only [handleSearch, handleSearchSteps, if_neg hq, hb, searchEpilogue, if_neg hr,
          replay_append, replay_searchPrelude, map_perform_fetchData, replay_map_perform,
          effectsOf_append, effectsOf_searchPrelude, effectsOf_map_perform]
        simp only [replay, effectsOf, List.foldl, List.filterMap, Setter.run, List.append_nil,
          List.cons_append, List.nil_append]

theorem not_mem_searchPrelude (query type : String) (r : Request) :
    Step.perform (Effect.fetchData r) ∉ searchPrelude query type := by
  simp [searchPrelude, updateURL]

theorem not_mem_searchEpilogue (api : Backend) (query type : String) (r : Request) :
    Step.perform (Effect.fetchData r) ∉ searchEpilogue api query type := by
  unfold searchEpilogue
  cases searchBranch api query type with
  | earlyReturn => simp
  | throws => simp
  | data combinedData cypherQuery =>
    simp only
    split <;> simp

theorem handleSearch_cases (api : Backend) (s : State) (query type : String)
    (hq : trim query ≠ "") :
    (handleSearch api s query type).1 =
        { searchStart s query with
            notFound := true, searchResults := none, graphData := emptyGraph,
            loading := false } ∨
      (handleSearch api s query type).1 =
        { searchStart s query with
            error := some "Failed to fetch data. Please try again.", loading := false } ∨
      (∃ cypherQuery, (handleSearch api s query type).1 =
        { searchStart s query with
            currentQuery := cypherQuery, notFound := true, searchResults := none,
            graphData := emptyGraph, loading := false }) ∨
      ∃ combinedData cypherQuery, (handleSearch api s query type).1 =
        { searchStart s query with
            currentQuery := cypherQuery, searchResults := combinedData,
            graphData := transformToGraphData combinedData type, loading := false } := by
  cases hb : searchBranch api query type with
  | earlyReturn => exact Or.inl (handleSearch_of_earlyReturn api s query type hq hb)
  | throws =>
    exact Or.inr (Or.inl (by rw [handleSearch_of_throws api s query type hq hb]))
  | data combinedData cypherQuery =>
    have h := handleSearch_of_data api s query type combinedData cypherQuery hq hb
    by_cases hr : recheckNotFound combinedData type = true
    · rw [if_pos hr] at h
      exact Or.inr (Or.inr (Or.inl ⟨cypherQuery, h⟩))
    · rw [if_neg hr] at h
      exact Or.inr (Or.inr (Or.inr ⟨combinedData, cypherQuery, h⟩))

theorem handleSearch_selectedNode (api : Backend) (s : State) (query type : String)
    (hq : trim query ≠ "") : (handleSearch api s query type).1.selectedNode = none := by
  rcases handleSearch_cases api s query type hq with h | h | ⟨_, h⟩ | ⟨_, _, h⟩ <;>
    rw [h] <;> rfl

/-! ## Claims on the outcomes of `handleSearch` -/

/-- C21: for every prior state and every non-blank query, the run of `handleSearch` is its
prelude, then the backend requests, then its epilogue; the prelude calls `setLoading(true)`,
`setError(null)`, `setNotFound(false)` and `setSelectedNode(null)` and issues no request, the
epilogue issues none either, and the state the prelude leaves has `notFound = false`,
`selectedNode = null`, `error = null`, `loading = true`. In particular a search started by
`handleNodeClick` on a node of type movie, actor or director with a non-blank name ends with
`selectedNode = null`, although the click first set it to the node. -/
theorem handleSearch_resets_before_requests (api : Backend) (s : State) (query type : String)
    (node : GraphNode) (hq : trim query ≠ "")
    (hnode : node.type = "movie" ∨ node.type = "actor" ∨ node.type = "director")
    (hname : trim node.name ≠ "") :
    handleSearchSteps api query type =
        searchPrelude query type ++
        (searchRequests query type).map (fun r => Step.perform (Effect.fetchData r)) ++
        searchEpilogue api query type ∧
      (∀ r, Step.perform (Effect.fetchData r) ∉ searchPrelude query type) ∧
      (∀ r, Step.perform (Effect.fetchData r) ∉ searchEpilogue api query type) ∧
      Step.call (Setter.setLoading true) ∈ searchPrelude query type ∧
      Step.call (Setter.setError none) ∈ searchPrelude query type ∧
      Step.call (Setter.setNotFound false) ∈ searchPrelude query type ∧
      Step.call (Setter.setSelectedNode none) ∈ searchPrelude query type ∧
      (replay s (searchPrelude query type)).notFound = false ∧
      (replay s (searchPrelude query type)).selectedNode = none ∧
      (replay s (searchPrelude query type)).error = none ∧
      (replay s (searchPrelude query type)).loading = true ∧
      (handleNodeClick api s node).1.selectedNode = none := by
  refine ⟨?_, not_mem_searchPrelude query type, not_mem_searchEpilogue api query type,
    ?_, ?_, ?_, ?_, ?_, ?_, ?_, ?_, ?_⟩
  · unfold handleSearchSteps
    rw [if_neg hq]
  · simp [searchPrelude]
  · simp [searchPrelude]
  · simp [searchPrelude]
  · simp [searchPrelude]
  · rw [replay_searchPrelude]; rfl
  · rw [replay_searchPrelude]; rfl
  · rw [replay_searchPrelude]; rfl
  · rw [replay_searchPrelude]; rfl
  · unfold handleNodeClick
    simp only
    by_cases hm : node.type = "movie"
    · rw [if_pos hm]
      exact handleSearch_selectedNode api _ node.name "movie" hname
    · rw [if_neg hm]
      by_cases ha : node.type = "actor"
      · rw [if_pos ha]
        exact handleSearch_selectedNode api _ node.name "actor" hname
      · rw [if_neg ha]
        have hd : node.type = "director" := by
          rcases hnode with h | h | h
          · exact absurd h hm
          · exact absurd h ha
          · exact h
        rw [if_pos hd]
        exact handleSearch_selectedNode api _ node.name "director" hname

/-- Witness of C21: a click on the node `"Hero"` of the graph of `zhangYimou`, from the state
that holds that graph. -/
theorem handleSearch_resets_before_requests_witness :
    handleSearchSteps zhangYimouBackend "Hero" "movie" =
        searchPrelude "Hero" "movie" ++
        (searchRequests "Hero" "movie").map (fun r => Step.perform (Effect.fetchData r)) ++
        searchEpilogue zhangYimouBackend "Hero" "movie" ∧
      (∀ r, Step.perform (Effect.fetchData r) ∉ searchPrelude "Hero" "movie") ∧
      (∀ r, Step.perform (Effect.fetchData r) ∉ searchEpilogue zhangYimouBackend "Hero" "movie") ∧
      Step.call (Setter.setLoading true) ∈ searchPrelude "Hero" "movie" ∧
      Step.call (Setter.setError none) ∈ searchPrelude "Hero" "movie" ∧
      Step.call (Setter.setNotFound false) ∈ searchPrelude "Hero" "movie" ∧
      Step.call (Setter.setSelectedNode none) ∈ searchPrelude "Hero" "movie" ∧
      (replay stateWithResults (searchPrelude "Hero" "movie")).notFound = false ∧
      (replay stateWithResults (searchPrelude "Hero" "movie")).selectedNode = none ∧
      (replay stateWithResults (searchPrelude "Hero" "movie")).error = none ∧
      (replay stateWithResults (searchPrelude "Hero" "movie")).loading = true ∧
      (handleNodeClick zhangYimouBackend stateWithResults heroNode).1.selectedNode = none :=
  handleSearch_resets_before_requests zhangYimouBackend stateWithResults "Hero" "movie"
    heroNode (by decide) (by decide) (by decide)

/-- C26: for a non-blank query and a type string other than actor, movie and director,
`handleSearch` issues no backend request (its only effects are the two URL pushes) and ends
not-found: `notFound = true`, `searchResults = null`, the empty graph, `currentQuery = ""`
and no error. -/
theorem handleSearch_unknown_type (api : Backend) (s : State) (query type : String)
    (hq : trim query ≠ "")
    (ht : type ≠ "actor" ∧ type ≠ "movie" ∧ type ≠ "director") :
    (handleSearch api s query type).1.notFound = true ∧
      (handleSearch api s query type).1.searchResults = none ∧
      (handleSearch api s query type).1.graphData = emptyGraph ∧
      (handleSearch api s query type).1.currentQuery = "" ∧
      (handleSearch api s query type).1.error = none ∧
      (handleSearch api s query type).2 =
        [Effect.historyPushState query type, Effect.routerPush query type] := by
  have hb : searchBranch api query type = BranchResult.data none "" := by
    simp [searchBranch, ht.1, ht.2.1, ht.2.2]
  have hfx : (handleSearch api s query type).2 =
      [Effect.historyPushState query type, Effect.routerPush query type] := by
    simp [handleSearch, hq, hb, searchRequests, updateURL, ht.1, ht.2.1, ht.2.2]
  rw [handleSearch_of_data api s query type none "" hq hb]
  exact ⟨rfl, rfl, rfl, rfl, rfl, hfx⟩

/-- Witness of C26: the type `"genre"`, as it could be read from the URL. -/
theorem handleSearch_unknown_type_witness :
    (handleSearch zhangYimouBackend stateWithResults "Hero" "genre").1.notFound = true ∧
      (handleSearch zhangYimouBackend stateWithResults "Hero" "genre").1.searchResults = none ∧
      (handleSearch zhangYimouBackend stateWithResults "Hero" "genre").1.graphData
        = emptyGraph ∧
      (handleSearch zhangYimouBackend stateWithResults "Hero" "genre").1.currentQuery = "" ∧
      (handleSearch zhangYimouBackend stateWithResults "Hero" "genre").1.error = none ∧
      (handleSearch zhangYimouBackend stateWithResults "Hero" "genre").2 =
        [Effect.historyPushState "Hero" "genre", Effect.routerPush "Hero" "genre"] :=
  handleSearch_unknown_type zhangYimouBackend stateWithResults "Hero" "genre" (by decide)
    (by decide)

/-- C27: every call of `handleSearch` with a non-blank query ends with `loading = false`,
whatever the outcome (found, not-found by a 404 or by the re-check, failure). -/
theorem handleSearch_ends_loading_false (api : Backend) (s : State) (query type : String)
    (hq : trim query ≠ "") : (handleSearch api s query type).1.loading = false := by
  rcases handleSearch_cases api s query type hq with h | h | ⟨_, h⟩ | ⟨_, _, h⟩ <;>
    rw [h]

/-- Witness of C27: a search against a backend whose promises reject. -/
theorem handleSearch_ends_loading_false_witness :
    (handleSearch offlineBackend stateWithResults "tom hanks" "actor").1.loading = false :=
  handleSearch_ends_loading_false offlineBackend stateWithResults "tom hanks" "actor"
    (by decide)

/-- C28: after a call of `handleSearch` with a non-blank query, from every prior state, the
not-found flag and the error are never both set: `notFound = true` implies `error = null`, and
a non-null error implies `notFound = false`. -/
theorem handleSearch_notFound_excludes_error (api : Backend) (s : State)
    (query type : String) (hq : trim query ≠ "") :
    ((handleSearch api s query type).1.notFound = true →
        (handleSearch api s query type).1.error = none) ∧
      ((handleSearch api s query type).1.error ≠ none →
        (handleSearch api s query type).1.notFound = false) := by
  rcases handleSearch_cases api s query type hq with h | h | ⟨_, h⟩ | ⟨_, _, h⟩ <;>
    rw [h] <;> simp [searchStart]

/-- Witness of C28: a search that ends not-found by a 404, started from the state left by a
failed import, which holds an error. -/
theorem handleSearch_notFound_excludes_error_witness :
    ((handleSearch notFoundBackend stateAfterFailedImport "hero" "movie").1.notFound = true →
        (handleSearch notFoundBackend stateAfterFailedImport "hero" "movie").1.error = none) ∧
      ((handleSearch notFoundBackend stateAfterFailedImport "hero" "movie").1.error ≠ none →
        (handleSearch notFoundBackend stateAfterFailedImport "hero" "movie").1.notFound
          = false) :=
  handleSearch_notFound_excludes_error notFoundBackend stateAfterFailedImport "hero" "movie"
    (by decide)

/-! ## Lemmas on emptiness and counts -/

theorem actorGraph_ne_empty (actor : Actor) (movies : List Movie)
    (directors : Option (List Director)) : actorGraph actor movies directors ≠ emptyGraph := by
  intro h
  obtain ⟨rest, hn⟩ := actorGraph_nodes actor movies directors
  rw [h] at hn
  cases hn

theorem movieGraph_ne_empty (movie : Movie) (actors : List Actor)
    (directors : Option (List Director)) : movieGraph movie actors directors ≠ emptyGraph := by
  intro h
  obtain ⟨rest, hn⟩ := movieGraph_nodes movie actors directors
  rw [h] at hn
  cases hn

theorem directorGraph_ne_empty (director : Director) (movies : Option (List Movie))
    (actors : Option (List Actor)) : directorGraph director movies actors ≠ emptyGraph := by
  intro h
  obtain ⟨rest, hn⟩ := directorGraph_nodes director movies actors
  rw [h] at hn
  cases hn

theorem pushLeaf_of_present (c : String) (g : GraphData) (leaf : GraphNode)
    (h : ∃ n ∈ g.nodes, n.id = leaf.id) :
    (pushLeaf c g leaf).nodes = g.nodes ∧
      (pushLeaf c g leaf).links = g.links ++ [⟨c, leaf.id, 500⟩] := by
  refine ⟨?_, rfl⟩
  cases hfind : g.nodes.find? (fun n => n.id == leaf.id) with
  | none =>
    obtain ⟨n, hn, hid⟩ := h
    have := List.find?_eq_none.mp hfind n hn
    simp [hid] at this
  | some m => exact pushLeaf_nodes_of_some c g leaf m hfind

theorem center_unique (c : String) (g : GraphData) (hg : CenteredAt c g) (n0 : GraphNode)
    (rest : List GraphNode) (hn : g.nodes = n0 :: rest) (n : GraphNode) (hmem : n ∈ g.nodes)
    (hid : n.id = c) : n = n0 := by
  obtain ⟨⟨m, rest', hm, hc⟩, hnd, _⟩ := hg
  rw [hn] at hm hnd hmem
  injection hm with h1 h2
  subst h1
  rcases List.mem_cons.mp hmem with h | h
  · exact h
  · rw [List.map_cons, List.nodup_cons] at hnd
    exact absurd (List.mem_map.mpr ⟨n, h, hid.trans hc.symm⟩) hnd.1

/-! ## Claims on emptiness, counts and de-duplication -/

/-- C22, as stated, fails: for the type actor, an object with an actor, one co-director and no
`movies` field yields no link, although the list lengths (the missing list counting as empty)
give `min(0, 29) + 1 = 1`. -/
theorem link_count_needs_the_guard :
    (transformToGraphData (some actorWithoutMovies) "actor").links.length = 0 ∧
      min (actorWithoutMovies.movies.getD []).length 29 +
        (actorWithoutMovies.directors.getD []).length = 1 := by
  decide

/-- C22, amended: for an input that passes the guard (center present and, for the types actor
and movie, the `movies` resp. `actors` field present) the number of links is
`min(|movies|, 29) + |directors|` for the type actor, `min(|actors|, 29) + |directors|` for the
type movie and `min(|movies|, 29) + min(|actors|, 29)` for the type director, a missing
`directors` list (and for the type director a missing `movies` or `actors` list) counting as
empty, duplicates included; for every input the number of nodes is at most the number of links
plus one. -/
theorem transformToGraphData_link_count (data : Option Response) (type : String) :
    (∀ actor movies, type = "actor" → data.bind (·.actor) = some actor →
      data.bind (·.movies) = some movies →
      (transformToGraphData data type).links.length =
        min movies.length 29 + ((data.bind (·.directors)).getD []).length) ∧
    (∀ movie actors, type = "movie" → data.bind (·.movie) = some movie →
      data.bind (·.actors) = some actors →
      (transformToGraphData data type).links.length =
        min actors.length 29 + ((data.bind (·.directors)).getD []).length) ∧
    (∀ director, type = "director" → data.bind (·.director) = some director →
      (transformToGraphData data type).links.length =
        min ((data.bind (·.movies)).getD []).length 29 +
          min ((data.bind (·.actors)).getD []).length 29) ∧
    (transformToGraphData data type).nodes.length ≤
      (transformToGraphData data type).links.length + 1 := by
  refine ⟨?_, ?_, ?_, ?_⟩
  · intro actor movies ht ha hm
    subst ht
    have h : transformToGraphData data "actor" =
        actorGraph actor movies (data.bind (·.directors)) := by
      simp [transformToGraphData, ha, hm]
    rw [h, actorGraph_links]
    simp [Nat.min_comm]
  · intro movie actors ht hmv hact
    subst ht
    have h : transformToGraphData data "movie" =
        movieGraph movie actors (data.bind (·.directors)) := by
      simp [transformToGraphData, hmv, hact]
    rw [h, movieGraph_links]
    simp [Nat.min_comm]
  · intro director ht hd
    subst ht
    have h : transformToGraphData data "director" =
        directorGraph director (data.bind (·.movies)) (data.bind (·.actors)) := by
      simp [transformToGraphData, hd]
    rw [h, directorGraph_links]
    simp [Nat.min_comm]
  · rcases transformToGraphData_eq_cases data type with
      ⟨_, a, ms, _, _, h⟩ | ⟨_, m, as, _, _, h⟩ | ⟨_, d, _, h⟩ | h
    · obtain ⟨rest, hn, hsub⟩ := actorGraph_nodes_sublist a ms (data.bind (·.directors))
      rw [h, hn, actorGraph_links]
      have := hsub.length_le
      simp only [List.length_append, List.length_map, List.length_cons] at this ⊢
      omega
    · obtain ⟨rest, hn, hsub⟩ := movieGraph_nodes_sublist m as (data.bind (·.directors))
      rw [h, hn, movieGraph_links]
      have := hsub.length_le
      simp only [List.length_append, List.length_map, List.length_cons] at this ⊢
      omega
    · obtain ⟨rest, hn, hsub⟩ :=
        directorGraph_nodes_sublist d (data.bind (·.movies)) (data.bind (·.actors))
      rw [h, hn, directorGraph_links]
      have := hsub.length_le
      simp only [List.length_append, List.length_map, List.length_cons] at this ⊢
      omega
    · rw [h]
      exact Nat.zero_le _

/-- Witness of the amended C22: thirty movies and two co-directors give `29 + 2` links. -/
theorem transformToGraphData_link_count_witness :
    (transformToGraphData (some actorWithThirtyMovies) "actor").links.length =
      min (sampleMovies 30).length 29 +
        (((some actorWithThirtyMovies).bind (·.directors)).getD []).length :=
  (transformToGraphData_link_count (some actorWithThirtyMovies) "actor").1
    ⟨"A"⟩ (sampleMovies 30) rfl rfl rfl

/-- C23: for a type among actor, movie, director and a merged response that passes the
not-found re-check, `transformToGraphData(merged, type)` has at least one node and at least
one link. -/
theorem transformToGraphData_nonempty_of_recheck (data : Response) (type : String)
    (ht : type = "actor" ∨ type = "movie" ∨ type = "director")
    (hpass : recheckNotFound (some data) type = false) :
    0 < (transformToGraphData (some data) type).nodes.length ∧
      0 < (transformToGraphData (some data) type).links.length := by
  rcases ht with rfl | rfl | rfl
  · cases ha : data.actor with
    | none => simp [recheckNotFound, ha] at hpass
    | some a =>
      cases hm : data.movies with
      | none => simp [recheckNotFound, ha, hm, lengthFalsy] at hpass
      | some ms =>
        cases ms with
        | nil => simp [recheckNotFound, ha, hm, lengthFalsy] at hpass
        | cons m ms =>
          have h : transformToGraphData (some data) "actor" =
              actorGraph a (m :: ms) data.directors := by
            simp [transformToGraphData, ha, hm]
          obtain ⟨rest, hn⟩ := actorGraph_nodes a (m :: ms) data.directors
          rw [h, hn, actorGraph_links]
          simp
  · cases hmv : data.movie with
    | none => simp [recheckNotFound, hmv] at hpass
    | some mv =>
      cases hact : data.actors with
      | none => simp [recheckNotFound, hmv, hact, lengthFalsy] at hpass
      | some as =>
        cases as with
        | nil => simp [recheckNotFound, hmv, hact, lengthFalsy] at hpass
        | cons x as =>
          have h : transformToGraphData (some data) "movie" =
              movieGraph mv (x :: as) data.directors := by
            simp [transformToGraphData, hmv, hact]
          obtain ⟨rest, hn⟩ := movieGraph_nodes mv (x :: as) data.directors
          rw [h, hn, movieGraph_links]
          simp
  · cases hd : data.director with
    | none => simp [recheckNotFound, hd] at hpass
    | some d =>
      have h : transformToGraphData (some data) "director" =
          directorGraph d data.movies data.actors := by
        simp [transformToGraphData, hd]
      obtain ⟨rest, hn⟩ := directorGraph_nodes d data.movies data.actors
      rw [h, hn, directorGraph_links]
      refine ⟨by simp, ?_⟩
      have hne : ¬ (lengthFalsy data.movies = true ∧ lengthFalsy data.actors = true) := by
        intro hboth
        simp [recheckNotFound, hd, hboth.1, hboth.2] at hpass
      cases hm : data.movies with
      | none =>
        cases hact : data.actors with
        | none => exact absurd ⟨by simp [hm, lengthFalsy], by simp [hact, lengthFalsy]⟩ hne
        | some as =>
          cases as with
          | nil => exact absurd ⟨by simp [hm, lengthFalsy], by simp [hact, lengthFalsy]⟩ hne
          | cons x as => simp
      | some ms =>
        cases ms with
        | nil =>
          cases hact : data.actors with
          | none => exact absurd ⟨by simp [hm, lengthFalsy], by simp [hact, lengthFalsy]⟩ hne
          | some as =>
            cases as with
            | nil =>
              exact absurd ⟨by simp [hm, lengthFalsy], by simp [hact, lengthFalsy]⟩ hne
            | cons x as => simp
        | cons m ms => simp

/-- Witness of C23 on the director-centric response `fengXiaogang`. -/
theorem transformToGraphData_nonempty_of_recheck_witness :
    0 < (transformToGraphData (some fengXiaogang) "director").nodes.length ∧
      0 < (transformToGraphData (some fengXiaogang) "director").links.length :=
  transformToGraphData_nonempty_of_recheck fengXiaogang "director" (by decide) (by decide)

/-- C24, as stated, fails in its last part: for the type actor, an object with an actor, a
present but empty `movies` list and one co-director passes the guard and yields the center
node, the director node and one link, not the center node only. -/
theorem empty_movies_list_keeps_director_leaves :
    actorWithEmptyMovies.movies = some [] ∧
      (transformToGraphData (some actorWithEmptyMovies) "actor").nodes.map (·.id) =
        ["A-self", "D"] ∧
      (transformToGraphData (some actorWithEmptyMovies) "actor").links =
        [⟨"A-self", "D", 500⟩] := by
  decide

/-- C24, amended: `transformToGraphData` returns the empty graph exactly when its guard fails
(the type is not one of actor, movie, director; or the center object is missing; or the type is
actor and the `movies` field is missing; or the type is movie and the `actors` field is
missing). For the type director the center alone suffices. For the type actor (movie) with a
present but empty `movies` (`actors`) list the graph is the center node followed only by
director nodes, with one link per director; it is the center node only, with no links, when
the `directors` list is missing or empty. -/
theorem transformToGraphData_empty_iff_guard_fails (data : Option Response) (type : String) :
    (transformToGraphData data type = emptyGraph ↔ GuardFails data type) ∧
    (∀ director, type = "director" → data.bind (·.director) = some director →
      transformToGraphData data type ≠ emptyGraph) ∧
    (∀ actor, type = "actor" → data.bind (·.actor) = some actor →
      data.bind (·.movies) = some [] →
      (∃ rest, (transformToGraphData data type).nodes = actorCenter actor :: rest ∧
        rest.Sublist (((data.bind (·.directors)).getD []).map directorLeaf)) ∧
      (transformToGraphData data type).links =
        ((data.bind (·.directors)).getD []).map
          (fun d => (⟨actor.name ++ "-self", d.name, 500⟩ : GraphLink)) ∧
      (MissingOrEmpty (data.bind (·.directors)) →
        transformToGraphData data type = { nodes := [actorCenter actor], links := [] })) ∧
    (∀ movie, type = "movie" → data.bind (·.movie) = some movie →
      data.bind (·.actors) = some [] →
      (∃ rest, (transformToGraphData data type).nodes = movieCenter movie :: rest ∧
        rest.Sublist (((data.bind (·.directors)).getD []).map directorLeafOfMovie)) ∧
      (transformToGraphData data type).links =
        ((data.bind (·.directors)).getD []).map
          (fun d => (⟨movie.title, d.name ++ "-director", 500⟩ : GraphLink)) ∧
      (MissingOrEmpty (data.bind (·.directors)) →
        transformToGraphData data type = { nodes := [movieCenter movie], links := [] })) := by
  refine ⟨?_, ?_, ?_, ?_⟩
  · by_cases ha : type = "actor"
    · subst ha
      cases hc : data.bind (·.actor) with
      | none => simp [transformToGraphData, GuardFails, hc]
      | some a =>
        cases hm : data.bind (·.movies) with
        | none => simp [transformToGraphData, GuardFails, hc, hm]
        | some ms => simp [transformToGraphData, GuardFails, hc, hm, actorGraph_ne_empty]
    · by_cases hmv : type = "movie"
      · subst hmv
        cases hc : data.bind (·.movie) with
        | none => simp [transformToGraphData, GuardFails, hc]
        | some m =>
          cases hm : data.bind (·.actors) with
          | none => simp [transformToGraphData, GuardFails, hc, hm]
          | some as => simp [transformToGraphData, GuardFails, hc, hm, movieGraph_ne_empty]
      · by_cases hd : type = "director"
        · subst hd
          cases hc : data.bind (·.director) with
          | none => simp [transformToGraphData, GuardFails, hc]
          | some d => simp [transformToGraphData, GuardFails, hc, directorGraph_ne_empty]
        · simp [transformToGraphData, GuardFails, ha, hmv, hd]
  · intro director ht hd
    subst ht
    have h : transformToGraphData data "director" =
        directorGraph director (data.bind (·.movies)) (data.bind (·.actors)) := by
      simp [transformToGraphData, hd]
    rw [h]
    exact directorGraph_ne_empty _ _ _
  · intro actor ht ha hm
    subst ht
    have h : transformToGraphData data "actor" =
        actorGraph actor [] (data.bind (·.directors)) := by
      simp [transformToGraphData, ha, hm]
    obtain ⟨rest, hn, hsub⟩ := actorGraph_nodes_sublist actor [] (data.bind (·.directors))
    have hl := actorGraph_links actor [] (data.bind (·.directors))
    rw [h]
    refine ⟨⟨rest, hn, by simpa using hsub⟩, by simpa using hl, ?_⟩
    intro hmiss
    have hd : (data.bind (·.directors)).getD [] = [] := by
      rcases hmiss with h' | h' <;> rw [h'] <;> rfl
    rw [hd] at hsub hl
    have hrest : rest = [] := List.eq_nil_of_sublist_nil (by simpa using hsub)
    calc actorGraph actor [] (data.bind (·.directors))
        = { nodes := (actorGraph actor [] (data.bind (·.directors))).nodes
            links := (actorGraph actor [] (data.bind (·.directors))).links } := rfl
      _ = _ := by rw [hn, hl, hrest]; rfl
  · intro movie ht hmv hact
    subst ht
    have h : transformToGraphData data "movie" =
        movieGraph movie [] (data.bind (·.directors)) := by
      simp [transformToGraphData, hmv, hact]
    obtain ⟨rest, hn, hsub⟩ := movieGraph_nodes_sublist movie [] (data.bind (·.directors))
    have hl := movieGraph_links movie [] (data.bind (·.directors))
    rw [h]
    refine ⟨⟨rest, hn, by simpa using hsub⟩, by simpa using hl, ?_⟩
    intro hmiss
    have hd : (data.bind (·.directors)).getD [] = [] := by
      rcases hmiss with h' | h' <;> rw [h'] <;> rfl
    rw [hd] at hsub hl
    have hrest : rest = [] := List.eq_nil_of_sublist_nil (by simpa using hsub)
    calc movieGraph movie [] (data.bind (·.directors))
        = { nodes := (movieGraph movie [] (data.bind (·.directors))).nodes
            links := (movieGraph movie [] (data.bind (·.directors))).links } := rfl
      _ = _ := by rw [hn, hl, hrest]; rfl

/-- Witness of the amended C24: the object `actorWithEmptyMovies` (empty `movies` list, one
co-director) under the type actor. -/
theorem transformToGraphData_empty_iff_guard_fails_witness :
    (∃ rest, (transformToGraphData (some actorWithEmptyMovies) "actor").nodes =
        actorCenter ⟨"A"⟩ :: rest ∧
        rest.Sublist
          ((((some actorWithEmptyMovies).bind (·.directors)).getD []).map directorLeaf)) ∧
      (transformToGraphData (some actorWithEmptyMovies) "actor").links =
        (((some actorWithEmptyMovies).bind (·.directors)).getD []).map
          (fun d => (⟨"A" ++ "-self", d.name, 500⟩ : GraphLink)) ∧
      (MissingOrEmpty ((some actorWithEmptyMovies).bind (·.directors)) →
        transformToGraphData (some actorWithEmptyMovies) "actor" =
          { nodes := [actorCenter ⟨"A"⟩], links := [] }) :=
  (transformToGraphData_empty_iff_guard_fails (some actorWithEmptyMovies) "actor").2.2.1
    ⟨"A"⟩ rfl rfl rfl

/-- C25: node de-duplication is first-wins and does not suppress the link. For a movie-centric
response in which a cast member is named like the movie, the only node with that id is the
center node, of type movie, so no actor node is created for the member; every link that targets
the member has source equal to target, and such a self-loop on the center is added when the
member is among the 29 actors looped over. In general a leaf whose id equals the id of an
earlier node leaves the node list unchanged (so the earlier node keeps its type) and still adds
its link. -/
theorem dedup_first_wins (data : Response) (movie : Movie) (actors : List Actor) (a : Actor)
    (hmv : data.movie = some movie) (hact : data.actors = some actors)
    (hname : a.name = movie.title) :
    (∀ n ∈ (transformToGraphData (some data) "movie").nodes, n.id = a.name →
      n = movieCenter movie ∧ n.type = "movie") ∧
    (∀ l ∈ (transformToGraphData (some data) "movie").links, l.target = a.name →
      l.source = l.target) ∧
    (a ∈ actors.take 29 →
      (⟨movie.title, movie.title, 500⟩ : GraphLink) ∈
        (transformToGraphData (some data) "movie").links) ∧
    (∀ (c : String) (g : GraphData) (leaf : GraphNode), (∃ n ∈ g.nodes, n.id = leaf.id) →
      (pushLeaf c g leaf).nodes = g.nodes ∧
        (pushLeaf c g leaf).links = g.links ++ [⟨c, leaf.id, 500⟩]) := by
  have h : transformToGraphData (some data) "movie" =
      movieGraph movie actors data.directors := by
    simp [transformToGraphData, hmv, hact]
  have hcent := movieGraph_centered movie actors data.directors
  obtain ⟨rest, hn⟩ := movieGraph_nodes movie actors data.directors
  rw [h]
  refine ⟨?_, ?_, ?_, pushLeaf_of_present⟩
  · intro n hnmem hid
    have := center_unique movie.title _ hcent (movieCenter movie) rest hn n hnmem
      (hid.trans hname)
    subst this
    exact ⟨rfl, rfl⟩
  · intro l hl htarget
    rw [(hcent.2.2 l hl).1, htarget, hname]
  · intro htake
    rw [movieGraph_links]
    apply List.mem_append_left
    exact List.mem_map.mpr ⟨a, htake, by rw [hname]⟩

/-- Witness of C25 on the movie-centric response `heroWithNamesake`, whose second cast member
is named `"Hero"` like the movie. -/
theorem dedup_first_wins_witness :
    (∀ n ∈ (transformToGraphData (some heroWithNamesake) "movie").nodes,
      n.id = (⟨"Hero"⟩ : Actor).name →
      n = movieCenter ⟨"Hero", some "2002"⟩ ∧ n.type = "movie") ∧
    (∀ l ∈ (transformToGraphData (some heroWithNamesake) "movie").links,
      l.target = (⟨"Hero"⟩ : Actor).name → l.source = l.target) ∧
    ((⟨"Hero"⟩ : Actor) ∈ [(⟨"Jet Li"⟩ : Actor), ⟨"Hero"⟩].take 29 →
      (⟨"Hero", "Hero", 500⟩ : GraphLink) ∈
        (transformToGraphData (some heroWithNamesake) "movie").links) ∧
    (∀ (c : String) (g : GraphData) (leaf : GraphNode), (∃ n ∈ g.nodes, n.id = leaf.id) →
      (pushLeaf c g leaf).nodes = g.nodes ∧
        (pushLeaf c g leaf).links = g.links ++ [⟨c, leaf.id, 500⟩]) :=
  dedup_first_wins heroWithNamesake ⟨"Hero", some "2002"⟩ [⟨"Jet Li"⟩, ⟨"Hero"⟩] ⟨"Hero"⟩
    rfl rfl rfl

/-! ## Lemmas on idempotence with the ASCII case mapping -/

theorem toLower_not_upper (c : Char) : ¬ (c.toLower.toNat ≥ 65 ∧ c.toLower.toNat ≤ 90) := by
  by_cases hr : c.toNat ≥ 65 ∧ c.toNat ≤ 90
  · have h1 : c.toLower = Char.ofNat (c.toNat + 32) := by
      unfold Char.toLower; simp only; rw [if_pos hr]
    rw [h1, toNat_ofNat_of_lt _ (by omega)]
    omega
  · have h1 : c.toLower = c := by
      unfold Char.toLower; simp only; rw [if_neg hr]
    rw [h1]
    exact hr

theorem toLower_of_not_upper (d : Char) (h : ¬ (d.toNat ≥ 65 ∧ d.toNat ≤ 90)) :
    d.toLower = d := by
  unfold Char.toLower; simp only; rw [if_neg h]

theorem toLower_toLower (c : Char) : c.toLower.toLower = c.toLower :=
  toLower_of_not_upper _ (toLower_not_upper c)

theorem toLower_toUpper_of_not_upper (d : Char) (h : ¬ (d.toNat ≥ 65 ∧ d.toNat ≤ 90)) :
    d.toUpper.toLower = d := by
  by_cases hr : d.toNat ≥ 97 ∧ d.toNat ≤ 122
  · have h1 : d.toUpper = Char.ofNat (d.toNat - 32) := by
      unfold Char.toUpper; simp only; rw [if_pos hr]
    have h2 : (Char.ofNat (d.toNat - 32)).toNat = d.toNat - 32 :=
      toNat_ofNat_of_lt _ (by omega)
    rw [h1]
    unfold Char.toLower
    simp only
    rw [h2, if_pos (by omega), Nat.sub_add_cancel (by omega), Char.ofNat_toNat]
  · have h1 : d.toUpper = d := by
      unfold Char.toUpper; simp only; rw [if_neg hr]
    rw [h1]
    exact toLower_of_not_upper d h

theorem toLower_toUpper_toLower (c : Char) : c.toLower.toUpper.toLower = c.toLower :=
  toLower_toUpper_of_not_upper _ (toLower_not_upper c)

theorem intercalate_singleton (sep w : List Char) : sep.intercalate [w] = w := by
  simp [List.intercalate, List.intersperse]

theorem intercalate_cons_cons (sep a b : List Char) (l : List (List Char)) :
    sep.intercalate (a :: b :: l) = a ++ sep ++ sep.intercalate (b :: l) := by
  simp [List.intercalate, List.intersperse]

theorem map_intercalate_space (f : Char → Char) (hf : f ' ' = ' ') (ws : List (List Char)) :
    ([' '].intercalate ws).map f = [' '].intercalate (ws.map (List.map f)) := by
  induction ws with
  | nil => rfl
  | cons a l ih =>
    cases l with
    | nil => simp [intercalate_singleton]
    | cons b l =>
      rw [intercalate_cons_cons, List.map_cons, List.map_cons, intercalate_cons_cons,
        ← List.map_cons, ← ih]
      simp [hf]

theorem intercalate_splitSpaceChars (cs : List Char) :
    [' '].intercalate (splitSpaceChars cs) = cs := by
  induction cs with
  | nil => rfl
  | cons c cs ih =>
    unfold splitSpaceChars
    cases hs : splitSpaceChars cs with
    | nil => exact absurd hs (splitSpaceChars_ne_nil cs)
    | cons w ws =>
      rw [hs] at ih
      by_cases hc : c = ' '
      · rw [if_pos hc, intercalate_cons_cons, ih, hc]
        rfl
      · rw [if_neg hc]
        cases ws with
        | nil =>
          rw [intercalate_singleton] at ih
          simp only [intercalate_singleton, ih]
        | cons v vs =>
          rw [intercalate_cons_cons] at ih
          simp only [intercalate_cons_cons, List.cons_append, ih]

theorem capitalized_data (x : String) :
    (joinSpace ((splitSpace x).map
      (fun word => toUpperCaseAscii (charAt0 word) ++ slice1 word))).data =
      [' '].intercalate ((splitSpaceChars x.data).map
        (fun w => (w.take 1).map Char.toUpper ++ w.drop 1)) := by
  simp only [joinSpace, splitSpace, List.map_map]
  congr 1

theorem map_toLower_capitalized (w : List Char) :
    (((w.map Char.toLower).take 1).map Char.toUpper ++ (w.map Char.toLower).drop 1).map
      Char.toLower = w.map Char.toLower := by
  cases w with
  | nil => rfl
  | cons c cs => simp [toLower_toUpper_toLower, toLower_toLower]

theorem toLowerCaseAscii_capitalized (s : String) :
    toLowerCaseAscii (joinSpace ((splitSpace (toLowerCaseAscii s)).map
      (fun word => toUpperCaseAscii (charAt0 word) ++ slice1 word))) = toLowerCaseAscii s := by
  apply String.ext
  show ((joinSpace ((splitSpace (toLowerCaseAscii s)).map
      (fun word => toUpperCaseAscii (charAt0 word) ++ slice1 word))).data).map Char.toLower =
    s.data.map Char.toLower
  rw [capitalized_data]
  show ([' '].intercalate ((splitSpaceChars (s.data.map Char.toLower)).map
      (fun w => (w.take 1).map Char.toUpper ++ w.drop 1))).map Char.toLower =
    s.data.map Char.toLower
  rw [map_intercalate_space Char.toLower rfl, splitSpaceChars_map_toLower, List.map_map,
    List.map_map]
  have hfun : ((List.map Char.toLower ∘
      fun w => (w.take 1).map Char.toUpper ++ w.drop 1) ∘ List.map Char.toLower) =
      List.map Char.toLower := by
    funext w
    exact map_toLower_capitalized w
  rw [hfun, ← splitSpaceChars_map_toLower, intercalate_splitSpaceChars]

theorem toLowerCaseAscii_capitalizeWordsAscii (s : String) :
    toLowerCaseAscii (capitalizeWordsAscii s) = toLowerCaseAscii s := by
  unfold capitalizeWordsAscii
  simp only
  split
  · rfl
  · exact toLowerCaseAscii_capitalized s

theorem capitalizeWordsAscii_idem (s : String) :
    capitalizeWordsAscii (capitalizeWordsAscii s) = capitalizeWordsAscii s := by
  by_cases hmixed : (s != toUpperCaseAscii s && s != toLowerCaseAscii s) = true
  · have h1 : capitalizeWordsAscii s = s := by
      unfold capitalizeWordsAscii
      simp only
      rw [if_pos hmixed]
    rw [h1, h1]
  · have h1 : capitalizeWordsAscii s =
        joinSpace ((splitSpace (toLowerCaseAscii s)).map
          (fun word => toUpperCaseAscii (charAt0 word) ++ slice1 word)) := by
      unfold capitalizeWordsAscii
      simp only
      rw [if_neg hmixed]
    have h2 : capitalizeWordsAscii (capitalizeWordsAscii s) = capitalizeWordsAscii s ∨
        capitalizeWordsAscii (capitalizeWordsAscii s) =
          joinSpace ((splitSpace (toLowerCaseAscii (capitalizeWordsAscii s))).map
            (fun word => toUpperCaseAscii (charAt0 word) ++ slice1 word)) := by
      generalize capitalizeWordsAscii s = t
      unfold capitalizeWordsAscii
      simp only
      split
      · exact Or.inl rfl
      · exact Or.inr rfl
    rcases h2 with h2 | h2
    · exact h2
    · rw [h2, toLowerCaseAscii_capitalizeWordsAscii, ← h1]

/-! ## The built-ins on ASCII text -/

theorem toNat_toUpper_lt (c : Char) (h : c.toNat < 128) : c.toUpper.toNat < 128 := by
  unfold Char.toUpper
  simp only
  split
  · rw [toNat_ofNat_of_lt _ (by omega)]; omega
  · exact h

theorem toNat_toLower_lt (c : Char) (h : c.toNat < 128) : c.toLower.toNat < 128 := by
  unfold Char.toLower
  simp only
  split
  · rw [toNat_ofNat_of_lt _ (by omega)]; omega
  · exact h

theorem toNat_lt_of_toLower (c : Char) (h : c.toLower.toNat < 128) : c.toNat < 128 := by
  by_cases hr : c.toNat ≥ 65 ∧ c.toNat ≤ 90
  · omega
  · rw [toLower_of_not_upper c hr] at h
    exact h

theorem upperList_of_ascii (cs : List Char) (h : ∀ c ∈ cs, c.toNat < 128) :
    upperList cs = cs.map Char.toUpper := by
  induction cs with
  | nil => rfl
  | cons c cs ih =>
    have hc : c.toNat < 128 := h c (List.mem_cons_self _ _)
    rw [upperList, ih (fun d hd => h d (List.mem_cons_of_mem _ hd)), upperChars, if_pos hc]
    rfl

theorem lowerList_of_ascii (cs : List Char) :
    ∀ before : List Char, (∀ c ∈ cs, c.toNat < 128) →
      lowerList before cs = cs.map Char.toLower := by
  induction cs with
  | nil => intro before _; rfl
  | cons c cs ih =>
    intro before h
    have hc : c.toNat < 128 := h c (List.mem_cons_self _ _)
    have hs : ¬ c.toNat = 931 := by omega
    rw [lowerList, ih _ (fun d hd => h d (List.mem_cons_of_mem _ hd)), if_neg hs, lowerChars,
      if_pos hc]
    rfl

theorem toUpperCase_of_ascii (s : String) (h : IsAscii s) :
    toUpperCase s = toUpperCaseAscii s := by
  unfold toUpperCase toUpperCaseAscii
  rw [upperList_of_ascii s.data h]

theorem toLowerCase_of_ascii (s : String) (h : IsAscii s) :
    toLowerCase s = toLowerCaseAscii s := by
  unfold toLowerCase toLowerCaseAscii
  rw [lowerList_of_ascii s.data [] h]

theorem isAscii_toLowerCaseAscii (s : String) (h : IsAscii s) :
    IsAscii (toLowerCaseAscii s) := by
  intro c hc
  obtain ⟨d, hd, rfl⟩ := List.mem_map.mp hc
  exact toNat_toLower_lt d (h d hd)

theorem mem_of_mem_splitSpaceChars (cs : List Char) :
    ∀ w ∈ splitSpaceChars cs, ∀ c ∈ w, c ∈ cs := by
  induction cs with
  | nil =>
    intro w hw c hc
    simp [splitSpaceChars] at hw
    subst hw
    cases hc
  | cons x xs ih =>
    intro w hw c hc
    unfold splitSpaceChars at hw
    by_cases hx : x = ' '
    · rw [if_pos hx] at hw
      rcases List.mem_cons.mp hw with rfl | hw
      · cases hc
      · exact List.mem_cons_of_mem _ (ih w hw c hc)
    · rw [if_neg hx] at hw
      cases hs : splitSpaceChars xs with
      | nil => exact absurd hs (splitSpaceChars_ne_nil xs)
      | cons v vs =>
        rw [hs] at hw ih
        rcases List.mem_cons.mp hw with rfl | hw
        · rcases List.mem_cons.mp hc with rfl | hc
          · exact List.mem_cons_self _ _
          · exact List.mem_cons_of_mem _ (ih v (List.mem_cons_self _ _) c hc)
        · exact List.mem_cons_of_mem _ (ih w (List.mem_cons_of_mem _ hw) c hc)

theorem isAscii_of_mem_splitSpace (s : String) (h : IsAscii s) (w : String)
    (hw : w ∈ splitSpace s) : IsAscii w := by
  unfold splitSpace at hw
  obtain ⟨l, hl, rfl⟩ := List.mem_map.mp hw
  intro c hc
  exact h c (mem_of_mem_splitSpaceChars s.data l hl c hc)

theorem capitalizeFirst_of_ascii (w : String) (h : IsAscii w) :
    capitalizeFirst w = toUpperCaseAscii (charAt0 w) ++ slice1 w := by
  obtain ⟨l⟩ := w
  cases l with
  | nil => rfl
  | cons c cs =>
    have hc : c.toNat < 128 := h c (List.mem_cons_self _ _)
    have hb : c.toNat < 65536 := by omega
    have h1 : IsAscii ⟨[c]⟩ := by
      intro d hd
      rw [List.mem_singleton] at hd
      subst hd
      exact hc
    show (if c.toNat < 65536 then toUpperCase ⟨[c]⟩ ++ ⟨cs⟩ else ⟨c :: cs⟩) = _
    rw [if_pos hb, toUpperCase_of_ascii _ h1]
    rfl

theorem capitalizeWords_of_ascii (s : String) (h : IsAscii s) :
    capitalizeWords s = capitalizeWordsAscii s := by
  unfold capitalizeWords capitalizeWordsAscii
  rw [toUpperCase_of_ascii s h, toLowerCase_of_ascii s h]
  have hmap : (splitSpace (toLowerCaseAscii s)).map capitalizeFirst =
      (splitSpace (toLowerCaseAscii s)).map
        (fun word => toUpperCaseAscii (charAt0 word) ++ slice1 word) := by
    apply List.map_congr_left
    intro w hw
    exact capitalizeFirst_of_ascii w
      (isAscii_of_mem_splitSpace _ (isAscii_toLowerCaseAscii s h) w hw)
  rw [hmap]

theorem titleCaseWord_of_ascii (w : String) (h : IsAscii w) :
    titleCaseWord w = titleCaseWordAscii w := by
  obtain ⟨l⟩ := w
  cases l with
  | nil => rfl
  | cons c cs =>
    have h1 : IsAscii ⟨[c]⟩ := by
      intro d hd
      rw [List.mem_singleton] at hd
      rw [hd]
      exact h c (List.mem_cons_self _ _)
    have h2 : IsAscii ⟨cs⟩ := fun d hd => h d (List.mem_cons_of_mem _ hd)
    show toUpperCase ⟨[c]⟩ ++ toLowerCase ⟨cs⟩ = _
    rw [toUpperCase_of_ascii _ h1, toLowerCase_of_ascii _ h2]
    rfl

theorem referenceNormalization_of_ascii (s : String) (h : IsAscii s) :
    referenceNormalization s = referenceNormalizationAscii s := by
  unfold referenceNormalization referenceNormalizationAscii titleCase titleCaseAscii
  rw [toUpperCase_of_ascii s h, toLowerCase_of_ascii s h]
  have hmap : (splitSpace s).map titleCaseWord = (splitSpace s).map titleCaseWordAscii := by
    apply List.map_congr_left
    intro w hw
    exact titleCaseWord_of_ascii w (isAscii_of_mem_splitSpace s h w hw)
  rw [hmap]

theorem isAscii_capitalizeWordsAscii (s : String) (h : IsAscii s) :
    IsAscii (capitalizeWordsAscii s) := by
  intro c hc
  have hdata : (capitalizeWordsAscii s).data.map Char.toLower = s.data.map Char.toLower :=
    congrArg String.data (toLowerCaseAscii_capitalizeWordsAscii s)
  have hmem : c.toLower ∈ s.data.map Char.toLower := by
    rw [← hdata]
    exact List.mem_map.mpr ⟨c, hc, rfl⟩
  obtain ⟨d, hd, hdc⟩ := List.mem_map.mp hmem
  apply toNat_lt_of_toLower
  rw [← hdc]
  exact toNat_toLower_lt d (h d hd)

/-! ## Claims on `capitalizeWords` -/

/-- C6, as stated, fails: the one-character string U+0130 (capital I with dot above) is
entirely uppercase and its title-cased version is the string itself, yet `capitalizeWords`
returns the two characters `I`, U+0307: the lowercase image of U+0130 is `i` followed by the
combining dot U+0307, and `charAt(0)` uppercases only the `i`. -/
theorem capitalizeWords_splits_dotted_capital_i :
    "\u0130" = toUpperCase "\u0130" ∧ toLowerCase "\u0130" = "i\u0307" ∧
      referenceNormalization "\u0130" = "\u0130" ∧ capitalizeWords "\u0130" = "I\u0307" ∧
      capitalizeWords "\u0130" ≠ referenceNormalization "\u0130" := by
  decide

/-- C6, amended: on every string of ASCII characters `capitalizeWords` equals the reference
normalisation: a string that is entirely uppercase or entirely lowercase is title-cased (each
space-separated word gets its first letter uppercased and the rest lowercased), a mixed-case
string is returned unchanged. -/
theorem capitalizeWords_eq_referenceNormalization_of_ascii (s : String) (hascii : IsAscii s) :
    capitalizeWords s = referenceNormalization s := by
  rw [capitalizeWords_of_ascii s hascii, referenceNormalization_of_ascii s hascii]
  exact capitalizeWordsAscii_eq_referenceNormalizationAscii s

/-- Witness of the amended C6 at the all-lowercase ASCII string `"tom hanks"`. -/
theorem capitalizeWords_eq_referenceNormalization_of_ascii_witness :
    capitalizeWords "tom hanks" = referenceNormalization "tom hanks" :=
  capitalizeWords_eq_referenceNormalization_of_ascii "tom hanks" (by unfold IsAscii; decide)

/-- C29: on a string of ASCII characters `capitalizeWords` is idempotent and changes only the
case of letters: the lower-cased result equals the lower-cased input, so the length is kept and
the spaces stay where they are. -/
theorem capitalizeWords_idempotent (s : String) (hascii : IsAscii s) :
    capitalizeWords (capitalizeWords s) = capitalizeWords s ∧
      toLowerCase (capitalizeWords s) = toLowerCase s ∧
      (capitalizeWords s).length = s.length ∧
      (capitalizeWords s).data.map (fun c => c == ' ') = s.data.map (fun c => c == ' ') := by
  have hcw := capitalizeWords_of_ascii s hascii
  have hA := isAscii_capitalizeWordsAscii s hascii
  rw [hcw, capitalizeWords_of_ascii _ hA, toLowerCase_of_ascii _ hA,
    toLowerCase_of_ascii s hascii]
  have hlow := toLowerCaseAscii_capitalizeWordsAscii s
  have hdata : (capitalizeWordsAscii s).data.map Char.toLower = s.data.map Char.toLower :=
    congrArg String.data hlow
  refine ⟨capitalizeWordsAscii_idem s, hlow, ?_, ?_⟩
  · have := congrArg List.length hdata
    simpa using this
  · have hsp : ∀ l : List Char,
        l.map (fun c => c == ' ') = (l.map Char.toLower).map (fun c => c == ' ') := by
      intro l
      rw [List.map_map]
      apply List.map_congr_left
      intro c _
      by_cases hc : c = ' '
      · subst hc; rfl
      · have : ¬ c.toLower = ' ' := fun h => hc ((toLower_eq_space c).mp h)
        simp [hc, this]
    rw [hsp, hdata, ← hsp]

/-- Witness of C29 at the ASCII string `"tom HANKS"`. -/
theorem capitalizeWords_idempotent_witness :
    capitalizeWords (capitalizeWords "tom HANKS") = capitalizeWords "tom HANKS" ∧
      toLowerCase (capitalizeWords "tom HANKS") = toLowerCase "tom HANKS" ∧
      (capitalizeWords "tom HANKS").length = "tom HANKS".length ∧
      (capitalizeWords "tom HANKS").data.map (fun c => c == ' ') =
        "tom HANKS".data.map (fun c => c == ' ') :=
  capitalizeWords_idempotent "tom HANKS" (by unfold IsAscii; decide)

end CIProject
